import Mathlib

/-!
# Dino-Run / Bop-It game core: physics, entities and round logic

Shallow embedding of the JavaScript sources
`games/dino-run/engine/Physics.js`, `games/dino-run/engine/Entity.js`,
`games/dino-run/entities/Dino.js`, `games/dino-run/entities/Obstacle.js`,
`games/dino-run/games/DinoRun.js`, `games/bop-it/js/GameEngine.js`,
`src/engine/GameEngine.js`, `src/entities/Ground.js` and of the TypeScript
reducers `apps/server/src/phases/BopItPhase.ts` and
`apps/server/src/phases/DinoRunPhase.ts`.

JavaScript numbers are modelled as exact rationals (`ℚ`): every comparison,
sum, product, `Math.min` and `Math.max` of the source is the rational one, so
the statements below are about the arithmetic the code writes down, not about
IEEE-754 rounding.  `Math.pow`, `Math.random`, `Date.now` and
`performance.now` are not rational functions of the program state and are taken
as explicit arguments.  Timer and animation-frame callbacks are separate steps
of the model (`timerTick`, `gameLoop`), run by whoever drives it.  The value
`NaN` is `none` in an optional field, and the `localStorage` item of the high
score is an optional integer.
-/

/-! ## Plain records -/

/-- A point or vector literal `{ x, y }`. -/
structure Vec2 where
  x : ℚ
  y : ℚ
  deriving DecidableEq, Repr

/-- A rectangle literal `{ x, y, width, height }`. -/
structure Rect where
  x : ℚ
  y : ℚ
  width : ℚ
  height : ℚ
  deriving DecidableEq, Repr

/-- The `dimensions` literal `{ width, height }` of an entity. -/
structure Dimensions where
  width : ℚ
  height : ℚ
  deriving DecidableEq, Repr

/-- The fields assigned by the constructor of `Entity` (Entity.js, lines 6-41).
The colour string, the type tag and the engine back-reference are left out:
no modelled method reads them. -/
structure Entity where
  position : Vec2
  velocity : Vec2
  dimensions : Dimensions
  hasGravity : Bool
  hasAirResistance : Bool
  canJump : Bool
  rotation : ℚ
  scale : Vec2
  opacity : ℚ
  visible : Bool
  shouldRemove : Bool
  isActive : Bool
  age : ℚ
  solid : Bool
  collisionMargin : ℚ
  animationFrame : ℤ
  animationSpeed : ℚ
  animationTimer : ℚ
  deriving DecidableEq, Repr

/-- The value of `axis` in a collision record: `'horizontal'` or `'vertical'`. -/
inductive Axis where
  | horizontal
  | vertical
  deriving DecidableEq, Repr

/-- The record returned by `Physics.detailedCollision`. -/
structure CollisionInfo where
  normal : Vec2
  penetration : ℚ
  axis : Axis
  deriving DecidableEq, Repr

/-! ## Entity.js -/

namespace Entity

/-- The constructor `new Entity(x, y, width, height)`. -/
def new (x y width height : ℚ) : Entity :=
  { position := ⟨x, y⟩
    velocity := ⟨0, 0⟩
    dimensions := ⟨width, height⟩
    hasGravity := false
    hasAirResistance := false
    canJump := false
    rotation := 0
    scale := ⟨1, 1⟩
    opacity := 1
    visible := true
    shouldRemove := false
    isActive := true
    age := 0
    solid := true
    collisionMargin := 0
    animationFrame := 0
    animationSpeed := 0
    animationTimer := 0 }

/-- The method `getBounds()`: the box inset by `collisionMargin` on all sides. -/
def getBounds (e : Entity) : Rect :=
  let margin := e.collisionMargin
  { x := e.position.x + margin
    y := e.position.y + margin
    width := e.dimensions.width - margin * 2
    height := e.dimensions.height - margin * 2 }

/-- The base method `updateAnimation(deltaTime)`. -/
def updateAnimation (e : Entity) (deltaTime : ℚ) : Entity :=
  if e.animationSpeed > 0 then
    let e1 := { e with animationTimer := e.animationTimer + deltaTime }
    if e1.animationTimer ≥ e1.animationSpeed then
      { e1 with animationFrame := e1.animationFrame + 1, animationTimer := 0 }
    else e1
  else e

/-- The base method `customUpdate(deltaTime)`: an empty body. -/
def customUpdate (e : Entity) (_deltaTime : ℚ) : Entity := e

end Entity

/-! ## Physics.js -/

namespace Physics

/-- The constant `Physics.GRAVITY`. -/
def GRAVITY : ℚ := 800

/-- The constant `Physics.TERMINAL_VELOCITY`. -/
def TERMINAL_VELOCITY : ℚ := 600

/-- The constant `Physics.AIR_RESISTANCE` (0.98). -/
def AIR_RESISTANCE : ℚ := 49 / 50

/-- The function `Physics.applyGravity(entity, deltaTime)`. -/
def applyGravity (entity : Entity) (deltaTime : ℚ) : Entity :=
  if entity.hasGravity then
    let e1 := { entity with
      velocity := { entity.velocity with y := entity.velocity.y + GRAVITY * deltaTime } }
    { e1 with velocity := { e1.velocity with y := min e1.velocity.y TERMINAL_VELOCITY } }
  else entity

/-- The function `Physics.updatePosition(entity, deltaTime)`. -/
def updatePosition (entity : Entity) (deltaTime : ℚ) : Entity :=
  { entity with
    position :=
      { x := entity.position.x + entity.velocity.x * deltaTime
        y := entity.position.y + entity.velocity.y * deltaTime } }

/-- The function `Physics.applyAirResistance(entity, deltaTime)`; `pow` stands
for `Math.pow`. -/
def applyAirResistance (pow : ℚ → ℚ → ℚ) (entity : Entity) (deltaTime : ℚ) : Entity :=
  if entity.hasAirResistance then
    { entity with
      velocity := { entity.velocity with x := entity.velocity.x * pow AIR_RESISTANCE deltaTime } }
  else entity

/-- The function `Physics.checkCollision(rect1, rect2)`. -/
def checkCollision (rect1 rect2 : Rect) : Bool :=
  decide (rect1.x < rect2.x + rect2.width) &&
  decide (rect1.x + rect1.width > rect2.x) &&
  decide (rect1.y < rect2.y + rect2.height) &&
  decide (rect1.y + rect1.height > rect2.y)

/-- The function `Physics.detailedCollision(movingEntity, staticRect)`;
`null` is `none`. -/
def detailedCollision (movingEntity : Entity) (staticRect : Rect) : Option CollisionInfo :=
  let entity := movingEntity.getBounds
  if !checkCollision entity staticRect then none
  else
    let overlapX := min (entity.x + entity.width - staticRect.x)
                        (staticRect.x + staticRect.width - entity.x)
    let overlapY := min (entity.y + entity.height - staticRect.y)
                        (staticRect.y + staticRect.height - entity.y)
    if overlapX < overlapY then
      let normal : Vec2 := if entity.x < staticRect.x then ⟨-1, 0⟩ else ⟨1, 0⟩
      some { normal := normal, penetration := overlapX, axis := Axis.horizontal }
    else
      let normal : Vec2 := if entity.y < staticRect.y then ⟨0, -1⟩ else ⟨0, 1⟩
      some { normal := normal, penetration := overlapY, axis := Axis.vertical }

/-- The function `Physics.resolveCollision(entity, collision)`. -/
def resolveCollision (entity : Entity) (collision : Option CollisionInfo) : Entity :=
  match collision with
  | none => entity
  | some c =>
    let e1 := { entity with
      position :=
        { x := entity.position.x - c.normal.x * c.penetration
          y := entity.position.y - c.normal.y * c.penetration } }
    if c.axis = Axis.horizontal then
      { e1 with velocity := { e1.velocity with x := 0 } }
    else
      let e2 := { e1 with velocity := { e1.velocity with y := 0 } }
      if c.normal.y = -1 then { e2 with canJump := true } else e2

end Physics

namespace Entity

/-- The method `update(deltaTime)` of the base class, with the base
`updateAnimation` and `customUpdate` hooks; `pow` stands for `Math.pow`. -/
def update (pow : ℚ → ℚ → ℚ) (e : Entity) (deltaTime : ℚ) : Entity :=
  let e1 := { e with age := e.age + deltaTime }
  let e2 := if e1.hasGravity then Physics.applyGravity e1 deltaTime else e1
  let e3 := if e2.hasAirResistance then Physics.applyAirResistance pow e2 deltaTime else e2
  let e4 := Physics.updatePosition e3 deltaTime
  let e5 := e4.updateAnimation deltaTime
  e5.customUpdate deltaTime

/-- A run of `update` calls, one per delta time of the list, in order. -/
def updateAll (pow : ℚ → ℚ → ℚ) (e : Entity) (dts : List ℚ) : Entity :=
  dts.foldl (update pow) e

end Entity

/-- A run of `Physics.applyGravity` calls, one per delta time of the list. -/
def Physics.applyGravityAll (e : Entity) (dts : List ℚ) : Entity :=
  dts.foldl Physics.applyGravity e

/-! ## Dino.js -/

/-- The values of `animationState`: `'running'`, `'jumping'`, `'hurt'`. -/
inductive AnimationState where
  | running
  | jumping
  | hurt
  deriving DecidableEq, Repr

/-- The values of `expression`: `'happy'`, `'focused'`, `'surprised'`, `'hurt'`. -/
inductive Expression where
  | happy
  | focused
  | surprised
  | hurt
  deriving DecidableEq, Repr

/-- The class `Dino extends Entity`: the inherited fields and the fields its
constructor adds (Dino.js, lines 6-39).  The inherited `animationSpeed` is the
one the constructor overwrites with 0.15. -/
structure Dino extends Entity where
  isOnGround : Bool
  jumpPower : ℚ
  groundY : ℚ
  strikes : ℤ
  maxStrikes : ℤ
  isInvulnerable : Bool
  invulnerabilityTime : ℚ
  invulnerabilityTimer : ℚ
  animationState : AnimationState
  frameTime : ℚ
  currentFrame : ℤ
  facingDirection : ℤ
  expression : Expression
  hasBeard : Bool
  hasSmile : Bool
  deriving DecidableEq, Repr

namespace Dino

/-- The constructor `new Dino(x, y)`: `super(x, y, 50, 60)` and the
assignments that follow it. -/
def new (x y : ℚ) : Dino :=
  { toEntity := { Entity.new x y 50 60 with
      hasGravity := true
      canJump := true
      animationSpeed := 3 / 20 }
    isOnGround := false
    jumpPower := -450
    groundY := 400
    strikes := 0
    maxStrikes := 3
    isInvulnerable := false
    invulnerabilityTime := 3 / 2
    invulnerabilityTimer := 0
    animationState := AnimationState.running
    frameTime := 0
    currentFrame := 0
    facingDirection := 1
    expression := Expression.happy
    hasBeard := true
    hasSmile := true }

/-- The override `updateAnimation(deltaTime)` of `Dino`. -/
def updateAnimation (d : Dino) (deltaTime : ℚ) : Dino :=
  let d1 := { d with frameTime := d.frameTime + deltaTime }
  if d1.frameTime ≥ d1.animationSpeed then
    let d2 := { d1 with currentFrame := d1.currentFrame + 1, frameTime := 0 }
    match d2.animationState with
    | AnimationState.running =>
      if d2.currentFrame ≥ 4 then { d2 with currentFrame := 0 } else d2
    | AnimationState.jumping =>
      if d2.currentFrame ≥ 2 then { d2 with currentFrame := 1 } else d2
    | AnimationState.hurt =>
      if d2.currentFrame ≥ 3 then
        { d2 with
          currentFrame := 0
          animationState := AnimationState.running
          expression := Expression.focused }
      else d2
  else d1

/-- The override `customUpdate(deltaTime)` of `Dino`: the invulnerability
countdown, the ground contact, and a second `updateAnimation`. -/
def customUpdate (d : Dino) (deltaTime : ℚ) : Dino :=
  let d1 :=
    if d.isInvulnerable then
      let d0 := { d with invulnerabilityTimer := d.invulnerabilityTimer - deltaTime }
      if d0.invulnerabilityTimer ≤ 0 then
        { d0 with isInvulnerable := false, expression := Expression.happy }
      else d0
    else d
  let d2 :=
    if d1.position.y ≥ d1.groundY then
      let g := { d1 with
        toEntity := { d1.toEntity with
          position := { d1.position with y := d1.groundY }
          velocity := { d1.velocity with y := 0 }
          canJump := true }
        isOnGround := true }
      if g.animationState = AnimationState.jumping then
        { g with animationState := AnimationState.running }
      else g
    else { d1 with isOnGround := false }
  d2.updateAnimation deltaTime

/-- The inherited method `update(deltaTime)` (Entity.js, lines 46-67) run on a
`Dino`: the same steps as `Entity.update`, with the two hooks dispatched to the
overrides of `Dino`; `pow` stands for `Math.pow`. -/
def update (pow : ℚ → ℚ → ℚ) (d : Dino) (deltaTime : ℚ) : Dino :=
  let d1 := { d with toEntity := { d.toEntity with age := d.age + deltaTime } }
  let d2 :=
    if d1.hasGravity then { d1 with toEntity := Physics.applyGravity d1.toEntity deltaTime }
    else d1
  let d3 :=
    if d2.hasAirResistance then
      { d2 with toEntity := Physics.applyAirResistance pow d2.toEntity deltaTime }
    else d2
  let d4 := { d3 with toEntity := Physics.updatePosition d3.toEntity deltaTime }
  let d5 := d4.updateAnimation deltaTime
  d5.customUpdate deltaTime

/-- The method `jump()`: the returned boolean and the state after the call. -/
def jump (d : Dino) : Bool × Dino :=
  if d.canJump && d.isOnGround && !d.isInvulnerable then
    (true,
      { d with
        toEntity := { d.toEntity with
          velocity := { d.velocity with y := d.jumpPower }
          canJump := false }
        isOnGround := false
        animationState := AnimationState.jumping
        currentFrame := 0
        expression := Expression.focused })
  else (false, d)

/-- The method `takeDamage()`: the returned boolean and the state after the
call. -/
def takeDamage (d : Dino) : Bool × Dino :=
  if d.isInvulnerable then (false, d)
  else
    let d1 := { d with
      strikes := d.strikes + 1
      isInvulnerable := true
      invulnerabilityTimer := d.invulnerabilityTime
      animationState := AnimationState.hurt
      currentFrame := 0
      expression := Expression.hurt }
    if d1.strikes ≥ d1.maxStrikes then (true, d1) else (false, d1)

/-- The method `reset()`. -/
def reset (d : Dino) : Dino :=
  { d with
    strikes := 0
    isInvulnerable := false
    invulnerabilityTimer := 0
    animationState := AnimationState.running
    expression := Expression.happy
    toEntity := { d.toEntity with
      position := { x := 100, y := d.groundY }
      velocity := { x := 0, y := 0 } } }

/-- The method `isGameOver()`. -/
def isGameOver (d : Dino) : Bool := decide (d.strikes ≥ d.maxStrikes)

/-- The assignment `dino.isInvulnerable = false` a caller makes to end the
invulnerability window without letting time pass. -/
def clearInvulnerability (d : Dino) : Dino := { d with isInvulnerable := false }

end Dino

/-- One call on a `Dino`: `update(dt)`, `jump()`, `takeDamage()` or `reset()`. -/
inductive DinoOp where
  | update (dt : ℚ)
  | jump
  | takeDamage
  | reset
  deriving DecidableEq, Repr

namespace Dino

/-- The state after one call. -/
def step (pow : ℚ → ℚ → ℚ) (d : Dino) : DinoOp → Dino
  | DinoOp.update dt => d.update pow dt
  | DinoOp.jump => d.jump.2
  | DinoOp.takeDamage => d.takeDamage.2
  | DinoOp.reset => d.reset

/-- The state after a sequence of calls, in order. -/
def run (pow : ℚ → ℚ → ℚ) (d : Dino) (ops : List DinoOp) : Dino :=
  ops.foldl (step pow) d

/-- Whether every `takeDamage()` of the sequence is made while `isGameOver()`
is false, the way `DinoRun.update` makes it: once `isGameOver()` holds the game
leaves the `playing` state and no collision is checked until `reset()`. -/
def damageOnlyWhilePlaying (pow : ℚ → ℚ → ℚ) : Dino → List DinoOp → Bool
  | _, [] => true
  | d, op :: ops =>
    (if op = DinoOp.takeDamage then !d.isGameOver else true) &&
      damageOnlyWhilePlaying pow (step pow d op) ops

end Dino

/-- The bound the strike counter keeps while damage is only taken before game
over: `maxStrikes` is the constructor value 3 and `0 ≤ strikes ≤ 3`. -/
def Dino.StrikesInRange (d : Dino) : Prop :=
  d.maxStrikes = 3 ∧ 0 ≤ d.strikes ∧ d.strikes ≤ 3

/-- The call sequence of the C9 counterexample: four hits, each but the last
followed by an `update` of 2 seconds, longer than the invulnerability time. -/
def strikeOps : List DinoOp :=
  [DinoOp.takeDamage, DinoOp.update 2, DinoOp.takeDamage, DinoOp.update 2,
   DinoOp.takeDamage, DinoOp.update 2, DinoOp.takeDamage]

/-! ## bop-it/js/GameEngine.js -/

namespace BopIt

/-- The values of `state`: `'START'`, `'PLAYING'`, `'GAME_OVER'`. -/
inductive GameState where
  | START
  | PLAYING
  | GAME_OVER
  deriving DecidableEq, Repr

/-- The JavaScript values a command slot (`currentCommand`, `lastCommand`,
`newCommand`) can hold: `null`, `undefined` (an array read out of range) or a
string.  The derived equality is `===` on these values. -/
inductive Command where
  | null
  | undefined
  | token (s : String)
  deriving DecidableEq, Repr

/-- The fields assigned by the constructor of the standalone Bop-It
`GameEngine` (lines 2-18), without the four listener callbacks.  `gameTimer`
holds, while an interval is installed, the `remainingTime` that interval
started from. -/
structure GameEngine where
  state : GameState
  score : ℤ
  round : ℤ
  currentCommand : Command
  commandStartTime : ℤ
  responseTimeLimit : ℤ
  commands : List String
  lastCommand : Command
  gameTimer : Option ℤ
  highScore : ℤ
  deriving DecidableEq, Repr

/-- The array literal assigned to `this.commands`. -/
def vocabulary : List String := ["BOP", "TWIST", "PULL", "FLICK", "SPIN", "PASS"]

namespace GameEngine

/-- The constructor; `savedHighScore` is the value `getHighScore()` returns. -/
def new (savedHighScore : ℤ) : GameEngine :=
  { state := GameState.START
    score := 0
    round := 1
    currentCommand := Command.null
    commandStartTime := 0
    responseTimeLimit := 3000
    commands := vocabulary
    lastCommand := Command.null
    gameTimer := none
    highScore := savedHighScore }

/-- The expression `this.commands[Math.floor(r * this.commands.length)]` for a
value `r` of `Math.random()`: a read outside the array is `undefined`. -/
def pickCommand (commands : List String) (r : ℚ) : Command :=
  let i : ℤ := ⌊r * (commands.length : ℚ)⌋
  if i < 0 then Command.undefined
  else
    match commands[i.toNat]? with
    | some c => Command.token c
    | none => Command.undefined

/-- The `do ... while` loop of `generateNextCommand` (lines 38-41), reading one
value of `Math.random()` per iteration from `draws`.  The result is the command
the loop exits with and the unread draws; `none` when the draws run out before
the loop exits. -/
def drawCommand (commands : List String) (lastCommand : Command) :
    List ℚ → Option (Command × List ℚ)
  | [] => none
  | r :: rest =>
    let newCommand := pickCommand commands r
    if newCommand = lastCommand ∧ commands.length > 1 then
      drawCommand commands lastCommand rest
    else some (newCommand, rest)

/-- The method `startResponseTimer()`: any installed interval is cleared and a
new one is installed with `remainingTime = responseTimeLimit`. -/
def startResponseTimer (s : GameEngine) : GameEngine :=
  { s with gameTimer := some s.responseTimeLimit }

/-- The method `generateNextCommand()`; `draws` are the successive values of
`Math.random()` and `now` is the value of `Date.now()`.  The result is the
state after the call and the unread draws, `none` when the loop does not exit
on the given draws. -/
def generateNextCommand (s : GameEngine) (draws : List ℚ) (now : ℤ) :
    Option (GameEngine × List ℚ) :=
  if s.state ≠ GameState.PLAYING then some (s, draws)
  else
    match drawCommand s.commands s.lastCommand draws with
    | none => none
    | some (newCommand, rest) =>
      some (startResponseTimer
        { s with
          currentCommand := newCommand
          lastCommand := newCommand
          commandStartTime := now }, rest)

/-- A run of `n` consecutive `generateNextCommand()` calls; the `k`-th call
reads the clock value `clock k`.  The result lists the `currentCommand` each
call left behind, in order. -/
def generateCommands (clock : ℕ → ℤ) :
    ℕ → GameEngine → List ℚ → Option (List Command × GameEngine × List ℚ)
  | 0, s, draws => some ([], s, draws)
  | n + 1, s, draws =>
    match generateNextCommand s draws (clock n) with
    | none => none
    | some (s1, rest) =>
      match generateCommands clock n s1 rest with
      | none => none
      | some (cs, s2, rest2) => some (s1.currentCommand :: cs, s2, rest2)

end GameEngine

end BopIt

/-! ## bop-it/js/GameEngine.js: rounds, responses and the countdown -/

namespace BopIt

/-- Whether a command slot is truthy in JavaScript: `null`, `undefined` and the
empty string are falsy. -/
def Command.isTruthy : Command → Bool
  | Command.null => false
  | Command.undefined => false
  | Command.token s => !(s == "")

/-- The method `toUpperCase()` of a response string, on the ASCII letters
`a` to `z`; every other character is left as it is.  JavaScript also maps
letters outside ASCII (`'ß'` becomes `'SS'`), so a response with such a letter
can match in the code and not here; a match here is a match in the code, and
the six commands and their lower-case spellings are ASCII. -/
def toUpperCase (s : String) : String := String.mk (s.data.map Char.toUpper)

namespace GameEngine

/-- The step table of `updateResponseTime()` (lines 133-149): the limit in
milliseconds the method assigns for a given value of `round`. -/
def responseTimeFor (round : ℤ) : ℤ :=
  if round ≤ 2 then 3000
  else if round ≤ 4 then 2500
  else if round ≤ 6 then 2000
  else if round ≤ 8 then 1500
  else if round ≤ 10 then 1200
  else if round ≤ 12 then 1000
  else if round ≤ 15 then 800
  else 600

/-- The method `updateResponseTime()`. -/
def updateResponseTime (s : GameEngine) : GameEngine :=
  { s with responseTimeLimit := responseTimeFor s.round }

/-- The method `startGame()`; `draws` and `now` are passed on to
`generateNextCommand()`. -/
def startGame (s : GameEngine) (draws : List ℚ) (now : ℤ) : Option (GameEngine × List ℚ) :=
  let s1 := { s with state := GameState.PLAYING, score := 0, round := 1 }
  let s2 := updateResponseTime s1
  generateNextCommand s2 draws now

/-- The method `endGame(reason)` on the engine record: the state becomes
`GAME_OVER`, the countdown is cleared, and `highScore` is raised to `score`
when `score` is greater.  (The write `saveHighScore()` goes to `localStorage`,
outside the record; the `onGameEnd` listener is not modelled.) -/
def endGame (s : GameEngine) : GameEngine :=
  let s1 := { s with state := GameState.GAME_OVER, gameTimer := none }
  if s1.score > s1.highScore then { s1 with highScore := s1.score } else s1

/-- The method `handleTimeout()`. -/
def handleTimeout (s : GameEngine) : GameEngine := endGame s

/-- One run of the interval callback installed by `startResponseTimer()`
(lines 66-77): `remainingTime` drops by the 50 ms update interval and, at or
below zero, the interval is cleared and `handleTimeout()` runs.  A cleared
interval (`gameTimer = none`) never runs its callback. -/
def timerTick (s : GameEngine) : GameEngine :=
  match s.gameTimer with
  | none => s
  | some remainingTime =>
    let remaining := remainingTime - 50
    if remaining ≤ 0 then handleTimeout { s with gameTimer := none }
    else { s with gameTimer := some remaining }

/-- The method `processPlayerResponse(response)`: the returned boolean and the
state after the call; `now` is the value of `Date.now()`.  On a correct response the method also schedules
`generateNextCommand()` with `setTimeout`; that later call is a separate step
(`generateNextCommand`). -/
def processPlayerResponse (s : GameEngine) (response : String) (now : ℤ) : Bool × GameEngine :=
  if s.state ≠ GameState.PLAYING ∨ s.currentCommand.isTruthy = false then (false, s)
  else
    let responseTime := now - s.commandStartTime
    let isCorrect : Bool := decide (Command.token (toUpperCase response) = s.currentCommand)
    let s1 := { s with gameTimer := none }
    if isCorrect then
      let timeBonus : ℤ := max 0 ⌊(((s1.responseTimeLimit - responseTime : ℤ) : ℚ)) / 100⌋
      let s2 := { s1 with score := s1.score + (1 + timeBonus), round := s1.round + 1 }
      (true, updateResponseTime s2)
    else (false, endGame s1)

/-- The state after `n` runs of the countdown callback. -/
def ticks (n : ℕ) (s : GameEngine) : GameEngine := (timerTick)^[n] s

/-- A response handled `e` milliseconds after the command was issued by a
countdown that runs exactly on schedule: the `⌊e / 50⌋` interval callbacks due
by then have run before `processPlayerResponse` is entered. -/
def respondOnSchedule (s : GameEngine) (e : ℕ) (response : String) : Bool × GameEngine :=
  processPlayerResponse (ticks (e / 50) s) response (s.commandStartTime + e)

end GameEngine

end BopIt

/-! ## apps/server/src/phases/BopItPhase.ts -/

namespace BopItPhase

/-- The interface `BopItCommand`.  `command` is the array read
`COMMANDS[...]`, `timeLimit` the quotient `BASE_TIME_LIMIT / gameSpeed`. -/
structure BopItCommand where
  command : BopIt.Command
  timestamp : ℤ
  timeLimit : ℚ
  deriving DecidableEq, Repr

/-- The interface `BopItState`; `currentCommand = null` is `none`. -/
structure BopItState where
  currentCommand : Option BopItCommand
  score : ℤ
  round : ℤ
  highScore : ℤ
  isGameActive : Bool
  gameSpeed : ℚ
  correctStreak : ℤ
  deriving DecidableEq, Repr

/-- The constant `COMMANDS`. -/
def COMMANDS : List String := ["BOP", "TWIST", "PULL", "FLICK", "SPIN", "PASS"]

/-- The constant `BASE_TIME_LIMIT` (milliseconds). -/
def BASE_TIME_LIMIT : ℚ := 3000

/-- The constant `SPEED_INCREASE_RATE` (0.95). -/
def SPEED_INCREASE_RATE : ℚ := 19 / 20

/-- The actions `onAction` distinguishes; `other` is any other action type. -/
inductive Action where
  | START_GAME
  | PLAYER_COMMAND (command : String) (playerId : String)
  | RESET_GAME
  | other
  deriving DecidableEq, Repr

/-- The `bopItState` that `onEnter` installs. -/
def onEnter : BopItState :=
  { currentCommand := none
    score := 0
    round := 1
    highScore := 0
    isGameActive := false
    gameSpeed := 1
    correctStreak := 0 }

/-- The function `generateNewCommand(gameSpeed)`; `r` is the value of
`Math.random()` and `now` the value of `Date.now()`.  The quotient is the
rational one, so it is meaningful for `gameSpeed ≠ 0` (JavaScript gives
`Infinity` at 0). -/
def generateNewCommand (gameSpeed : ℚ) (r : ℚ) (now : ℤ) : BopItCommand :=
  { command := BopIt.GameEngine.pickCommand COMMANDS r
    timestamp := now
    timeLimit := BASE_TIME_LIMIT / gameSpeed }

/-- The reducer `onAction` on the `bopItState` part of the state.  `now` is the
value `Date.now()` has in the on-time test, `issuedAt` the value it has inside
`generateNewCommand`, and `r` the value of `Math.random()`. -/
def onAction (s : BopItState) (action : Action) (now issuedAt : ℤ) (r : ℚ) : BopItState :=
  match action with
  | Action.START_GAME =>
    let newCommand := generateNewCommand s.gameSpeed r issuedAt
    { s with
      isGameActive := true
      currentCommand := some newCommand
      score := 0
      round := 1
      correctStreak := 0 }
  | Action.PLAYER_COMMAND command _playerId =>
    match s.currentCommand with
    | none => s
    | some current =>
      if !s.isGameActive then s
      else
        let isCorrect : Bool := decide (BopIt.Command.token command = current.command)
        let isOnTime : Bool := decide ((((now - current.timestamp : ℤ) : ℚ)) < current.timeLimit)
        if isCorrect && isOnTime then
          let newScore := s.score + 10
          let newStreak := s.correctStreak + 1
          let newRound := s.round + 1
          let newSpeed := min (s.gameSpeed * SPEED_INCREASE_RATE) 3
          let newCommand := generateNewCommand newSpeed r issuedAt
          { s with
            score := newScore
            round := newRound
            correctStreak := newStreak
            gameSpeed := newSpeed
            currentCommand := some newCommand }
        else
          let newHighScore := max s.highScore s.score
          { s with
            isGameActive := false
            currentCommand := none
            highScore := newHighScore }
  | Action.RESET_GAME =>
    { s with
      currentCommand := none
      score := 0
      round := 1
      isGameActive := false
      gameSpeed := 1
      correctStreak := 0 }
  | Action.other => s

end BopItPhase

/-! ## src/engine/GameEngine.js -/

/-- The loop fields assigned by the constructor of the core `GameEngine`
(lines 9-16): the running flag, the last captured timestamp (milliseconds), the
last delta time (seconds) and the FPS counters. -/
structure LoopState where
  isRunning : Bool
  lastTime : ℚ
  deltaTime : ℚ
  frameCount : ℤ
  fpsDisplay : ℤ
  lastFPSUpdate : ℚ
  deriving DecidableEq, Repr

namespace LoopState

/-- The values the constructor assigns. -/
def new : LoopState :=
  { isRunning := false
    lastTime := 0
    deltaTime := 0
    frameCount := 0
    fpsDisplay := 0
    lastFPSUpdate := 0 }

/-- Lines 51-55 of `gameLoop`: the delta time in seconds since `lastTime`,
capped at 1/30, and the new `lastTime`. -/
def beginFrame (l : LoopState) (currentTime : ℚ) : LoopState :=
  let l1 := { l with deltaTime := (currentTime - l.lastTime) / 1000 }
  let l2 := { l1 with lastTime := currentTime }
  { l2 with deltaTime := min l2.deltaTime (1 / 30) }

/-- The method `updateFPS(currentTime)`. -/
def updateFPS (l : LoopState) (currentTime : ℚ) : LoopState :=
  let l1 := { l with frameCount := l.frameCount + 1 }
  if currentTime - l1.lastFPSUpdate ≥ 1000 then
    { l1 with fpsDisplay := l1.frameCount, frameCount := 0, lastFPSUpdate := currentTime }
  else l1

/-- The two assignments of `start()` that precede its `gameLoop()` call; `now`
is the value of `performance.now()`. -/
def markStarted (l : LoopState) (now : ℚ) : LoopState :=
  { l with isRunning := true, lastTime := now }

/-- The method `stop()`. -/
def stop (l : LoopState) : LoopState := { l with isRunning := false }

/-- The value the parameter of `gameLoop = (currentTime = 0) => ...` takes in
the call `this.gameLoop()` that `start()` makes without an argument. -/
def startFrameTime : ℚ := 0

end LoopState

/-- What the engine calls on an entity object: `update(deltaTime)`, giving the
object after the call, and the flag `shouldRemove`. -/
structure EntityOps (E : Type) where
  update : E → ℚ → E
  shouldRemove : E → Bool

/-- The core `GameEngine`: the loop fields and the array `entities`.  An array
slot holds a reference, modelled as the pair of the object's identity and its
contents; `performanceStats.entityCount` is `entityCount`. -/
structure GameEngine (E : Type) extends LoopState where
  entities : List (ℕ × E)
  entityCount : ℤ

namespace GameEngine

variable {E : Type}

/-- The constructor. -/
def new : GameEngine E :=
  { toLoopState := LoopState.new, entities := [], entityCount := 0 }

/-- The method `addEntity(entity)`. -/
def addEntity (g : GameEngine E) (entity : ℕ × E) : GameEngine E :=
  { g with entities := g.entities ++ [entity] }

/-- The array after `removeEntity(entity)`: `indexOf` finds the first slot
holding the same object and `splice` removes that slot. -/
def removeFrom (entities : List (ℕ × E)) (entity : ℕ × E) : List (ℕ × E) :=
  entities.eraseP (fun x => decide (x.1 = entity.1))

/-- The method `removeEntity(entity)`. -/
def removeEntity (g : GameEngine E) (entity : ℕ × E) : GameEngine E :=
  { g with entities := removeFrom g.entities entity }

/-- The `for` loop of `update(deltaTime)` (lines 79-90) from index `i - 1` down
to 0, on the array `entities`.  `calls` records, in call order, the identity of
each object whose `update` was invoked.  A slot read beyond the array gives
`undefined`, on which `entity.update` throws: the result is then `none`. -/
def updateLoop (ops : EntityOps E) (deltaTime : ℚ) :
    ℕ → List (ℕ × E) → List ℕ → Option (List (ℕ × E) × List ℕ)
  | 0, entities, calls => some (entities, calls)
  | i + 1, entities, calls =>
    match entities[i]? with
    | none => none
    | some entity =>
      let updated : ℕ × E := (entity.1, ops.update entity.2 deltaTime)
      let entities1 := entities.set i updated
      let entities2 :=
        if ops.shouldRemove updated.2 then removeFrom entities1 updated else entities1
      updateLoop ops deltaTime i entities2 (calls ++ [entity.1])

/-- The method `update(deltaTime)` of the core engine, with the trace of
`update` calls it made. -/
def update (ops : EntityOps E) (g : GameEngine E) (deltaTime : ℚ) :
    Option (GameEngine E × List ℕ) :=
  match updateLoop ops deltaTime g.entities.length g.entities [] with
  | none => none
  | some (entities, calls) =>
    some ({ g with entities := entities, entityCount := (entities.length : ℤ) }, calls)

/-- The arrow function `gameLoop(currentTime)` of the core engine, without the
rendering and the timing statistics: nothing happens unless the engine is
running; otherwise the delta time is computed, `update` runs with it, and the
FPS counter is advanced. -/
def gameLoop (ops : EntityOps E) (g : GameEngine E) (currentTime : ℚ) :
    Option (GameEngine E) :=
  if !g.isRunning then some g
  else
    let g1 := { g with toLoopState := g.toLoopState.beginFrame currentTime }
    match update ops g1 g1.deltaTime with
    | none => none
    | some (g2, _) => some { g2 with toLoopState := g2.toLoopState.updateFPS currentTime }

/-- The method `start()`; `now` is the value of `performance.now()`.  The call
`this.gameLoop()` is made without an argument. -/
def start (ops : EntityOps E) (g : GameEngine E) (now : ℚ) : Option (GameEngine E) :=
  gameLoop ops { g with toLoopState := g.toLoopState.markStarted now } LoopState.startFrameTime

/-- The method `stop()`. -/
def stop (g : GameEngine E) : GameEngine E :=
  { g with toLoopState := g.toLoopState.stop }

end GameEngine

/-! ## Obstacle.js: obstacles -/

/-- The obstacle kinds: the five strings the spawner passes, and `cactus`, the
default value of the constructor's `type` parameter. -/
inductive ObstacleType where
  | cactus_small
  | cactus_large
  | cactus_double
  | bird_low
  | bird_high
  | cactus
  deriving DecidableEq, Repr

/-- The class `Obstacle extends Entity`: the inherited fields and those its
constructor adds.  `obstacleType` is the value of both `type` and
`obstacleType`; `gameSpeed` is `undefined` (`none`) until the spawner assigns
it. -/
structure Obstacle extends Entity where
  obstacleType : ObstacleType
  speed : ℚ
  passed : Bool
  points : ℤ
  gameSpeed : Option ℚ
  deriving DecidableEq, Repr

namespace Obstacle

/-- The static method `getDimensions(type)`. -/
def getDimensions : ObstacleType → Dimensions
  | ObstacleType.cactus_small => ⟨20, 40⟩
  | ObstacleType.cactus_large => ⟨30, 60⟩
  | ObstacleType.cactus_double => ⟨35, 55⟩
  | ObstacleType.bird_low => ⟨35, 25⟩
  | ObstacleType.bird_high => ⟨35, 25⟩
  | ObstacleType.cactus => ⟨25, 50⟩

/-- The method `getPointValue()`, as a function of `type`. -/
def getPointValue : ObstacleType → ℤ
  | ObstacleType.cactus_small => 10
  | ObstacleType.cactus_large => 15
  | ObstacleType.cactus_double => 20
  | ObstacleType.bird_low => 25
  | ObstacleType.bird_high => 20
  | ObstacleType.cactus => 10

/-- The test `this.type.includes('bird')`. -/
def isBird : ObstacleType → Bool
  | ObstacleType.bird_low => true
  | ObstacleType.bird_high => true
  | _ => false

/-- The constructor `new Obstacle(x, y, type)`. -/
def new (x y : ℚ) (type : ObstacleType) : Obstacle :=
  { toEntity := { Entity.new x y (getDimensions type).width (getDimensions type).height with
      velocity := ⟨-300, 0⟩
      animationFrame := 0
      animationSpeed := 1 / 5
      animationTimer := 0 }
    obstacleType := type
    speed := -300
    passed := false
    points := getPointValue type
    gameSpeed := none }

/-- The override `customUpdate(deltaTime)` of `Obstacle`. -/
def customUpdate (o : Obstacle) (deltaTime : ℚ) : Obstacle :=
  let o1 :=
    if isBird o.obstacleType then
      let b := { o with toEntity := { o.toEntity with
        animationTimer := o.animationTimer + deltaTime } }
      if b.animationTimer ≥ b.animationSpeed then
        { b with toEntity := { b.toEntity with
          animationFrame := Int.tmod (b.animationFrame + 1) 3
          animationTimer := 0 } }
      else b
    else o
  let o2 :=
    if o1.position.x + o1.dimensions.width < -50 then
      { o1 with toEntity := { o1.toEntity with shouldRemove := true } }
    else o1
  match o2.gameSpeed with
  | none => o2
  | some gs =>
    if gs ≠ 0 then
      { o2 with toEntity := { o2.toEntity with
        velocity := { o2.velocity with x := o2.speed * gs } } }
    else o2

/-- The inherited method `update(deltaTime)` run on an `Obstacle`: the steps of
`Entity.update` with the base `updateAnimation` and the override
`customUpdate`; `pow` stands for `Math.pow`. -/
def update (pow : ℚ → ℚ → ℚ) (o : Obstacle) (deltaTime : ℚ) : Obstacle :=
  let o1 := { o with toEntity := { o.toEntity with age := o.age + deltaTime } }
  let o2 :=
    if o1.hasGravity then { o1 with toEntity := Physics.applyGravity o1.toEntity deltaTime }
    else o1
  let o3 :=
    if o2.hasAirResistance then
      { o2 with toEntity := Physics.applyAirResistance pow o2.toEntity deltaTime }
    else o2
  let o4 := { o3 with toEntity := Physics.updatePosition o3.toEntity deltaTime }
  let o5 := { o4 with toEntity := o4.toEntity.updateAnimation deltaTime }
  o5.customUpdate deltaTime

/-- The method `checkPassed(dinoX)`: the returned number and the obstacle
after the call. -/
def checkPassed (o : Obstacle) (dinoX : ℚ) : ℤ × Obstacle :=
  if !o.passed && decide (o.position.x + o.dimensions.width < dinoX) then
    (o.points, { o with passed := true })
  else (0, o)

/-- The override `getBounds()` of `Obstacle`: a fixed margin of 3. -/
def getBounds (o : Obstacle) : Rect :=
  let margin : ℚ := 3
  { x := o.position.x + margin
    y := o.position.y + margin
    width := o.dimensions.width - margin * 2
    height := o.dimensions.height - margin * 2 }

/-- The inherited method `collidesWith(other)` called on an obstacle with a
Dino: the obstacle's own `getBounds()` against the Dino's. -/
def collidesWith (o : Obstacle) (other : Dino) : Bool :=
  if !o.solid || !other.solid then false
  else Physics.checkCollision o.getBounds other.toEntity.getBounds

/-- The inherited method `destroy()`; `onDestroy()` is the empty base hook. -/
def destroy (o : Obstacle) : Obstacle :=
  { o with toEntity := { o.toEntity with shouldRemove := true } }

/-- The method `updateSpeed(newSpeed)`. -/
def updateSpeed (o : Obstacle) (newSpeed : ℚ) : Obstacle :=
  { o with
    speed := newSpeed
    toEntity := { o.toEntity with velocity := { o.velocity with x := newSpeed } } }

/-- One frame of an obstacle as `DinoRun.update` drives it: its `update(dt)`
and then `checkPassed(dinoX)`. -/
def scoreFrame (pow : ℚ → ℚ → ℚ) (o : Obstacle) (frame : ℚ × ℚ) : ℤ × Obstacle :=
  (o.update pow frame.1).checkPassed frame.2

/-- The numbers `checkPassed` returns over a run of frames `(dt, dinoX)`, and
the obstacle after the run. -/
def scoreFrames (pow : ℚ → ℚ → ℚ) : Obstacle → List (ℚ × ℚ) → List ℤ × Obstacle
  | o, [] => ([], o)
  | o, frame :: frames =>
    let r := scoreFrame pow o frame
    let rest := scoreFrames pow r.2 frames
    (r.1 :: rest.1, rest.2)

/-- The numbers a run of bare `checkPassed(dinoX)` calls returns, and the
obstacle after the run. -/
def checkPassedAll : Obstacle → List ℚ → List ℤ × Obstacle
  | o, [] => ([], o)
  | o, dinoX :: rest =>
    let r := o.checkPassed dinoX
    let tail := checkPassedAll r.2 rest
    (r.1 :: tail.1, tail.2)

end Obstacle

/-! ## Ground.js: the scrolling ground -/

/-- The class `Ground extends Entity`, without the decorative `groundTexture`
array (random rocks and grass that only `customRender` reads). -/
structure Ground extends Entity where
  scrollSpeed : ℚ
  groundLineY : ℚ
  deriving DecidableEq, Repr

namespace Ground

/-- The constructor `new Ground(x, y)`; the defaults are `x = 0`, `y = 460`. -/
def new (x y : ℚ) : Ground :=
  { toEntity := { Entity.new x y 800 140 with
      solid := false
      velocity := ⟨-200, 0⟩ }
    scrollSpeed := -200
    groundLineY := 460 }

/-- The override `customUpdate(deltaTime)` of `Ground`. -/
def customUpdate (g : Ground) (deltaTime : ℚ) : Ground :=
  let g1 := { g with toEntity := { g.toEntity with
    position := { g.position with x := g.position.x + g.velocity.x * deltaTime } } }
  if g1.position.x ≤ -g1.dimensions.width then
    { g1 with toEntity := { g1.toEntity with position := { g1.position with x := 0 } } }
  else g1

/-- The inherited method `update(deltaTime)` run on a `Ground`; `pow` stands
for `Math.pow`. -/
def update (pow : ℚ → ℚ → ℚ) (g : Ground) (deltaTime : ℚ) : Ground :=
  let g1 := { g with toEntity := { g.toEntity with age := g.age + deltaTime } }
  let g2 :=
    if g1.hasGravity then { g1 with toEntity := Physics.applyGravity g1.toEntity deltaTime }
    else g1
  let g3 :=
    if g2.hasAirResistance then
      { g2 with toEntity := Physics.applyAirResistance pow g2.toEntity deltaTime }
    else g2
  let g4 := { g3 with toEntity := Physics.updatePosition g3.toEntity deltaTime }
  let g5 := { g4 with toEntity := g4.toEntity.updateAnimation deltaTime }
  g5.customUpdate deltaTime

/-- The method `updateSpeed(newSpeed)`. -/
def updateSpeed (g : Ground) (newSpeed : ℚ) : Ground :=
  { g with
    scrollSpeed := newSpeed
    toEntity := { g.toEntity with velocity := { g.velocity with x := newSpeed } } }

end Ground

/-! ## Obstacle.js: the spawner -/

/-- The object `obstacleProbabilities`; its key order is the field order. -/
structure ObstacleProbabilities where
  cactus_small : ℚ
  cactus_large : ℚ
  cactus_double : ℚ
  bird_low : ℚ
  bird_high : ℚ
  deriving DecidableEq, Repr

/-- The class `ObstacleSpawner`.  `nextSpawnTime = none` is the value `NaN`. -/
structure ObstacleSpawner where
  lastSpawnTime : ℚ
  minSpawnInterval : ℚ
  maxSpawnInterval : ℚ
  nextSpawnTime : Option ℚ
  gameSpeed : ℚ
  difficultyLevel : ℤ
  obstacleProbabilities : ObstacleProbabilities
  deriving DecidableEq, Repr

namespace ObstacleSpawner

/-- The table the constructor and `reset()` assign. -/
def initialProbabilities : ObstacleProbabilities :=
  { cactus_small := 2 / 5
    cactus_large := 3 / 10
    cactus_double := 1 / 5
    bird_low := 7 / 100
    bird_high := 3 / 100 }

/-- The constructor.  Its call `this.getRandomSpawnTime()` (line 242) runs
before `this.gameSpeed` is assigned (line 245): it divides by `undefined`, so
`nextSpawnTime` is `NaN` whatever `Math.random()` returns. -/
def new : ObstacleSpawner :=
  { lastSpawnTime := 0
    minSpawnInterval := 3 / 2
    maxSpawnInterval := 3
    nextSpawnTime := none
    gameSpeed := 1
    difficultyLevel := 1
    obstacleProbabilities := initialProbabilities }

/-- The method `getRandomSpawnTime()` once `gameSpeed` is a number; `r` is the
value of `Math.random()`. -/
def getRandomSpawnTime (s : ObstacleSpawner) (r : ℚ) : ℚ :=
  let min := s.minSpawnInterval / s.gameSpeed
  let max := s.maxSpawnInterval / s.gameSpeed
  r * (max - min) + min

/-- The method `adjustProbabilities()`. -/
def adjustProbabilities (s : ObstacleSpawner) : ObstacleSpawner :=
  let birdIncrease : ℚ := min ((s.difficultyLevel : ℚ) * (1 / 50)) (3 / 20)
  { s with obstacleProbabilities :=
    { cactus_small := max (2 / 5 - birdIncrease) (1 / 5)
      cactus_large := 3 / 10
      cactus_double := min (1 / 5 + (s.difficultyLevel : ℚ) * (1 / 100)) (3 / 10)
      bird_low := min (7 / 100 + birdIncrease * (3 / 5)) (3 / 20)
      bird_high := min (3 / 100 + birdIncrease * (2 / 5)) (1 / 10) } }

/-- The method `updateDifficulty(gameTime)`. -/
def updateDifficulty (s : ObstacleSpawner) (gameTime : ℚ) : ObstacleSpawner :=
  let newDifficultyLevel : ℤ := ⌊gameTime / 30⌋ + 1
  if newDifficultyLevel > s.difficultyLevel then
    let s1 := { s with difficultyLevel := newDifficultyLevel }
    let s2 := { s1 with gameSpeed := min (1 + ((s1.difficultyLevel : ℚ) - 1) * (1 / 10)) 2 }
    adjustProbabilities s2
  else s

/-- The method `chooseObstacleType()`; `random` is the value of
`Math.random()`. -/
def chooseObstacleType (s : ObstacleSpawner) (random : ℚ) : ObstacleType :=
  let p := s.obstacleProbabilities
  let c1 := 0 + p.cactus_small
  if random ≤ c1 then ObstacleType.cactus_small
  else
    let c2 := c1 + p.cactus_large
    if random ≤ c2 then ObstacleType.cactus_large
    else
      let c3 := c2 + p.cactus_double
      if random ≤ c3 then ObstacleType.cactus_double
      else
        let c4 := c3 + p.bird_low
        if random ≤ c4 then ObstacleType.bird_low
        else
          let c5 := c4 + p.bird_high
          if random ≤ c5 then ObstacleType.bird_high
          else ObstacleType.cactus_small

/-- The method `spawnObstacle()`: the new obstacle and the spawner after the
call; `rType` and `rSpawn` are the two values of `Math.random()` it reads. -/
def spawnObstacle (s : ObstacleSpawner) (rType rSpawn : ℚ) : Obstacle × ObstacleSpawner :=
  let obstacleType := chooseObstacleType s rType
  let x : ℚ := 850
  let y : ℚ :=
    match obstacleType with
    | ObstacleType.bird_high => 320
    | ObstacleType.bird_low => 380
    | _ => 400
  let obstacle := { Obstacle.new x y obstacleType with gameSpeed := some s.gameSpeed }
  let s1 := { s with lastSpawnTime := 0 }
  (obstacle, { s1 with nextSpawnTime := some (getRandomSpawnTime s1 rSpawn) })

/-- The method `update(deltaTime, gameTime)`: the obstacle it returns (`null`
is `none`) and the spawner after the call. -/
def update (s : ObstacleSpawner) (deltaTime gameTime rType rSpawn : ℚ) :
    Option Obstacle × ObstacleSpawner :=
  let s1 := { s with lastSpawnTime := s.lastSpawnTime + deltaTime }
  let s2 := updateDifficulty s1 gameTime
  match s2.nextSpawnTime with
  | none => (none, s2)
  | some next =>
    if s2.lastSpawnTime ≥ next then
      let r := spawnObstacle s2 rType rSpawn
      (some r.1, r.2)
    else (none, s2)

/-- The method `reset()`; `r` is the value of `Math.random()`. -/
def reset (s : ObstacleSpawner) (r : ℚ) : ObstacleSpawner :=
  let s1 := { s with lastSpawnTime := 0, gameSpeed := 1, difficultyLevel := 1 }
  { s1 with
    nextSpawnTime := some (getRandomSpawnTime s1 r)
    obstacleProbabilities := initialProbabilities }

end ObstacleSpawner

/-! ## DinoRun.js -/

/-- The values of `gameState`: `'ready'`, `'playing'`, `'paused'`,
`'gameOver'`. -/
inductive DinoGameState where
  | ready
  | playing
  | paused
  | gameOver
  deriving DecidableEq, Repr

/-- The class `DinoRun extends GameEngine`: the loop fields of the engine and
the fields the constructor of `DinoRun` adds.

Left out: the `Background` (clouds and mountains at random positions, read
only by its own rendering), the voice controller and the key map.  The engine
array `entities` is not a field of the record: it holds the background, the
ground, the Dino and the obstacles of `this.obstacles`, which are the same
objects as the fields below (obstacles destroyed by `restartGame()` stay in the
array, flagged, until the next engine update drops them). -/
structure DinoRun extends LoopState where
  gameState : DinoGameState
  score : ℤ
  distance : ℚ
  gameTime : ℚ
  highScore : ℤ
  dino : Dino
  obstacles : List Obstacle
  ground : Ground
  obstacleSpawner : ObstacleSpawner
  gameSpeed : ℚ
  baseScrollSpeed : ℚ
  difficultyIncrease : ℚ
  showInstructions : Bool
  jumpKeyPressed : Bool
  deriving DecidableEq, Repr

/-- The inputs of one frame: the delta time and the two values `Math.random()`
returns if the spawner emits an obstacle in that frame. -/
structure Frame where
  dt : ℚ
  rType : ℚ
  rSpawn : ℚ
  deriving DecidableEq, Repr

namespace DinoRun

/-- The constructor with `initializeGame()`; `savedHighScore` is the number
parsed from `localStorage`. -/
def new (savedHighScore : ℤ) : DinoRun :=
  { toLoopState := LoopState.new
    gameState := DinoGameState.ready
    score := 0
    distance := 0
    gameTime := 0
    highScore := savedHighScore
    dino := Dino.new 100 400
    obstacles := []
    ground := Ground.new 0 460
    obstacleSpawner := ObstacleSpawner.new
    gameSpeed := 1
    baseScrollSpeed := 200
    difficultyIncrease := 1 / 20
    showInstructions := true
    jumpKeyPressed := false }

/-- The method `updateDifficulty()`. -/
def updateDifficulty (s : DinoRun) : DinoRun :=
  let targetSpeed : ℚ := 1 + (⌊s.gameTime / 30⌋ : ℚ) * s.difficultyIncrease
  if targetSpeed > s.gameSpeed then
    let s1 := { s with gameSpeed := min targetSpeed (5 / 2) }
    { s1 with ground := s1.ground.updateSpeed (-s1.baseScrollSpeed * s1.gameSpeed) }
  else s

/-- The loop of `checkCollisions()` over the obstacles still to be visited:
the Dino and those obstacles after the loop. -/
def collideLoop (dino : Dino) : List Obstacle → Dino × List Obstacle
  | [] => (dino, [])
  | obstacle :: rest =>
    if obstacle.collidesWith dino then
      let hit := dino.takeDamage
      if hit.1 then (hit.2, obstacle :: rest)
      else (hit.2, obstacle.destroy :: rest)
    else
      let r := collideLoop dino rest
      (r.1, obstacle :: r.2)

/-- The method `checkCollisions()`. -/
def checkCollisions (s : DinoRun) : DinoRun :=
  let r := collideLoop s.dino s.obstacles
  { s with dino := r.1, obstacles := r.2 }

/-- The bonus loop of `updateScore()` (lines 277-283) over the obstacles still
to be visited: the score and those obstacles after the loop. -/
def passedLoop (dinoX : ℚ) (score : ℤ) : List Obstacle → ℤ × List Obstacle
  | [] => (score, [])
  | obstacle :: rest =>
    let checked := obstacle.checkPassed dinoX
    let score1 := if checked.1 > 0 then score + checked.1 else score
    let r := passedLoop dinoX score1 rest
    (r.1, checked.2 :: r.2)

/-- The method `updateScore()`; the write of the high score to `localStorage`
repeats the field `highScore`. -/
def updateScore (s : DinoRun) : DinoRun :=
  let newScore : ℤ := ⌊s.distance⌋
  let s1 := if newScore > s.score then { s with score := newScore } else s
  let r := passedLoop s1.dino.position.x s1.score s1.obstacles
  let s2 := { s1 with score := r.1, obstacles := r.2 }
  if s2.score > s2.highScore then { s2 with highScore := s2.score } else s2

/-- The method `cleanupObstacles()`. -/
def cleanupObstacles (s : DinoRun) : DinoRun :=
  { s with obstacles := s.obstacles.filter fun obstacle => !obstacle.shouldRemove }

/-- The method `gameOver()`. -/
def gameOver (s : DinoRun) : DinoRun :=
  { s with gameState := DinoGameState.gameOver, toLoopState := s.toLoopState.stop }

/-- The call `super.update(deltaTime)` made by `DinoRun.update`: the engine loop
(`GameEngine.updateLoop`) calls `update` once on each object of the engine
array, here the ground, the Dino and the obstacles of `this.obstacles`; each
call acts on its own object.  Flagged obstacles leave the engine array here and
`this.obstacles` in `cleanupObstacles()`. -/
def superUpdate (pow : ℚ → ℚ → ℚ) (s : DinoRun) (deltaTime : ℚ) : DinoRun :=
  { s with
    obstacles := s.obstacles.map fun obstacle => obstacle.update pow deltaTime
    dino := s.dino.update pow deltaTime
    ground := s.ground.update pow deltaTime }

/-- The spawn step of `update` (lines 210-214). -/
def spawnStep (s : DinoRun) (deltaTime rType rSpawn : ℚ) : DinoRun :=
  let r := s.obstacleSpawner.update deltaTime s.gameTime rType rSpawn
  match r.1 with
  | none => { s with obstacleSpawner := r.2 }
  | some newObstacle =>
    { s with obstacleSpawner := r.2, obstacles := s.obstacles ++ [newObstacle] }

/-- Lines 203-226 of `update`: the clock and the distance, the difficulty, the
spawn, the entity updates, the collisions, the score and the clean-up, in that
order. -/
def advance (pow : ℚ → ℚ → ℚ) (s : DinoRun) (deltaTime rType rSpawn : ℚ) : DinoRun :=
  let s1 := { s with gameTime := s.gameTime + deltaTime }
  let s2 := { s1 with
    distance := s1.distance + s1.baseScrollSpeed * s1.gameSpeed * deltaTime / 100 }
  let s3 := updateDifficulty s2
  let s4 := spawnStep s3 deltaTime rType rSpawn
  let s5 := superUpdate pow s4 deltaTime
  let s6 := checkCollisions s5
  let s7 := updateScore s6
  cleanupObstacles s7

/-- The override `update(deltaTime)` of `DinoRun`; `rType` and `rSpawn` are the
values `Math.random()` returns if the spawner emits an obstacle. -/
def update (pow : ℚ → ℚ → ℚ) (s : DinoRun) (deltaTime rType rSpawn : ℚ) : DinoRun :=
  if s.gameState ≠ DinoGameState.playing then s
  else
    let s8 := advance pow s deltaTime rType rSpawn
    if s8.dino.isGameOver then gameOver s8 else s8

/-- The inherited arrow function `gameLoop(currentTime)` run on a `DinoRun`,
without the rendering and the timing statistics. -/
def gameLoop (pow : ℚ → ℚ → ℚ) (s : DinoRun) (currentTime rType rSpawn : ℚ) : DinoRun :=
  if !s.isRunning then s
  else
    let s1 := { s with toLoopState := s.toLoopState.beginFrame currentTime }
    let s2 := update pow s1 s1.deltaTime rType rSpawn
    { s2 with toLoopState := s2.toLoopState.updateFPS currentTime }

/-- The inherited method `start()`; `now` is the value of `performance.now()`.
The call `this.gameLoop()` is made without an argument. -/
def start (pow : ℚ → ℚ → ℚ) (s : DinoRun) (now rType rSpawn : ℚ) : DinoRun :=
  gameLoop pow { s with toLoopState := s.toLoopState.markStarted now }
    LoopState.startFrameTime rType rSpawn

/-- The method `startGame()`. -/
def startGame (pow : ℚ → ℚ → ℚ) (s : DinoRun) (now rType rSpawn : ℚ) : DinoRun :=
  let s1 := { s with gameState := DinoGameState.playing }
  let s2 := { s1 with showInstructions := false }
  start pow s2 now rType rSpawn

/-- The method `togglePause()`. -/
def togglePause (pow : ℚ → ℚ → ℚ) (s : DinoRun) (now rType rSpawn : ℚ) : DinoRun :=
  if s.gameState = DinoGameState.playing then
    let s1 := { s with gameState := DinoGameState.paused }
    { s1 with toLoopState := s1.toLoopState.stop }
  else if s.gameState = DinoGameState.paused then
    start pow { s with gameState := DinoGameState.playing } now rType rSpawn
  else s

/-- The method `restartGame()`; `r` is the value of `Math.random()` read by the
spawner's `reset()`. -/
def restartGame (s : DinoRun) (r : ℚ) : DinoRun :=
  let s1 := { s with
    gameState := DinoGameState.ready
    score := 0
    distance := 0
    gameTime := 0
    gameSpeed := 1
    showInstructions := true }
  let s2 := { s1 with dino := s1.dino.reset, obstacleSpawner := s1.obstacleSpawner.reset r }
  let s3 := { s2 with obstacles := [] }
  let s4 := { s3 with ground := { s3.ground with
    toEntity := { s3.ground.toEntity with position := { s3.ground.position with x := 0 } } } }
  { s4 with toLoopState := s4.toLoopState.stop }

/-- The state after a run of `update` calls, one per frame, in order. -/
def updateAll (pow : ℚ → ℚ → ℚ) (s : DinoRun) (frames : List Frame) : DinoRun :=
  frames.foldl (fun st f => update pow st f.dt f.rType f.rSpawn) s

/-- The values of `gameSpeed` after each `update` call of a run, in order. -/
def speedTrace (pow : ℚ → ℚ → ℚ) : DinoRun → List Frame → List ℚ
  | _, [] => []
  | s, f :: frames =>
    (update pow s f.dt f.rType f.rSpawn).gameSpeed ::
      speedTrace pow (update pow s f.dt f.rType f.rSpawn) frames

end DinoRun

/-! ## Obstacle.js: runs of the spawner -/

namespace ObstacleSpawner

/-- The inputs of one `update(deltaTime, gameTime)` call: its two arguments and
the two values `Math.random()` returns if the call spawns an obstacle. -/
structure Call where
  deltaTime : ℚ
  gameTime : ℚ
  rType : ℚ
  rSpawn : ℚ
  deriving DecidableEq, Repr

/-- The spawner after a run of `update` calls, in order. -/
def updates (s : ObstacleSpawner) (calls : List Call) : ObstacleSpawner :=
  calls.foldl (fun st c => (st.update c.deltaTime c.gameTime c.rType c.rSpawn).2) s

/-- The values the `update` calls of a run return, in order. -/
def returned : ObstacleSpawner → List Call → List (Option Obstacle)
  | _, [] => []
  | s, c :: calls =>
    (s.update c.deltaTime c.gameTime c.rType c.rSpawn).1 ::
      returned (s.update c.deltaTime c.gameTime c.rType c.rSpawn).2 calls

end ObstacleSpawner

/-- The sum of the five weights of a table. -/
def ObstacleProbabilities.total (p : ObstacleProbabilities) : ℚ :=
  p.cactus_small + p.cactus_large + p.cactus_double + p.bird_low + p.bird_high

/-! ## Physics.js: screen bounds -/

namespace Physics

/-- The function `Physics.constrainToBounds(entity, screenWidth, screenHeight)`:
the four boundary tests in the order of the source, each on the entity the
tests before it left. -/
def constrainToBounds (entity : Entity) (screenWidth screenHeight : ℚ) : Entity :=
  let e1 :=
    if entity.position.x < 0 then
      { entity with
        position := { entity.position with x := 0 }
        velocity := { entity.velocity with x := max 0 entity.velocity.x } }
    else entity
  let e2 :=
    if e1.position.x + e1.dimensions.width > screenWidth then
      { e1 with
        position := { e1.position with x := screenWidth - e1.dimensions.width }
        velocity := { e1.velocity with x := min 0 e1.velocity.x } }
    else e1
  let e3 :=
    if e2.position.y < 0 then
      { e2 with
        position := { e2.position with y := 0 }
        velocity := { e2.velocity with y := max 0 e2.velocity.y } }
    else e2
  if e3.position.y + e3.dimensions.height > screenHeight then
    { e3 with
      position := { e3.position with y := screenHeight - e3.dimensions.height }
      velocity := { e3.velocity with y := min 0 e3.velocity.y } }
  else e3

end Physics

/-! ## bop-it/js/GameEngine.js: the stored high score -/

namespace BopIt

namespace GameEngine

/-- The method `getHighScore()`; `item` is the `localStorage` item
`'bop-it-high-score'`: `none` while the key is absent, else the integer whose
decimal string the item holds. -/
def getHighScore (item : Option ℤ) : ℤ :=
  match item with
  | none => 0
  | some saved => saved

/-- The method `saveHighScore()`: the item after
`localStorage.setItem('bop-it-high-score', this.score.toString())`. -/
def saveHighScore (s : GameEngine) (_item : Option ℤ) : Option ℤ := some s.score

/-- The method `endGame(reason)` with the store: the engine after the call, the
item after the call, and whether `saveHighScore()` was called. -/
def endGameStored (s : GameEngine) (item : Option ℤ) : GameEngine × Option ℤ × Bool :=
  let s1 := { s with state := GameState.GAME_OVER }
  let s2 := { s1 with gameTimer := none }
  let isHighScore : Bool := decide (s2.score > s2.highScore)
  if isHighScore then
    let s3 := { s2 with highScore := s2.score }
    (s3, saveHighScore s3 item, true)
  else (s2, item, false)

end GameEngine

end BopIt

/-! ## DinoRun.js: runs of the game -/

namespace DinoRun

/-- The calls that drive a game after its construction, each with the clock
value and the random draws it reads. -/
inductive Op where
  | startGame (now rType rSpawn : ℚ)
  | update (deltaTime rType rSpawn : ℚ)
  | togglePause (now rType rSpawn : ℚ)
  | restartGame (r : ℚ)
  deriving DecidableEq, Repr

/-- The game after one call. -/
def step (pow : ℚ → ℚ → ℚ) (s : DinoRun) : Op → DinoRun
  | Op.startGame now rType rSpawn => startGame pow s now rType rSpawn
  | Op.update deltaTime rType rSpawn => update pow s deltaTime rType rSpawn
  | Op.togglePause now rType rSpawn => togglePause pow s now rType rSpawn
  | Op.restartGame r => restartGame s r

/-- The game after a run of calls, in order. -/
def run (pow : ℚ → ℚ → ℚ) (s : DinoRun) (ops : List Op) : DinoRun :=
  ops.foldl (step pow) s

end DinoRun

/-! ## apps/server/src/phases/DinoRunPhase.ts -/

namespace DinoRunPhase

/-- The interface `DinoEntity`. -/
structure DinoEntity where
  x : ℚ
  y : ℚ
  width : ℚ
  height : ℚ
  velocityY : ℚ
  isJumping : Bool
  isGrounded : Bool
  deriving DecidableEq, Repr

/-- The interface `Obstacle` of the phase. -/
structure Obstacle where
  x : ℚ
  y : ℚ
  width : ℚ
  height : ℚ
  speed : ℚ
  deriving DecidableEq, Repr

/-- The interface `DinoRunState`. -/
structure DinoRunState where
  dino : DinoEntity
  obstacles : List Obstacle
  score : ℤ
  gameSpeed : ℚ
  isGameActive : Bool
  groundY : ℚ
  lastObstacleTime : ℤ
  strikes : ℤ
  maxStrikes : ℤ
  deriving DecidableEq, Repr

/-- The constant `CANVAS_WIDTH`. -/
def CANVAS_WIDTH : ℚ := 800

/-- The constant `GROUND_Y`. -/
def GROUND_Y : ℚ := 500

/-- The constant `DINO_WIDTH`. -/
def DINO_WIDTH : ℚ := 60

/-- The constant `DINO_HEIGHT`. -/
def DINO_HEIGHT : ℚ := 60

/-- The constant `JUMP_FORCE`. -/
def JUMP_FORCE : ℚ := -15

/-- The constant `GRAVITY` (0.8 per update). -/
def GRAVITY : ℚ := 4 / 5

/-- The constant `OBSTACLE_SPAWN_INTERVAL` (milliseconds). -/
def OBSTACLE_SPAWN_INTERVAL : ℤ := 2000

/-- The constant `BASE_GAME_SPEED`. -/
def BASE_GAME_SPEED : ℚ := 2

/-- The actions `onAction` distinguishes; `other` is any other action type. -/
inductive Action where
  | START_GAME
  | PLAYER_JUMP (playerId : String)
  | GAME_UPDATE
  | RESET_GAME
  | other
  deriving DecidableEq, Repr

/-- The function `isColliding(dino, obstacle)`. -/
def isColliding (dino : DinoEntity) (obstacle : Obstacle) : Bool :=
  decide (dino.x < obstacle.x + obstacle.width) &&
  decide (dino.x + dino.width > obstacle.x) &&
  decide (dino.y < obstacle.y + obstacle.height) &&
  decide (dino.y + dino.height > obstacle.y)

/-- The `dinoRunState` that `onEnter` installs. -/
def onEnter : DinoRunState :=
  { dino :=
      { x := 100
        y := GROUND_Y - DINO_HEIGHT
        width := DINO_WIDTH
        height := DINO_HEIGHT
        velocityY := 0
        isJumping := false
        isGrounded := true }
    obstacles := []
    score := 0
    gameSpeed := BASE_GAME_SPEED
    isGameActive := false
    groundY := GROUND_Y
    lastObstacleTime := 0
    strikes := 0
    maxStrikes := 3 }

/-- The collision loop of `GAME_UPDATE` (lines 164-175) over the obstacles
still to be visited: those obstacles, `newStrikes` and `isGameActive` after the
loop.  The obstacles are distinct objects (made by `map` and `push` in the same
update), so the filter `o !== obstacle` drops the one that was hit and nothing
else. -/
def collide (dino : DinoEntity) (maxStrikes : ℤ) (newStrikes : ℤ) (isGameActive : Bool) :
    List Obstacle → List Obstacle × ℤ × Bool
  | [] => ([], newStrikes, isGameActive)
  | obstacle :: rest =>
    if isColliding dino obstacle then
      (rest, newStrikes + 1, if newStrikes + 1 ≥ maxStrikes then false else isGameActive)
    else
      let r := collide dino maxStrikes newStrikes isGameActive rest
      (obstacle :: r.1, r.2.1, r.2.2)

/-- The case `"GAME_UPDATE"` of `onAction`; `currentTime` is the value of
`Date.now()`. -/
def gameUpdate (s : DinoRunState) (currentTime : ℤ) : DinoRunState :=
  if !s.isGameActive then s
  else
    let d1 := { s.dino with velocityY := s.dino.velocityY + GRAVITY }
    let d2 := { d1 with y := d1.y + d1.velocityY }
    let newDino :=
      if d2.y ≥ GROUND_Y - DINO_HEIGHT then
        { d2 with
          y := GROUND_Y - DINO_HEIGHT
          velocityY := 0
          isJumping := false
          isGrounded := true }
      else d2
    let moved := (s.obstacles.map fun obstacle =>
      { obstacle with x := obstacle.x - obstacle.speed }).filter
        fun obstacle => decide (obstacle.x > -obstacle.width)
    let spawn : Bool := decide (currentTime - s.lastObstacleTime > OBSTACLE_SPAWN_INTERVAL)
    let spawned :=
      if spawn then
        moved ++ [{ x := CANVAS_WIDTH, y := GROUND_Y - 40, width := 30, height := 40,
                    speed := s.gameSpeed }]
      else moved
    let newLastObstacleTime := if spawn then currentTime else s.lastObstacleTime
    let hit := collide newDino s.maxStrikes s.strikes s.isGameActive spawned
    let newScore := s.score + 1
    { s with
      dino := newDino
      obstacles := hit.1
      score := newScore
      strikes := hit.2.1
      gameSpeed := BASE_GAME_SPEED + (newScore : ℚ) / 1000
      lastObstacleTime := newLastObstacleTime
      isGameActive := hit.2.2 }

/-- The reducer `onAction` on the `dinoRunState` part of the state; `now` is
the value of `Date.now()`. -/
def onAction (s : DinoRunState) (action : Action) (now : ℤ) : DinoRunState :=
  match action with
  | Action.START_GAME =>
    { s with
      isGameActive := true
      score := 0
      strikes := 0
      obstacles := []
      lastObstacleTime := now
      dino :=
        { s.dino with
          y := GROUND_Y - DINO_HEIGHT
          velocityY := 0
          isJumping := false
          isGrounded := true } }
  | Action.PLAYER_JUMP _playerId =>
    if !s.isGameActive || !s.dino.isGrounded then s
    else
      { s with
        dino :=
          { s.dino with
            velocityY := JUMP_FORCE
            isJumping := true
            isGrounded := false } }
  | Action.GAME_UPDATE => gameUpdate s now
  | Action.RESET_GAME =>
    { s with
      dino :=
        { x := 100
          y := GROUND_Y - DINO_HEIGHT
          width := DINO_WIDTH
          height := DINO_HEIGHT
          velocityY := 0
          isJumping := false
          isGrounded := true }
      obstacles := []
      score := 0
      gameSpeed := BASE_GAME_SPEED
      isGameActive := false
      strikes := 0
      lastObstacleTime := 0 }
  | Action.other => s

/-- The state after a run of actions from `onEnter`, each with the clock value
at which it is handled. -/
def run (actions : List (Action × ℤ)) : DinoRunState :=
  actions.foldl (fun s a => onAction s a.1 a.2) onEnter

end DinoRunPhase

/-! ## Inputs of the worked examples -/

/-- The entity of the C3 failing input: a 10 by 10 box at the origin. -/
def resolveDemoEntity : Entity := Entity.new 0 0 10 10

/-- The static rectangle of the C3 failing input: it overlaps the right-hand
2 pixels of `resolveDemoEntity`. -/
def resolveDemoRect : Rect := ⟨8, -5, 10, 20⟩

/-- The state of the C10 witness: a new engine put in the `PLAYING` state whose
last command was `BOP`. -/
def bopDemoState : BopIt.GameEngine :=
  { BopIt.GameEngine.new 0 with
    state := BopIt.GameState.PLAYING
    lastCommand := BopIt.Command.token "BOP" }

/-- The state of the C12 examples: a `PLAYING` engine that issued `BOP` at clock
value 1000 with a limit of 3000 ms and a freshly installed countdown. -/
def bopIssuedState : BopIt.GameEngine :=
  { BopIt.GameEngine.new 0 with
    state := BopIt.GameState.PLAYING
    currentCommand := BopIt.Command.token "BOP"
    lastCommand := BopIt.Command.token "BOP"
    commandStartTime := 1000
    gameTimer := some 3000 }

/-- The state of the C14 failing input: the phase is entered and `START_GAME`
arrives at clock value 1000 with the draw 1/2, which issues `FLICK` with a time
limit of 3000 ms. -/
def phaseStartedState : BopItPhase.BopItState :=
  BopItPhase.onAction BopItPhase.onEnter BopItPhase.Action.START_GAME 1000 1000 (1 / 2)

/-- The entity operations of the core-engine examples: an object is its own
`shouldRemove` flag and `update` leaves it alone. -/
def flagOps : EntityOps Bool :=
  { update := fun e _ => e
    shouldRemove := fun e => e }

/-- The engine of the C19 witness: three objects, the second one flagged. -/
def flagEngine : GameEngine Bool :=
  { (GameEngine.new : GameEngine Bool) with entities := [(1, false), (2, true), (3, false)] }

/-- A newly constructed game put in the `playing` state by assignment, not by
`startGame()`: its clock stands at 0. -/
def dinoRunPlaying : DinoRun :=
  { DinoRun.new 0 with gameState := DinoGameState.playing }

/-- The obstacle of the C15 witness: a small cactus (10 points) that starts
20 px to the right of a Dino at `x = 100`. -/
def cactusAhead : Obstacle := Obstacle.new 120 400 ObstacleType.cactus_small

/-- The state of the C18 counterexample: a Dino with two strikes, not
invulnerable, overlapping a small cactus. -/
def thirdHitState : DinoRun :=
  { DinoRun.new 0 with
    gameState := DinoGameState.playing
    dino := { Dino.new 100 400 with strikes := 2 }
    obstacles := [Obstacle.new 110 400 ObstacleType.cactus_small] }

/-- The state of the C17 counterexample: a paused game with a score of 7. -/
def pausedWithScore : DinoRun :=
  { DinoRun.new 0 with gameState := DinoGameState.paused, score := 7 }

/-- The spawner of the C23 witness: the one `updateDifficulty(30)` hands to
`adjustProbabilities()`, at level 2 with speed 1.1. -/
def levelTwoSpawner : ObstacleSpawner :=
  { ObstacleSpawner.new with difficultyLevel := 2, gameSpeed := 11 / 10 }

/-- The state of the C25 witness: a `PLAYING` engine with a score of 30 and a
high score of 12. -/
def bopScoredState : BopIt.GameEngine :=
  { bopIssuedState with score := 30, highScore := 12 }

/-- The state of the C27 failing input: `bopIssuedState` after the response
`bop` was handled 5 ms after the command was issued. -/
def bopAnswered : BopIt.GameEngine :=
  (bopIssuedState.processPlayerResponse "bop" 1005).2

/-! ## Theorems: Physics and Entity -/

/-- C1: `checkCollision a b` is true exactly when the four strict inequalities
hold, and two rectangles of positive size that touch along an edge do not
collide. -/
theorem checkCollision_strict_overlap (a b : Rect) :
    (Physics.checkCollision a b = true ↔
      (a.x < b.x + b.width ∧ a.x + a.width > b.x ∧
       a.y < b.y + b.height ∧ a.y + a.height > b.y)) ∧
    (0 < a.width → 0 < a.height → 0 < b.width → 0 < b.height →
      (a.x + a.width = b.x ∨ b.x + b.width = a.x ∨
       a.y + a.height = b.y ∨ b.y + b.height = a.y) →
      Physics.checkCollision a b = false) := by
  have key : Physics.checkCollision a b = true ↔
      (a.x < b.x + b.width ∧ a.x + a.width > b.x ∧
       a.y < b.y + b.height ∧ a.y + a.height > b.y) := by
    simp [Physics.checkCollision, and_assoc]
  refine ⟨key, ?_⟩
  intro _ _ _ _ h
  rw [Bool.eq_false_iff]
  intro hc
  obtain ⟨h1, h2, h3, h4⟩ := key.mp hc
  rcases h with h | h | h | h <;> linarith

/-- Witness for C1: a 10 by 10 box at the origin and one starting at x = 10. -/
theorem checkCollision_strict_overlap_witness :
    Physics.checkCollision ⟨0, 0, 10, 10⟩ ⟨10, 0, 10, 10⟩ = false :=
  (checkCollision_strict_overlap ⟨0, 0, 10, 10⟩ ⟨10, 0, 10, 10⟩).2
    (by norm_num) (by norm_num) (by norm_num) (by norm_num) (Or.inl (by norm_num))

/-- C2: `checkCollision` is symmetric in its two rectangles. -/
theorem checkCollision_symmetric (a b : Rect) :
    Physics.checkCollision a b = Physics.checkCollision b a := by
  rw [Bool.eq_iff_iff]
  simp only [Physics.checkCollision, Bool.and_eq_true, decide_eq_true_eq, gt_iff_lt]
  constructor <;> (rintro ⟨⟨⟨h1, h2⟩, h3⟩, h4⟩; exact ⟨⟨⟨h2, h1⟩, h4⟩, h3⟩)

/-- C3 (the code at the failing input): the box at x = 0 overlaps the rectangle
at x = 8 by 2 pixels; `detailedCollision` reports normal (-1, 0) with
penetration 2, and `resolveCollision` subtracts normal times penetration, which
moves the box to x = 2, further into the rectangle: the two still collide. -/
theorem resolveCollision_pushes_into_rect :
    Physics.checkCollision resolveDemoEntity.getBounds resolveDemoRect = true ∧
    Physics.detailedCollision resolveDemoEntity resolveDemoRect =
      some { normal := ⟨-1, 0⟩, penetration := 2, axis := Axis.horizontal } ∧
    (Physics.resolveCollision resolveDemoEntity
      (Physics.detailedCollision resolveDemoEntity resolveDemoRect)).position = ⟨2, 0⟩ ∧
    Physics.checkCollision
      (Physics.resolveCollision resolveDemoEntity
        (Physics.detailedCollision resolveDemoEntity resolveDemoRect)).getBounds
      resolveDemoRect = true := by
  have hd : Physics.detailedCollision resolveDemoEntity resolveDemoRect =
      some { normal := ⟨-1, 0⟩, penetration := 2, axis := Axis.horizontal } := by
    norm_num [Physics.detailedCollision, Physics.checkCollision, Entity.getBounds,
      resolveDemoEntity, resolveDemoRect, Entity.new]
  refine ⟨?_, hd, ?_, ?_⟩
  · norm_num [Physics.checkCollision, Entity.getBounds, resolveDemoEntity, resolveDemoRect,
      Entity.new]
  · rw [hd]
    norm_num [Physics.resolveCollision, resolveDemoEntity, Entity.new]
  · rw [hd]
    norm_num [Physics.resolveCollision, Physics.checkCollision, Entity.getBounds,
      resolveDemoEntity, resolveDemoRect, Entity.new]

/-- C4: `detailedCollision` is `null` exactly when the bounds and the rectangle
do not collide; otherwise the penetration is the smaller of the two axis
overlaps, the axis is horizontal exactly when `overlapX < overlapY` (vertical on
a tie), and the normal is a unit vector along the reported axis. -/
theorem detailedCollision_min_overlap_axis (e : Entity) (r : Rect) :
    (Physics.detailedCollision e r = none ↔
      Physics.checkCollision e.getBounds r = false) ∧
    (Physics.checkCollision e.getBounds r = true →
      ∃ info : CollisionInfo,
        Physics.detailedCollision e r = some info ∧
        info.penetration =
          min (min (e.getBounds.x + e.getBounds.width - r.x)
                   (r.x + r.width - e.getBounds.x))
              (min (e.getBounds.y + e.getBounds.height - r.y)
                   (r.y + r.height - e.getBounds.y)) ∧
        (info.axis = Axis.horizontal ↔
          min (e.getBounds.x + e.getBounds.width - r.x) (r.x + r.width - e.getBounds.x) <
          min (e.getBounds.y + e.getBounds.height - r.y) (r.y + r.height - e.getBounds.y)) ∧
        (info.axis = Axis.vertical ↔
          min (e.getBounds.x + e.getBounds.width - r.x) (r.x + r.width - e.getBounds.x) ≥
          min (e.getBounds.y + e.getBounds.height - r.y) (r.y + r.height - e.getBounds.y)) ∧
        (info.axis = Axis.horizontal →
          info.normal.y = 0 ∧ (info.normal.x = 1 ∨ info.normal.x = -1)) ∧
        (info.axis = Axis.vertical →
          info.normal.x = 0 ∧ (info.normal.y = 1 ∨ info.normal.y = -1))) := by
  constructor
  · simp only [Physics.detailedCollision]
    cases hc : Physics.checkCollision e.getBounds r
    · simp
    · simp only [Bool.not_true, Bool.false_eq_true, if_false]
      split_ifs <;> simp
  · intro hc
    simp only [Physics.detailedCollision, hc, Bool.not_true, Bool.false_eq_true, if_false]
    by_cases hlt :
        min (e.getBounds.x + e.getBounds.width - r.x) (r.x + r.width - e.getBounds.x) <
        min (e.getBounds.y + e.getBounds.height - r.y) (r.y + r.height - e.getBounds.y)
    · rw [if_pos hlt]
      refine ⟨_, rfl, ?_, ?_, ?_, ?_, ?_⟩
      · exact (min_eq_left (le_of_lt hlt)).symm
      · exact ⟨fun _ => hlt, fun _ => rfl⟩
      · exact ⟨fun h => Axis.noConfusion h, fun h => absurd hlt (not_lt.mpr h)⟩
      · intro _
        by_cases hx : e.getBounds.x < r.x <;> simp [hx]
      · intro h
        cases h
    · rw [if_neg hlt]
      refine ⟨_, rfl, ?_, ?_, ?_, ?_, ?_⟩
      · exact (min_eq_right (not_lt.mp hlt)).symm
      · exact ⟨fun h => Axis.noConfusion h, fun h => absurd h hlt⟩
      · exact ⟨fun _ => not_lt.mp hlt, fun _ => rfl⟩
      · intro h
        cases h
      · intro _
        by_cases hy : e.getBounds.y < r.y <;> simp [hy]

/-- Witness for C4: the overlapping pair of the C3 demonstration. -/
theorem detailedCollision_min_overlap_axis_witness :
    ∃ info : CollisionInfo,
      Physics.detailedCollision resolveDemoEntity resolveDemoRect = some info ∧
      info.penetration =
        min (min (resolveDemoEntity.getBounds.x + resolveDemoEntity.getBounds.width -
                    resolveDemoRect.x)
                 (resolveDemoRect.x + resolveDemoRect.width - resolveDemoEntity.getBounds.x))
            (min (resolveDemoEntity.getBounds.y + resolveDemoEntity.getBounds.height -
                    resolveDemoRect.y)
                 (resolveDemoRect.y + resolveDemoRect.height -
                    resolveDemoEntity.getBounds.y)) := by
  obtain ⟨info, h1, h2, _⟩ :=
    (detailedCollision_min_overlap_axis resolveDemoEntity resolveDemoRect).2
      (by norm_num [Physics.checkCollision, Entity.getBounds, resolveDemoEntity,
        resolveDemoRect, Entity.new])
  exact ⟨info, h1, h2⟩

/-- One gravity step on a gravity-enabled entity keeps the flag set. -/
theorem applyGravity_hasGravity (e : Entity) (dt : ℚ) :
    (Physics.applyGravity e dt).hasGravity = e.hasGravity := by
  unfold Physics.applyGravity
  split_ifs <;> rfl

/-- The vertical velocity after one gravity step on a gravity-enabled entity. -/
theorem applyGravity_velocity_y (e : Entity) (dt : ℚ) (h : e.hasGravity = true) :
    (Physics.applyGravity e dt).velocity.y = min (e.velocity.y + 800 * dt) 600 := by
  simp [Physics.applyGravity, h, Physics.GRAVITY, Physics.TERMINAL_VELOCITY]

/-- While the terminal velocity is not reached, a run of gravity steps adds
`GRAVITY` times the total elapsed time to the vertical velocity. -/
theorem applyGravityAll_below_terminal (dts : List ℚ) :
    ∀ e : Entity, e.hasGravity = true → (∀ d ∈ dts, 0 ≤ d) →
      e.velocity.y + 800 * dts.sum ≤ 600 →
      (Physics.applyGravityAll e dts).velocity.y = e.velocity.y + 800 * dts.sum := by
  induction dts with
  | nil => intro e _ _ _; simp [Physics.applyGravityAll]
  | cons d ds ih =>
    intro e hg hpos hle
    have hd : 0 ≤ d := hpos d (List.mem_cons_self d ds)
    have hds : ∀ x ∈ ds, 0 ≤ x := fun x hx => hpos x (List.mem_cons_of_mem d hx)
    have hsum : 0 ≤ ds.sum := List.sum_nonneg hds
    rw [List.sum_cons] at hle
    have hstep : (Physics.applyGravity e d).velocity.y = e.velocity.y + 800 * d := by
      rw [applyGravity_velocity_y e d hg]
      exact min_eq_left (by linarith)
    have hg2 : (Physics.applyGravity e d).hasGravity = true := by
      rw [applyGravity_hasGravity]; exact hg
    have := ih (Physics.applyGravity e d) hg2 hds (by rw [hstep]; linarith)
    simp only [Physics.applyGravityAll, List.foldl_cons] at this ⊢
    rw [this, hstep, List.sum_cons]
    ring

/-- C5: on an entity with `hasGravity = true` and `dt ≥ 0`, `applyGravity` sets
`velocity.y` to `min (velocity.y + 800 * dt) 600` and changes no other field, so
the result is at most 600; with `hasGravity = false` it changes nothing; from
rest, 0.5 s of gravity (in one call, or spread over any number of calls with
non-negative delta times) gives `velocity.y = 400`. -/
theorem applyGravity_clamped_euler (e : Entity) (dt : ℚ) (hdt : 0 ≤ dt) :
    (e.hasGravity = true →
      Physics.applyGravity e dt =
        { e with velocity := { e.velocity with y := min (e.velocity.y + 800 * dt) 600 } } ∧
      (Physics.applyGravity e dt).velocity.y ≤ 600) ∧
    (e.hasGravity = false → Physics.applyGravity e dt = e) ∧
    (e.hasGravity = true → e.velocity.y = 0 → dt = 1 / 2 →
      (Physics.applyGravity e dt).velocity.y = 400) ∧
    (∀ dts : List ℚ, e.hasGravity = true → e.velocity.y = 0 →
      (∀ d ∈ dts, 0 ≤ d) → dts.sum = 1 / 2 →
      (Physics.applyGravityAll e dts).velocity.y = 400) := by
  have _ := hdt
  refine ⟨?_, ?_, ?_, ?_⟩
  · intro hg
    constructor
    · simp [Physics.applyGravity, hg, Physics.GRAVITY, Physics.TERMINAL_VELOCITY]
    · rw [applyGravity_velocity_y e dt hg]
      exact min_le_right _ _
  · intro hg
    simp [Physics.applyGravity, hg]
  · intro hg hv hhalf
    rw [applyGravity_velocity_y e dt hg, hv, hhalf]
    norm_num
  · intro dts hg hv hpos hsum
    rw [applyGravityAll_below_terminal dts e hg hpos (by rw [hv, hsum]; norm_num), hv, hsum]
    norm_num

/-- Witness for C5: a gravity-enabled entity at rest, one call with dt = 1/2. -/
theorem applyGravity_clamped_euler_witness :
    (Physics.applyGravity { Entity.new 0 0 32 32 with hasGravity := true } (1 / 2)).velocity.y
      = 400 :=
  (applyGravity_clamped_euler { Entity.new 0 0 32 32 with hasGravity := true } (1 / 2)
    (by norm_num)).2.2.1 rfl rfl rfl

/-- One base `update` on an entity without gravity keeps the flag, keeps
`velocity.y`, and advances `position.y` by `velocity.y * dt`. -/
theorem update_no_gravity_step (pow : ℚ → ℚ → ℚ) (e : Entity) (dt : ℚ)
    (h : e.hasGravity = false) :
    (Entity.update pow e dt).hasGravity = false ∧
    (Entity.update pow e dt).velocity.y = e.velocity.y ∧
    (Entity.update pow e dt).position.y = e.position.y + e.velocity.y * dt := by
  unfold Entity.update Entity.customUpdate Entity.updateAnimation Physics.updatePosition
    Physics.applyAirResistance
  simp only [h, Bool.false_eq_true, if_false]
  split_ifs <;> simp [h]

/-- C6: for a base entity with `hasGravity = false`, any run of `update` calls
leaves `velocity.y` as it was; each call advances `position.y` by
`velocity.y * dt`, so the run advances it by `velocity.y` times the total. -/
theorem update_keeps_vertical_velocity (pow : ℚ → ℚ → ℚ) (e : Entity)
    (h : e.hasGravity = false) (dts : List ℚ) :
    (Entity.updateAll pow e dts).velocity.y = e.velocity.y ∧
    (Entity.updateAll pow e dts).position.y = e.position.y + e.velocity.y * dts.sum ∧
    (∀ dt : ℚ, (Entity.update pow e dt).velocity.y = e.velocity.y ∧
      (Entity.update pow e dt).position.y = e.position.y + e.velocity.y * dt) := by
  refine ⟨?_, ?_, fun dt => (update_no_gravity_step pow e dt h).2⟩
  all_goals
    induction dts generalizing e with
    | nil => simp [Entity.updateAll]
    | cons d ds ih =>
      obtain ⟨h1, h2, h3⟩ := update_no_gravity_step pow e d h
      have := ih (Entity.update pow e d) h1
      simp only [Entity.updateAll, List.foldl_cons, List.sum_cons] at this ⊢
      rw [this, h2]
      try rw [h3]
      try ring

/-- Witness for C6: a base entity moving down at 5 px/s, three updates. -/
theorem update_keeps_vertical_velocity_witness :
    (Entity.updateAll (fun _ _ => 1)
      { Entity.new 0 0 32 32 with velocity := ⟨3, 5⟩ } [1, 2, 1 / 2]).velocity.y = 5 :=
  (update_keeps_vertical_velocity (fun _ _ => 1)
    { Entity.new 0 0 32 32 with velocity := ⟨3, 5⟩ } rfl [1, 2, 1 / 2]).1

/-! ## Theorems: Dino -/

/-- The override `updateAnimation` of `Dino` writes none of the strike and
invulnerability fields. -/
theorem Dino.updateAnimation_damage_fields (d : Dino) (dt : ℚ) :
    (d.updateAnimation dt).strikes = d.strikes ∧
    (d.updateAnimation dt).maxStrikes = d.maxStrikes ∧
    (d.updateAnimation dt).isInvulnerable = d.isInvulnerable ∧
    (d.updateAnimation dt).invulnerabilityTimer = d.invulnerabilityTimer ∧
    (d.updateAnimation dt).invulnerabilityTime = d.invulnerabilityTime := by
  unfold Dino.updateAnimation
  cases hs : d.animationState <;> simp only [hs] <;> split_ifs <;> simp

/-- The override `customUpdate` writes neither `strikes` nor `maxStrikes` nor
`invulnerabilityTime`; it ends the invulnerability window once the timer,
reduced by the delta time, is at or below zero. -/
theorem Dino.customUpdate_damage_fields (d : Dino) (dt : ℚ) :
    (d.customUpdate dt).strikes = d.strikes ∧
    (d.customUpdate dt).maxStrikes = d.maxStrikes ∧
    (d.customUpdate dt).invulnerabilityTime = d.invulnerabilityTime ∧
    (d.customUpdate dt).isInvulnerable =
      (d.isInvulnerable && !decide (d.invulnerabilityTimer - dt ≤ 0)) := by
  unfold Dino.customUpdate
  simp only [Dino.updateAnimation_damage_fields]
  split_ifs <;> simp_all

/-- The same frame for the whole `update` of a `Dino`. -/
theorem Dino.update_damage_fields (pow : ℚ → ℚ → ℚ) (d : Dino) (dt : ℚ) :
    (d.update pow dt).strikes = d.strikes ∧
    (d.update pow dt).maxStrikes = d.maxStrikes ∧
    (d.update pow dt).invulnerabilityTime = d.invulnerabilityTime ∧
    (d.update pow dt).isInvulnerable =
      (d.isInvulnerable && !decide (d.invulnerabilityTimer - dt ≤ 0)) := by
  unfold Dino.update
  simp only [Dino.customUpdate_damage_fields, Dino.updateAnimation_damage_fields]
  split_ifs <;> simp

/-- The state after `takeDamage()` on a Dino that is not invulnerable. -/
theorem Dino.takeDamage_state_of_vulnerable (d : Dino) (h : d.isInvulnerable = false) :
    d.takeDamage.2 = { d with
      strikes := d.strikes + 1
      isInvulnerable := true
      invulnerabilityTimer := d.invulnerabilityTime
      animationState := AnimationState.hurt
      currentFrame := 0
      expression := Expression.hurt } := by
  unfold Dino.takeDamage
  simp only [h, Bool.false_eq_true, if_false]
  split_ifs <;> rfl

/-- The method `takeDamage()` never writes `maxStrikes`. -/
theorem Dino.takeDamage_maxStrikes (d : Dino) :
    d.takeDamage.2.maxStrikes = d.maxStrikes := by
  simp only [Dino.takeDamage]
  split_ifs <;> rfl

/-- C7: while invulnerable, `takeDamage()` returns false and changes no field;
otherwise it adds exactly 1 to `strikes`, sets `isInvulnerable`, sets
`invulnerabilityTimer` to `invulnerabilityTime` (1.5 as constructed), sets
`animationState` to `hurt`, returns true exactly when `strikes` is now at least
`maxStrikes`, and an immediate second call changes nothing.  From a new Dino,
three calls with `isInvulnerable` cleared in between return false, false,
true. -/
theorem takeDamage_strike_window (d : Dino) :
    (d.isInvulnerable = true → d.takeDamage = (false, d)) ∧
    (d.isInvulnerable = false →
      d.takeDamage.2.strikes = d.strikes + 1 ∧
      d.takeDamage.2.isInvulnerable = true ∧
      d.takeDamage.2.invulnerabilityTimer = d.invulnerabilityTime ∧
      (d.invulnerabilityTime = 3 / 2 → d.takeDamage.2.invulnerabilityTimer = 3 / 2) ∧
      d.takeDamage.2.animationState = AnimationState.hurt ∧
      (d.takeDamage.1 = true ↔ d.takeDamage.2.strikes ≥ d.takeDamage.2.maxStrikes) ∧
      d.takeDamage.2.takeDamage = (false, d.takeDamage.2)) ∧
    (∀ x y : ℚ,
      (Dino.new x y).invulnerabilityTime = 3 / 2 ∧
      (Dino.new x y).maxStrikes = 3 ∧
      (Dino.new x y).takeDamage.1 = false ∧
      (Dino.new x y).takeDamage.2.clearInvulnerability.takeDamage.1 = false ∧
      (Dino.new x y).takeDamage.2.clearInvulnerability.takeDamage.2.clearInvulnerability.takeDamage.1
        = true) := by
  refine ⟨?_, ?_, ?_⟩
  · intro h
    simp [Dino.takeDamage, h]
  · intro h
    have hform := Dino.takeDamage_state_of_vulnerable d h
    refine ⟨by rw [hform], by rw [hform], by rw [hform], ?_, by rw [hform], ?_, ?_⟩
    · intro h32
      rw [hform]
      exact h32
    · unfold Dino.takeDamage
      simp only [h, Bool.false_eq_true, if_false]
      split_ifs with hge
      · simpa using hge
      · simpa using hge
    · rw [hform]
      simp [Dino.takeDamage]
  · intro x y
    simp [Dino.takeDamage, Dino.new, Dino.clearInvulnerability]

/-- Witness for C7: the first hit on a new Dino. -/
theorem takeDamage_strike_window_witness :
    (Dino.new 100 400).takeDamage.2.strikes = 1 ∧
    (Dino.new 100 400).takeDamage.2.invulnerabilityTimer = 3 / 2 := by
  obtain ⟨h1, _, _, h4, _⟩ := (takeDamage_strike_window (Dino.new 100 400)).2.1 rfl
  exact ⟨by rw [h1]; rfl, h4 rfl⟩

/-- C8: `jump()` returns true exactly when `canJump`, `isOnGround` and not
`isInvulnerable` hold; when it returns false (in particular whenever
`isOnGround` is false) the Dino is unchanged; when it returns true `velocity.y`
is `jumpPower` (-450 as constructed), `isOnGround` and `canJump` are false and
`animationState` is `jumping`. -/
theorem jump_only_when_grounded (d : Dino) :
    (d.jump.1 = true ↔
      (d.canJump = true ∧ d.isOnGround = true ∧ d.isInvulnerable = false)) ∧
    (d.jump.1 = false → d.jump.2 = d) ∧
    (d.isOnGround = false → d.jump = (false, d)) ∧
    (d.jump.1 = true →
      d.jump.2.velocity.y = d.jumpPower ∧
      (d.jumpPower = -450 → d.jump.2.velocity.y = -450) ∧
      d.jump.2.isOnGround = false ∧
      d.jump.2.canJump = false ∧
      d.jump.2.animationState = AnimationState.jumping) := by
  by_cases hc : (d.canJump && d.isOnGround && !d.isInvulnerable) = true
  · have hj : d.jump = (true,
        { d with
          toEntity := { d.toEntity with
            velocity := { d.velocity with y := d.jumpPower }
            canJump := false }
          isOnGround := false
          animationState := AnimationState.jumping
          currentFrame := 0
          expression := Expression.focused }) := by
      unfold Dino.jump
      rw [if_pos hc]
    have hc2 := hc
    simp only [Bool.and_eq_true, Bool.not_eq_true'] at hc2
    refine ⟨?_, ?_, ?_, ?_⟩
    · rw [hj]
      simp [hc2.1.1, hc2.1.2, hc2.2]
    · rw [hj]
      intro h
      cases h
    · intro hg
      rw [hc2.1.2] at hg
      cases hg
    · intro _
      rw [hj]
      exact ⟨rfl, fun h => h, rfl, rfl, rfl⟩
  · have hj : d.jump = (false, d) := by
      unfold Dino.jump
      rw [if_neg hc]
    simp only [Bool.and_eq_true, Bool.not_eq_true'] at hc
    refine ⟨?_, ?_, ?_, ?_⟩
    · rw [hj]
      constructor
      · intro h
        cases h
      · rintro ⟨h1, h2, h3⟩
        exact absurd ⟨⟨h1, h2⟩, h3⟩ hc
    · intro _
      rw [hj]
    · intro _
      exact hj
    · rw [hj]
      intro h
      cases h

/-- Witness for C8: a new Dino standing on the ground jumps. -/
theorem jump_only_when_grounded_witness :
    { Dino.new 100 400 with isOnGround := true }.jump.2.velocity.y = -450 :=
  ((jump_only_when_grounded { Dino.new 100 400 with isOnGround := true }).2.2.2
    (by simp [Dino.jump, Dino.new, Entity.new])).2.1 rfl

/-- A hit on a vulnerable Dino followed by an `update` at least as long as the
invulnerability time: one more strike, and the Dino is vulnerable again. -/
theorem Dino.hit_then_wait (pow : ℚ → ℚ → ℚ) (d : Dino) (dt : ℚ)
    (h1 : d.isInvulnerable = false) (h2 : d.invulnerabilityTime ≤ dt) :
    ((d.takeDamage.2).update pow dt).isInvulnerable = false ∧
    ((d.takeDamage.2).update pow dt).strikes = d.strikes + 1 ∧
    ((d.takeDamage.2).update pow dt).maxStrikes = d.maxStrikes ∧
    ((d.takeDamage.2).update pow dt).invulnerabilityTime = d.invulnerabilityTime := by
  have hform := Dino.takeDamage_state_of_vulnerable d h1
  obtain ⟨a, b, c, e⟩ := Dino.update_damage_fields pow d.takeDamage.2 dt
  rw [a, b, c, e, hform]
  refine ⟨?_, rfl, rfl, rfl⟩
  simp only [Bool.true_and, Bool.not_eq_false', decide_eq_true_eq]
  linarith

/-- Every call keeps the strike counter in range, provided a `takeDamage()` is
made only while `isGameOver()` is false. -/
theorem Dino.step_strikesInRange (pow : ℚ → ℚ → ℚ) (d : Dino) (op : DinoOp)
    (hinv : d.StrikesInRange)
    (hop : (if op = DinoOp.takeDamage then !d.isGameOver else true) = true) :
    (Dino.step pow d op).StrikesInRange := by
  obtain ⟨hm, h0, h3⟩ := hinv
  cases op with
  | update dt =>
    obtain ⟨a, b, _, _⟩ := Dino.update_damage_fields pow d dt
    simp only [Dino.step, Dino.StrikesInRange, a, b]
    exact ⟨hm, h0, h3⟩
  | jump =>
    simp only [Dino.step, Dino.jump, Dino.StrikesInRange]
    split_ifs <;> exact ⟨hm, h0, h3⟩
  | takeDamage =>
    simp only [if_true, Dino.isGameOver, Bool.not_eq_true', decide_eq_false_iff_not, not_le,
      ge_iff_le] at hop
    simp only [Dino.step, Dino.takeDamage, Dino.StrikesInRange]
    split_ifs <;> simp only [] <;> refine ⟨hm, ?_, ?_⟩ <;> omega
  | reset =>
    simp only [Dino.step, Dino.reset, Dino.StrikesInRange]
    exact ⟨hm, le_refl _, by norm_num⟩

/-- The strike counter stays in range along a guarded call sequence. -/
theorem Dino.run_strikesInRange (pow : ℚ → ℚ → ℚ) (ops : List DinoOp) :
    ∀ d : Dino, d.StrikesInRange → Dino.damageOnlyWhilePlaying pow d ops = true →
      (Dino.run pow d ops).StrikesInRange := by
  induction ops with
  | nil => intro d h _; exact h
  | cons op ops ih =>
    intro d h hg
    simp only [Dino.damageOnlyWhilePlaying, Bool.and_eq_true] at hg
    have := ih (Dino.step pow d op) (Dino.step_strikesInRange pow d op h hg.1) hg.2
    simpa [Dino.run] using this

/-- C9 (counterexample): from a new Dino, four `takeDamage()` calls separated by
`update(2)` calls (each `dt ≥ 0`) leave `strikes = 4` with `maxStrikes = 3`:
`takeDamage` increments the counter whenever the Dino is not invulnerable, with
no check against `maxStrikes`. -/
theorem strikes_exceed_maxStrikes :
    (∀ op ∈ strikeOps, ∀ dt : ℚ, op = DinoOp.update dt → 0 ≤ dt) ∧
    (Dino.run (fun _ _ => 1) (Dino.new 100 400) strikeOps).strikes = 4 ∧
    (Dino.run (fun _ _ => 1) (Dino.new 100 400) strikeOps).maxStrikes = 3 := by
  refine ⟨?_, ?_⟩
  · intro op hop dt hdt
    subst hdt
    simp [strikeOps] at hop
    rw [hop]
    norm_num
  · obtain ⟨a1, b1, c1, e1⟩ := Dino.hit_then_wait (fun _ _ => 1) (Dino.new 100 400) 2 rfl
      (by norm_num [Dino.new])
    obtain ⟨a2, b2, c2, e2⟩ := Dino.hit_then_wait (fun _ _ => 1) _ 2 a1
      (by rw [e1]; norm_num [Dino.new])
    obtain ⟨a3, b3, c3, e3⟩ := Dino.hit_then_wait (fun _ _ => 1) _ 2 a2
      (by rw [e2, e1]; norm_num [Dino.new])
    have h1 := Dino.takeDamage_state_of_vulnerable _ a3
    simp only [Dino.run, strikeOps, List.foldl, Dino.step]
    constructor
    · rw [h1]
      show _ + 1 = (4 : ℤ)
      rw [b3, b2, b1]
      rfl
    · rw [Dino.takeDamage_maxStrikes, c3, c2, c1]
      rfl

/-- C9 (amended): for every sequence of `update` (any delta time), `jump`,
`takeDamage` and `reset` calls on a newly constructed Dino in which each
`takeDamage()` is made while `isGameOver()` is false, `strikes` stays within
`[0, maxStrikes]`, and `maxStrikes` stays 3. -/
theorem strikes_bounded_before_game_over (pow : ℚ → ℚ → ℚ) (x y : ℚ) (ops : List DinoOp)
    (h : Dino.damageOnlyWhilePlaying pow (Dino.new x y) ops = true) :
    0 ≤ (Dino.run pow (Dino.new x y) ops).strikes ∧
    (Dino.run pow (Dino.new x y) ops).strikes ≤ (Dino.run pow (Dino.new x y) ops).maxStrikes ∧
    (Dino.run pow (Dino.new x y) ops).maxStrikes = 3 := by
  obtain ⟨hm, h0, h3⟩ := Dino.run_strikesInRange pow ops (Dino.new x y)
    ⟨rfl, le_refl _, by norm_num [Dino.new]⟩ h
  exact ⟨h0, by rw [hm]; exact h3, hm⟩

/-- Witness for C9 (amended): a hit, a jump, a reset and another hit. -/
theorem strikes_bounded_before_game_over_witness :
    (Dino.run (fun _ _ => 1) (Dino.new 100 400)
      [DinoOp.takeDamage, DinoOp.jump, DinoOp.reset, DinoOp.takeDamage]).strikes ≤
    (Dino.run (fun _ _ => 1) (Dino.new 100 400)
      [DinoOp.takeDamage, DinoOp.jump, DinoOp.reset, DinoOp.takeDamage]).maxStrikes :=
  (strikes_bounded_before_game_over (fun _ _ => 1) 100 400
    [DinoOp.takeDamage, DinoOp.jump, DinoOp.reset, DinoOp.takeDamage]
    (by simp [Dino.damageOnlyWhilePlaying, Dino.step, Dino.takeDamage, Dino.jump, Dino.reset,
      Dino.isGameOver, Dino.new, Entity.new])).2.1

/-! ## Theorems: Bop-It command generation -/

namespace BopIt

/-- A draw in `[0, 1)` reads a member of a non-empty command array. -/
theorem pickCommand_mem (commands : List String) (r : ℚ) (hne : commands ≠ [])
    (h0 : 0 ≤ r) (h1 : r < 1) :
    ∃ t ∈ commands, GameEngine.pickCommand commands r = Command.token t := by
  have hlen : (0 : ℚ) < (commands.length : ℚ) := by
    have : 0 < commands.length := List.length_pos.mpr hne
    exact_mod_cast this
  have hi0 : 0 ≤ ⌊r * (commands.length : ℚ)⌋ := Int.floor_nonneg.mpr (mul_nonneg h0 hlen.le)
  have hi1 : ⌊r * (commands.length : ℚ)⌋ < (commands.length : ℤ) := by
    rw [Int.floor_lt]
    push_cast
    nlinarith
  have hnat : (⌊r * (commands.length : ℚ)⌋).toNat < commands.length := by omega
  refine ⟨commands[(⌊r * (commands.length : ℚ)⌋).toNat], List.getElem_mem _, ?_⟩
  simp only [GameEngine.pickCommand, not_lt.mpr hi0, if_false, List.getElem?_eq_getElem hnat]

/-- When the loop exits, the command it read differs from `lastCommand`, is a
member of the array, and the unread draws are a suffix of the draws. -/
theorem drawCommand_result (commands : List String) (last : Command)
    (hlen : commands.length > 1) (draws : List ℚ) :
    (∀ r ∈ draws, 0 ≤ r ∧ r < 1) →
    ∀ c rest, GameEngine.drawCommand commands last draws = some (c, rest) →
      c ≠ last ∧ (∃ t ∈ commands, c = Command.token t) ∧ rest <:+ draws := by
  induction draws with
  | nil => intro _ c rest h; simp [GameEngine.drawCommand] at h
  | cons r rs ih =>
    intro hr c rest h
    have hne : commands ≠ [] := by
      intro h0
      rw [h0] at hlen
      simp at hlen
    simp only [GameEngine.drawCommand] at h
    split_ifs at h with hcond
    · obtain ⟨a, b, s⟩ := ih (fun x hx => hr x (List.mem_cons_of_mem r hx)) c rest h
      exact ⟨a, b, s.trans (List.suffix_cons r rs)⟩
    · simp only [Option.some.injEq, Prod.mk.injEq] at h
      obtain ⟨hc, hrest⟩ := h
      obtain ⟨t, ht, hpick⟩ := pickCommand_mem commands r hne
        (hr r (List.mem_cons_self r rs)).1 (hr r (List.mem_cons_self r rs)).2
      refine ⟨?_, ⟨t, ht, by rw [← hc, hpick]⟩, ?_⟩
      · intro heq
        exact hcond ⟨by rw [hc, heq], hlen⟩
      · rw [← hrest]
        exact List.suffix_cons r rs

/-- The loop exits as soon as a draw reads a command other than `lastCommand`:
with such a draw in the list the call completes. -/
theorem drawCommand_completes (commands : List String) (last : Command) (draws : List ℚ)
    (h : ∃ r ∈ draws, GameEngine.pickCommand commands r ≠ last) :
    (GameEngine.drawCommand commands last draws).isSome = true := by
  induction draws with
  | nil => obtain ⟨r, hr, _⟩ := h; simp at hr
  | cons r rs ih =>
    simp only [GameEngine.drawCommand]
    split_ifs with hcond
    · apply ih
      obtain ⟨x, hx, hne⟩ := h
      rcases List.mem_cons.mp hx with hx | hx
      · exact absurd (hx ▸ hcond.1) hne
      · exact ⟨x, hx, hne⟩
    · rfl

/-- One completed `generateNextCommand()` call in the `PLAYING` state. -/
theorem generateNextCommand_step (s : GameEngine) (draws : List ℚ) (now : ℤ)
    (hplay : s.state = GameState.PLAYING) (hvoc : s.commands = vocabulary)
    (hdraws : ∀ r ∈ draws, 0 ≤ r ∧ r < 1)
    (s1 : GameEngine) (rest : List ℚ)
    (hgen : s.generateNextCommand draws now = some (s1, rest)) :
    (∃ t ∈ vocabulary, s1.currentCommand = Command.token t) ∧
    s1.currentCommand ≠ s.lastCommand ∧
    s1.lastCommand = s1.currentCommand ∧
    s1.state = GameState.PLAYING ∧ s1.commands = vocabulary ∧
    (∀ r ∈ rest, 0 ≤ r ∧ r < 1) := by
  simp only [GameEngine.generateNextCommand, hplay, ne_eq, not_true_eq_false, if_false] at hgen
  cases hd : GameEngine.drawCommand s.commands s.lastCommand draws with
  | none => simp [hd] at hgen
  | some p =>
    obtain ⟨c, rest2⟩ := p
    simp only [hd, Option.some.injEq, Prod.mk.injEq] at hgen
    obtain ⟨hs1, hrest⟩ := hgen
    have hlen : s.commands.length > 1 := by rw [hvoc]; decide
    obtain ⟨hne, ⟨t, ht, hc⟩, hsuf⟩ := drawCommand_result s.commands s.lastCommand hlen draws
      hdraws c rest2 hd
    subst hs1
    subst hrest
    refine ⟨⟨t, hvoc ▸ ht, hc⟩, hne, rfl, rfl, hvoc, ?_⟩
    intro r hr
    exact hdraws r (hsuf.subset hr)

end BopIt

namespace BopIt

/-- A completed run of consecutive calls: every generated command is a
vocabulary token, and each differs from the one before it (the first from the
`lastCommand` the run started with). -/
theorem generateCommands_chain (clock : ℕ → ℤ) (n : ℕ) :
    ∀ (s : GameEngine) (draws : List ℚ),
      s.state = GameState.PLAYING → s.commands = vocabulary →
      (∀ r ∈ draws, 0 ≤ r ∧ r < 1) →
      ∀ cs s2 rest, GameEngine.generateCommands clock n s draws = some (cs, s2, rest) →
        List.Chain (fun a b => a ≠ b) s.lastCommand cs ∧
        (∀ c ∈ cs, ∃ t ∈ vocabulary, c = Command.token t) ∧ cs.length = n := by
  induction n with
  | zero =>
    intro s draws _ _ _ cs s2 rest h
    simp only [GameEngine.generateCommands, Option.some.injEq, Prod.mk.injEq] at h
    rw [← h.1]
    simp
  | succ n ih =>
    intro s draws hplay hvoc hdraws cs s2 rest h
    simp only [GameEngine.generateCommands] at h
    cases hg : s.generateNextCommand draws (clock n) with
    | none => simp [hg] at h
    | some p =>
      obtain ⟨s1, rest1⟩ := p
      obtain ⟨hmem, hne, hlast, hplay1, hvoc1, hdraws1⟩ :=
        generateNextCommand_step s draws (clock n) hplay hvoc hdraws s1 rest1 hg
      simp only [hg] at h
      cases hm : GameEngine.generateCommands clock n s1 rest1 with
      | none => simp [hm] at h
      | some q =>
        obtain ⟨cs1, s3, rest3⟩ := q
        simp only [hm, Option.some.injEq, Prod.mk.injEq] at h
        obtain ⟨hch, hall, hl⟩ := ih s1 rest1 hplay1 hvoc1 hdraws1 cs1 s3 rest3 hm
        rw [← h.1]
        refine ⟨List.Chain.cons (Ne.symm hne) (hlast ▸ hch), ?_, by simp [hl]⟩
        intro c hc
        rcases List.mem_cons.mp hc with hc | hc
        · rw [hc]; exact hmem
        · exact hall c hc

end BopIt

/-- C10: in the `PLAYING` state with the six-token vocabulary and draws in
`[0, 1)`, a `generateNextCommand()` call that completes leaves in
`currentCommand` a vocabulary token different from the previous `lastCommand`
(and records it as the new `lastCommand`); hence in any completed run of
consecutive calls every command is a vocabulary token and no two consecutive
commands are equal. -/
theorem generateNextCommand_no_repeat (s : BopIt.GameEngine) (draws : List ℚ)
    (hplay : s.state = BopIt.GameState.PLAYING) (hvoc : s.commands = BopIt.vocabulary)
    (hdraws : ∀ r ∈ draws, 0 ≤ r ∧ r < 1) :
    (∀ (now : ℤ) (s1 : BopIt.GameEngine) (rest : List ℚ),
      s.generateNextCommand draws now = some (s1, rest) →
      (∃ t ∈ BopIt.vocabulary, s1.currentCommand = BopIt.Command.token t) ∧
      s1.currentCommand ≠ s.lastCommand ∧
      s1.lastCommand = s1.currentCommand) ∧
    (∀ (clock : ℕ → ℤ) (n : ℕ) (cs : List BopIt.Command) (s2 : BopIt.GameEngine)
      (rest : List ℚ),
      BopIt.GameEngine.generateCommands clock n s draws = some (cs, s2, rest) →
      cs.length = n ∧
      (∀ c ∈ cs, ∃ t ∈ BopIt.vocabulary, c = BopIt.Command.token t) ∧
      List.Chain (fun a b => a ≠ b) s.lastCommand cs) ∧
    ((∃ r ∈ draws, BopIt.GameEngine.pickCommand s.commands r ≠ s.lastCommand) →
      ∀ now : ℤ, (s.generateNextCommand draws now).isSome = true) := by
  refine ⟨?_, ?_, ?_⟩
  · intro now s1 rest hgen
    obtain ⟨a, b, c, _⟩ := BopIt.generateNextCommand_step s draws now hplay hvoc hdraws s1 rest hgen
    exact ⟨a, b, c⟩
  · intro clock n cs s2 rest h
    obtain ⟨a, b, c⟩ := BopIt.generateCommands_chain clock n s draws hplay hvoc hdraws cs s2 rest h
    exact ⟨c, b, a⟩
  · intro hex now
    have := BopIt.drawCommand_completes s.commands s.lastCommand draws hex
    simp only [BopIt.GameEngine.generateNextCommand, hplay, ne_eq, not_true_eq_false, if_false]
    cases hd : BopIt.GameEngine.drawCommand s.commands s.lastCommand draws with
    | none => rw [hd] at this; cases this
    | some p => rfl

/-- The call of the C10 witness, evaluated. -/
theorem bopDemo_generate :
    bopDemoState.generateNextCommand [0, 1 / 2] 1000 =
      some ({ bopDemoState with
              currentCommand := BopIt.Command.token "FLICK"
              lastCommand := BopIt.Command.token "FLICK"
              commandStartTime := 1000
              gameTimer := some 3000 }, []) := by
  simp [BopIt.GameEngine.generateNextCommand, BopIt.GameEngine.drawCommand,
    BopIt.GameEngine.pickCommand, BopIt.GameEngine.startResponseTimer, bopDemoState,
    BopIt.GameEngine.new, BopIt.vocabulary]
  norm_num [show Int.toNat 3 = 3 from rfl]
  rw [if_neg (by decide)]

/-- Witness for C10: from last command `BOP`, the draw 0 reads `BOP` again and
is rejected, the draw 1/2 reads `FLICK`, which the call keeps. -/
theorem generateNextCommand_no_repeat_witness :
    ∃ s1 : BopIt.GameEngine,
      bopDemoState.generateNextCommand [0, 1 / 2] 1000 = some (s1, []) ∧
      s1.currentCommand = BopIt.Command.token "FLICK" ∧
      s1.currentCommand ≠ bopDemoState.lastCommand :=
  ⟨_, bopDemo_generate, rfl,
    ((generateNextCommand_no_repeat bopDemoState [0, 1 / 2] rfl rfl
      (by intro r hr; simp at hr; rcases hr with h | h <;> rw [h] <;> norm_num)).1
      1000 _ [] bopDemo_generate).2.1⟩

/-! ## Theorems: Bop-It rounds, responses and the countdown -/

namespace BopIt

/-- The state `processPlayerResponse` returns for a response that matches the
outstanding command of a `PLAYING` engine, whatever the clock reads. -/
theorem processPlayerResponse_accept (s : GameEngine) (response c : String) (now : ℤ)
    (hplay : s.state = GameState.PLAYING) (hcmd : s.currentCommand = Command.token c)
    (hne : c ≠ "") (hmatch : toUpperCase response = c) :
    s.processPlayerResponse response now =
      (true, GameEngine.updateResponseTime
        { s with
          gameTimer := none
          score := s.score +
            (1 + max 0 ⌊(((s.responseTimeLimit - (now - s.commandStartTime) : ℤ) : ℚ)) / 100⌋)
          round := s.round + 1 }) := by
  have htruthy : (Command.token c).isTruthy = true := by
    simp [Command.isTruthy, hne]
  simp [GameEngine.processPlayerResponse, hplay, htruthy, hcmd, hmatch]

/-- A response to an engine that is not `PLAYING` is ignored. -/
theorem processPlayerResponse_ignored (s : GameEngine) (response : String) (now : ℤ)
    (h : s.state ≠ GameState.PLAYING) :
    s.processPlayerResponse response now = (false, s) := by
  simp [GameEngine.processPlayerResponse, h]

/-- The fields `updateResponseTime()` leaves alone. -/
theorem updateResponseTime_frame (s : GameEngine) :
    (GameEngine.updateResponseTime s).score = s.score ∧
    (GameEngine.updateResponseTime s).round = s.round ∧
    (GameEngine.updateResponseTime s).state = s.state ∧
    (GameEngine.updateResponseTime s).responseTimeLimit = GameEngine.responseTimeFor s.round :=
  ⟨rfl, rfl, rfl, rfl⟩

/-- Once the countdown is cleared the interval callback does nothing. -/
theorem ticks_of_cleared (n : ℕ) (s : GameEngine) (h : s.gameTimer = none) :
    GameEngine.ticks n s = s := by
  induction n with
  | zero => rfl
  | succ n ih =>
    have h1 : GameEngine.timerTick s = s := by simp [GameEngine.timerTick, h]
    simp only [GameEngine.ticks, Function.iterate_succ, Function.comp_apply, h1]
    exact ih

/-- While fewer than `remainingTime / 50` callbacks have run, the countdown only
lowers `remainingTime`. -/
theorem ticks_before_timeout (n : ℕ) :
    ∀ (s : GameEngine) (rem : ℤ), s.gameTimer = some rem → 50 * (n : ℤ) < rem →
      GameEngine.ticks n s = { s with gameTimer := some (rem - 50 * (n : ℤ)) } := by
  induction n with
  | zero =>
    intro s rem h _
    simp only [GameEngine.ticks, Function.iterate_zero, id_eq, Nat.cast_zero, mul_zero, sub_zero]
    rw [← h]
  | succ n ih =>
    intro s rem h hlt
    push_cast at hlt
    have h1 : GameEngine.timerTick s = { s with gameTimer := some (rem - 50) } := by
      simp only [GameEngine.timerTick, h]
      rw [if_neg (by omega)]
    have := ih { s with gameTimer := some (rem - 50) } (rem - 50) rfl (by omega)
    simp only [GameEngine.ticks, Function.iterate_succ, Function.comp_apply, h1] at this ⊢
    rw [this]
    push_cast
    congr 2
    ring

/-- From the callback number `⌈remainingTime / 50⌉` on, the countdown has run
`handleTimeout()`: the engine is the one `endGame` leaves. -/
theorem ticks_after_timeout (n : ℕ) :
    ∀ (s : GameEngine) (rem : ℤ), s.gameTimer = some rem → 0 < rem → rem ≤ 50 * (n : ℤ) →
      GameEngine.ticks n s = GameEngine.endGame { s with gameTimer := none } := by
  induction n with
  | zero =>
    intro s rem _ h0 hle
    simp at hle
    omega
  | succ n ih =>
    intro s rem h h0 hle
    push_cast at hle
    by_cases hlast : rem - 50 ≤ 0
    · have h1 : GameEngine.timerTick s = GameEngine.endGame { s with gameTimer := none } := by
        simp only [GameEngine.timerTick, h, GameEngine.handleTimeout]
        rw [if_pos hlast]
      have hnone : (GameEngine.endGame { s with gameTimer := none }).gameTimer = none := by
        simp only [GameEngine.endGame]
        split_ifs <;> rfl
      simp only [GameEngine.ticks, Function.iterate_succ, Function.comp_apply, h1]
      exact ticks_of_cleared n _ hnone
    · have h1 : GameEngine.timerTick s = { s with gameTimer := some (rem - 50) } := by
        simp only [GameEngine.timerTick, h]
        rw [if_neg hlast]
      have := ih { s with gameTimer := some (rem - 50) } (rem - 50) rfl (by omega) (by omega)
      simp only [GameEngine.ticks, Function.iterate_succ, Function.comp_apply, h1] at this ⊢
      exact this

/-- The method `endGame` ends the game and keeps the score. -/
theorem endGame_state_score (s : GameEngine) :
    (GameEngine.endGame s).state = GameState.GAME_OVER ∧
    (GameEngine.endGame s).score = s.score := by
  simp only [GameEngine.endGame]
  split_ifs <;> exact ⟨rfl, rfl⟩

end BopIt

namespace BopIt

/-- The state `startGame()` leaves when it completes with the six-token
vocabulary and draws in `[0, 1)`. -/
theorem startGame_result (s : GameEngine) (draws : List ℚ) (now : ℤ)
    (hvoc : s.commands = vocabulary) (hdraws : ∀ r ∈ draws, 0 ≤ r ∧ r < 1)
    (s1 : GameEngine) (rest : List ℚ) (h : s.startGame draws now = some (s1, rest)) :
    s1.state = GameState.PLAYING ∧ s1.score = 0 ∧ s1.round = 1 ∧
    s1.responseTimeLimit = 3000 ∧ s1.commandStartTime = now ∧
    s1.gameTimer = some 3000 ∧
    ∃ t ∈ vocabulary, s1.currentCommand = Command.token t := by
  have h' : (GameEngine.updateResponseTime
      { s with state := GameState.PLAYING, score := 0, round := 1 }).generateNextCommand draws now
      = some (s1, rest) := h
  obtain ⟨hmem, _, _, _, _, _⟩ := generateNextCommand_step
    (GameEngine.updateResponseTime { s with state := GameState.PLAYING, score := 0, round := 1 })
    draws now rfl hvoc hdraws s1 rest h'
  simp only [GameEngine.startGame] at h
  simp only [GameEngine.generateNextCommand, ne_eq, GameEngine.updateResponseTime,
    not_true_eq_false, if_false] at h
  split at h
  · cases h
  · simp only [Option.some.injEq, Prod.mk.injEq] at h
    obtain ⟨h1, _⟩ := h
    subst h1
    exact ⟨rfl, rfl, rfl, rfl, rfl, rfl, hmem⟩

/-- Every vocabulary token is a non-empty string. -/
theorem vocabulary_nonempty (t : String) (h : t ∈ vocabulary) : t ≠ "" := by
  simp only [vocabulary, List.mem_cons, List.mem_singleton, List.not_mem_nil, or_false] at h
  rcases h with h | h | h | h | h | h <;> rw [h] <;> decide

end BopIt

/-- C11: in a `PLAYING` state with an outstanding command, a response that
matches it case-insensitively `e` ms after the command was issued, with
`0 ≤ e < responseTimeLimit`, makes `processPlayerResponse` return true, adds
exactly `1 + floor((responseTimeLimit - e) / 100)` to `score` and 1 to `round`;
the bonus is largest at `e = 0`.  After `startGame()`, a correct response at
`e = 5` gives score 30, round 2 and `responseTimeLimit` 3000. -/
theorem processPlayerResponse_time_bonus :
    (∀ (s : BopIt.GameEngine) (response c : String) (e : ℤ),
      s.state = BopIt.GameState.PLAYING → s.currentCommand = BopIt.Command.token c →
      c ≠ "" → BopIt.toUpperCase response = c → 0 ≤ e → e < s.responseTimeLimit →
      (s.processPlayerResponse response (s.commandStartTime + e)).1 = true ∧
      (s.processPlayerResponse response (s.commandStartTime + e)).2.score =
        s.score + (1 + ⌊(((s.responseTimeLimit - e : ℤ) : ℚ)) / 100⌋) ∧
      (s.processPlayerResponse response (s.commandStartTime + e)).2.round = s.round + 1 ∧
      ⌊(((s.responseTimeLimit - e : ℤ) : ℚ)) / 100⌋ ≤
        ⌊(((s.responseTimeLimit - 0 : ℤ) : ℚ)) / 100⌋) ∧
    (∀ (s : BopIt.GameEngine) (draws : List ℚ) (now : ℤ) (s1 : BopIt.GameEngine)
      (rest : List ℚ) (response : String),
      s.commands = BopIt.vocabulary → (∀ r ∈ draws, 0 ≤ r ∧ r < 1) →
      s.startGame draws now = some (s1, rest) →
      BopIt.Command.token (BopIt.toUpperCase response) = s1.currentCommand →
      (s1.processPlayerResponse response (now + 5)).1 = true ∧
      (s1.processPlayerResponse response (now + 5)).2.score = 30 ∧
      (s1.processPlayerResponse response (now + 5)).2.round = 2 ∧
      (s1.processPlayerResponse response (now + 5)).2.responseTimeLimit = 3000) := by
  constructor
  · intro s response c e hplay hcmd hne hmatch he0 he1
    rw [BopIt.processPlayerResponse_accept s response c _ hplay hcmd hne hmatch]
    have hb : (0 : ℤ) ≤ ⌊(((s.responseTimeLimit - e : ℤ) : ℚ)) / 100⌋ := by
      apply Int.floor_nonneg.mpr
      have : (0 : ℚ) ≤ ((s.responseTimeLimit - e : ℤ) : ℚ) := by
        exact_mod_cast (by omega : (0 : ℤ) ≤ s.responseTimeLimit - e)
      positivity
    refine ⟨rfl, ?_, rfl, ?_⟩
    · simp only [BopIt.updateResponseTime_frame, add_sub_cancel_left]
      rw [max_eq_right hb]
    · apply Int.floor_le_floor
      have : ((s.responseTimeLimit - e : ℤ) : ℚ) ≤ ((s.responseTimeLimit - 0 : ℤ) : ℚ) := by
        exact_mod_cast (by omega : s.responseTimeLimit - e ≤ s.responseTimeLimit - 0)
      linarith
  · intro s draws now s1 rest response hvoc hdraws hstart hmatch
    obtain ⟨hplay, hscore, hround, hlimit, hstamp, _, t, ht, hcmd⟩ :=
      BopIt.startGame_result s draws now hvoc hdraws s1 rest hstart
    have hresp : BopIt.toUpperCase response = t := by
      rw [hcmd] at hmatch
      exact BopIt.Command.token.inj hmatch
    rw [BopIt.processPlayerResponse_accept s1 response t _ hplay hcmd
      (BopIt.vocabulary_nonempty t ht) hresp]
    have hfloor : ⌊(((3000 - (now + 5 - now) : ℤ) : ℚ)) / 100⌋ = 29 := by
      rw [Int.floor_eq_iff]
      push_cast
      constructor <;> norm_num
    refine ⟨rfl, ?_, ?_, ?_⟩
    · simp only [BopIt.updateResponseTime_frame, hscore, hlimit, hstamp, hfloor]
      norm_num
    · simp only [BopIt.updateResponseTime_frame, hround]
      norm_num
    · simp only [BopIt.updateResponseTime_frame, hround]
      norm_num [BopIt.GameEngine.responseTimeFor]

/-- The `startGame()` call of the C11 witness, evaluated: the draw 1/2 reads
`FLICK`. -/
theorem bopStart_flick :
    (BopIt.GameEngine.new 0).startGame [1 / 2] 1000 =
      some ({ BopIt.GameEngine.new 0 with
              state := BopIt.GameState.PLAYING
              currentCommand := BopIt.Command.token "FLICK"
              lastCommand := BopIt.Command.token "FLICK"
              commandStartTime := 1000
              gameTimer := some 3000 }, []) := by
  simp [BopIt.GameEngine.startGame, BopIt.GameEngine.updateResponseTime,
    BopIt.GameEngine.responseTimeFor, BopIt.GameEngine.generateNextCommand,
    BopIt.GameEngine.drawCommand, BopIt.GameEngine.pickCommand,
    BopIt.GameEngine.startResponseTimer, BopIt.GameEngine.new, BopIt.vocabulary]
  norm_num [show Int.toNat 3 = 3 from rfl]
  rw [if_neg (by simp)]

/-- Witness for C11: a new engine is started at clock value 1000, the draw 1/2
issues `FLICK`, and the response `flick` arrives 5 ms later. -/
theorem processPlayerResponse_time_bonus_witness :
    ∃ s1 : BopIt.GameEngine,
      (BopIt.GameEngine.new 0).startGame [1 / 2] 1000 = some (s1, []) ∧
      (s1.processPlayerResponse "flick" (1000 + 5)).1 = true ∧
      (s1.processPlayerResponse "flick" (1000 + 5)).2.score = 30 ∧
      (s1.processPlayerResponse "flick" (1000 + 5)).2.round = 2 :=
  ⟨_, bopStart_flick,
    ((processPlayerResponse_time_bonus.2 (BopIt.GameEngine.new 0) [1 / 2] 1000 _ [] "flick" rfl
      (by intro r hr; simp at hr; rw [hr]; norm_num) bopStart_flick (by decide)).1),
    ((processPlayerResponse_time_bonus.2 (BopIt.GameEngine.new 0) [1 / 2] 1000 _ [] "flick" rfl
      (by intro r hr; simp at hr; rw [hr]; norm_num) bopStart_flick (by decide)).2.1),
    ((processPlayerResponse_time_bonus.2 (BopIt.GameEngine.new 0) [1 / 2] 1000 _ [] "flick" rfl
      (by intro r hr; simp at hr; rw [hr]; norm_num) bopStart_flick (by decide)).2.2.1)⟩

/-- C12 (counterexample): 59 of the 60 countdown callbacks of a 3000 ms limit
have run, the engine is still `PLAYING`, and the matching response is handled
with `Date.now()` exactly 3000 ms after the command was issued:
`processPlayerResponse` makes no comparison with the limit, returns true and
adds 1 point (time bonus 0). -/
theorem late_response_accepted :
    (BopIt.GameEngine.ticks 59 bopIssuedState).state = BopIt.GameState.PLAYING ∧
    (BopIt.GameEngine.ticks 59 bopIssuedState).gameTimer = some 50 ∧
    4000 - bopIssuedState.commandStartTime = bopIssuedState.responseTimeLimit ∧
    ((BopIt.GameEngine.ticks 59 bopIssuedState).processPlayerResponse "BOP" 4000).1 = true ∧
    ((BopIt.GameEngine.ticks 59 bopIssuedState).processPlayerResponse "BOP" 4000).2.score =
      bopIssuedState.score + 1 ∧
    ((BopIt.GameEngine.ticks 59 bopIssuedState).processPlayerResponse "BOP" 4000).2.state =
      BopIt.GameState.PLAYING := by
  have ht := BopIt.ticks_before_timeout 59 bopIssuedState 3000 rfl (by norm_num)
  have hacc := BopIt.processPlayerResponse_accept (BopIt.GameEngine.ticks 59 bopIssuedState)
    "BOP" "BOP" 4000 (by rw [ht]; rfl) (by rw [ht]; rfl) (by decide) (by decide)
  refine ⟨by rw [ht]; rfl, by rw [ht]; norm_num, by norm_num [bopIssuedState, BopIt.GameEngine.new],
    by rw [hacc], ?_, by rw [hacc]; simp only [BopIt.updateResponseTime_frame]; rw [ht]; rfl⟩
  rw [hacc]
  simp only [BopIt.updateResponseTime_frame]
  rw [ht]
  norm_num [bopIssuedState, BopIt.GameEngine.new]

/-- C12 (amended): the limit is enforced by the countdown, not by
`processPlayerResponse`.  For a `PLAYING` engine with an outstanding command, a
limit `L` that is a positive multiple of 50 ms and a freshly installed
countdown: a matching response is accepted whatever the clock reads (time bonus
`max 0 (floor ((L - elapsed) / 100))`); with the countdown on schedule it is
accepted at `L - 1` ms and rejected from `L` ms on (false, score unchanged,
`GAME_OVER`); and once callback number `L / 50` has run every response is
rejected. -/
theorem response_limit_enforced_by_countdown (s : BopIt.GameEngine) (response c : String)
    (L : ℕ) (hplay : s.state = BopIt.GameState.PLAYING)
    (hcmd : s.currentCommand = BopIt.Command.token c) (hne : c ≠ "")
    (hmatch : BopIt.toUpperCase response = c)
    (hL : s.responseTimeLimit = (L : ℤ)) (hpos : 0 < L) (hdiv : 50 ∣ L)
    (htimer : s.gameTimer = some s.responseTimeLimit) :
    (∀ now : ℤ,
      (s.processPlayerResponse response now).1 = true ∧
      (s.processPlayerResponse response now).2.score = s.score +
        (1 + max 0 ⌊(((s.responseTimeLimit - (now - s.commandStartTime) : ℤ) : ℚ)) / 100⌋)) ∧
    (s.respondOnSchedule (L - 1) response).1 = true ∧
    (∀ e : ℕ, L ≤ e →
      (s.respondOnSchedule e response).1 = false ∧
      (s.respondOnSchedule e response).2.score = s.score ∧
      (s.respondOnSchedule e response).2.state = BopIt.GameState.GAME_OVER) ∧
    (∀ (n : ℕ) (r : String) (now : ℤ), L ≤ 50 * n →
      (BopIt.GameEngine.ticks n s).processPlayerResponse r now =
        (false, BopIt.GameEngine.ticks n s) ∧
      (BopIt.GameEngine.ticks n s).state = BopIt.GameState.GAME_OVER ∧
      (BopIt.GameEngine.ticks n s).score = s.score) := by
  have hlate : ∀ n : ℕ, L ≤ 50 * n →
      BopIt.GameEngine.ticks n s = BopIt.GameEngine.endGame { s with gameTimer := none } := by
    intro n hn
    apply BopIt.ticks_after_timeout n s s.responseTimeLimit htimer
    · rw [hL]; exact_mod_cast hpos
    · rw [hL]; exact_mod_cast hn
  have hover : ∀ n : ℕ, L ≤ 50 * n →
      (BopIt.GameEngine.ticks n s).state = BopIt.GameState.GAME_OVER ∧
      (BopIt.GameEngine.ticks n s).score = s.score := by
    intro n hn
    rw [hlate n hn]
    exact BopIt.endGame_state_score _
  refine ⟨?_, ?_, ?_, ?_⟩
  · intro now
    rw [BopIt.processPlayerResponse_accept s response c now hplay hcmd hne hmatch]
    exact ⟨rfl, rfl⟩
  · have hlt : 50 * (((L - 1) / 50 : ℕ) : ℤ) < s.responseTimeLimit := by
      rw [hL]
      have : 50 * ((L - 1) / 50) ≤ L - 1 := Nat.mul_div_le (L - 1) 50
      omega
    have ht := BopIt.ticks_before_timeout ((L - 1) / 50) s s.responseTimeLimit htimer hlt
    simp only [BopIt.GameEngine.respondOnSchedule]
    rw [BopIt.processPlayerResponse_accept _ response c _ (by rw [ht]; exact hplay)
      (by rw [ht]; exact hcmd) hne hmatch]
  · intro e he
    have hn : L ≤ 50 * (e / 50) := by
      obtain ⟨k, hk⟩ := hdiv
      have : k ≤ e / 50 := by
        rw [Nat.le_div_iff_mul_le (by norm_num)]
        omega
      omega
    obtain ⟨hst, hsc⟩ := hover (e / 50) hn
    simp only [BopIt.GameEngine.respondOnSchedule]
    rw [BopIt.processPlayerResponse_ignored _ response _ (by rw [hst]; decide)]
    exact ⟨rfl, hsc, hst⟩
  · intro n r now hn
    obtain ⟨hst, hsc⟩ := hover n hn
    exact ⟨BopIt.processPlayerResponse_ignored _ r now (by rw [hst]; decide), hst, hsc⟩

/-- Witness for C12 (amended): the 3000 ms round of `bopIssuedState`, answered
`bop` on schedule at 2999 ms and at 3000 ms. -/
theorem response_limit_enforced_by_countdown_witness :
    (bopIssuedState.respondOnSchedule (3000 - 1) "bop").1 = true ∧
    (bopIssuedState.respondOnSchedule 3000 "bop").1 = false :=
  ⟨(response_limit_enforced_by_countdown bopIssuedState "bop" "BOP" 3000 rfl rfl (by decide)
      (by decide) rfl (by norm_num) (by norm_num) rfl).2.1,
    ((response_limit_enforced_by_countdown bopIssuedState "bop" "BOP" 3000 rfl rfl (by decide)
      (by decide) rfl (by norm_num) (by norm_num) rfl).2.2.1 3000 (le_refl _)).1⟩

namespace BopIt

set_option maxHeartbeats 1000000 in
/-- The step table never rises with the round. -/
theorem responseTimeFor_antitone (r1 r2 : ℤ) (h : r1 ≤ r2) :
    GameEngine.responseTimeFor r2 ≤ GameEngine.responseTimeFor r1 := by
  unfold GameEngine.responseTimeFor
  split_ifs <;> omega

/-- The step table stays within 600 and 3000 ms. -/
theorem responseTimeFor_range (r : ℤ) :
    600 ≤ GameEngine.responseTimeFor r ∧ GameEngine.responseTimeFor r ≤ 3000 := by
  unfold GameEngine.responseTimeFor
  split_ifs <;> omega

set_option maxHeartbeats 1000000 in
/-- The step table, band by band. -/
theorem responseTimeFor_bands (r : ℤ) :
    (r ≤ 2 → GameEngine.responseTimeFor r = 3000) ∧
    (2 < r → r ≤ 4 → GameEngine.responseTimeFor r = 2500) ∧
    (4 < r → r ≤ 6 → GameEngine.responseTimeFor r = 2000) ∧
    (6 < r → r ≤ 8 → GameEngine.responseTimeFor r = 1500) ∧
    (8 < r → r ≤ 10 → GameEngine.responseTimeFor r = 1200) ∧
    (10 < r → r ≤ 12 → GameEngine.responseTimeFor r = 1000) ∧
    (12 < r → r ≤ 15 → GameEngine.responseTimeFor r = 800) ∧
    (15 < r → GameEngine.responseTimeFor r = 600) := by
  unfold GameEngine.responseTimeFor
  refine ⟨?_, ?_, ?_, ?_, ?_, ?_, ?_, ?_⟩ <;> intros <;> split_ifs <;> omega

end BopIt

/-- C13: the limit `updateResponseTime()` assigns is a non-increasing function
of the round; it is 3000 up to round 2, then 2500, 2000, 1500, 1200, 1000 and
800 up to rounds 4, 6, 8, 10, 12 and 15, and 600 beyond; it always lies in
`[600, 3000]`. -/
theorem updateResponseTime_step_table :
    (∀ s : BopIt.GameEngine,
      s.updateResponseTime =
        { s with responseTimeLimit := BopIt.GameEngine.responseTimeFor s.round }) ∧
    (∀ r1 r2 : ℤ, r1 ≤ r2 →
      BopIt.GameEngine.responseTimeFor r2 ≤ BopIt.GameEngine.responseTimeFor r1) ∧
    (∀ r : ℤ,
      (r ≤ 2 → BopIt.GameEngine.responseTimeFor r = 3000) ∧
      (2 < r → r ≤ 4 → BopIt.GameEngine.responseTimeFor r = 2500) ∧
      (4 < r → r ≤ 6 → BopIt.GameEngine.responseTimeFor r = 2000) ∧
      (6 < r → r ≤ 8 → BopIt.GameEngine.responseTimeFor r = 1500) ∧
      (8 < r → r ≤ 10 → BopIt.GameEngine.responseTimeFor r = 1200) ∧
      (10 < r → r ≤ 12 → BopIt.GameEngine.responseTimeFor r = 1000) ∧
      (12 < r → r ≤ 15 → BopIt.GameEngine.responseTimeFor r = 800) ∧
      (15 < r → BopIt.GameEngine.responseTimeFor r = 600)) ∧
    (∀ r : ℤ, 600 ≤ BopIt.GameEngine.responseTimeFor r ∧
      BopIt.GameEngine.responseTimeFor r ≤ 3000) := by
  exact ⟨fun s => rfl, BopIt.responseTimeFor_antitone, BopIt.responseTimeFor_bands,
    BopIt.responseTimeFor_range⟩

/-- Witness for C13: rounds 4 and 9. -/
theorem updateResponseTime_step_table_witness :
    BopIt.GameEngine.responseTimeFor 9 ≤ BopIt.GameEngine.responseTimeFor 4 ∧
    BopIt.GameEngine.responseTimeFor 9 = 1200 :=
  ⟨updateResponseTime_step_table.2.1 4 9 (by norm_num),
    (updateResponseTime_step_table.2.2.1 9).2.2.2.2.1 (by norm_num) (by norm_num)⟩

/-! ## Theorems: the phase-based Bop-It -/

/-- The started state of the C14 demonstration, evaluated. -/
theorem phaseStartedState_eq :
    phaseStartedState =
      { BopItPhase.onEnter with
        isGameActive := true
        currentCommand := some
          { command := BopIt.Command.token "FLICK", timestamp := 1000, timeLimit := 3000 } } := by
  simp [phaseStartedState, BopItPhase.onAction, BopItPhase.onEnter,
    BopItPhase.generateNewCommand, BopIt.GameEngine.pickCommand, BopItPhase.COMMANDS,
    BopItPhase.BASE_TIME_LIMIT]
  norm_num [show Int.toNat 3 = 3 from rfl]

/-- After a correct on-time `PLAYER_COMMAND` the new command is issued with
`BASE_TIME_LIMIT / min (gameSpeed * 0.95) 3`. -/
theorem BopItPhase.onAction_correct (s : BopItPhase.BopItState)
    (current : BopItPhase.BopItCommand) (command playerId : String) (now issuedAt : ℤ) (r : ℚ)
    (hact : s.isGameActive = true) (hcur : s.currentCommand = some current)
    (hcorrect : BopIt.Command.token command = current.command)
    (hontime : (((now - current.timestamp : ℤ) : ℚ)) < current.timeLimit) :
    BopItPhase.onAction s (BopItPhase.Action.PLAYER_COMMAND command playerId) now issuedAt r =
      { s with
        score := s.score + 10
        round := s.round + 1
        correctStreak := s.correctStreak + 1
        gameSpeed := min (s.gameSpeed * (19 / 20)) 3
        currentCommand := some
          (BopItPhase.generateNewCommand (min (s.gameSpeed * (19 / 20)) 3) r issuedAt) } := by
  have hontime' : (now : ℚ) - (current.timestamp : ℚ) < current.timeLimit := by
    exact_mod_cast hontime
  simp [BopItPhase.onAction, hact, hcur, hcorrect, hontime', BopItPhase.SPEED_INCREASE_RATE]

/-- For every positive game speed the next time limit is strictly longer than
the limit computed from the current speed: multiplying the speed by 0.95 lowers
the divisor of `BASE_TIME_LIMIT / gameSpeed`. -/
theorem BopItPhase.timeLimit_grows (g : ℚ) (hg : 0 < g) :
    BopItPhase.BASE_TIME_LIMIT / g <
      BopItPhase.BASE_TIME_LIMIT / min (g * (19 / 20)) 3 := by
  have hmin : 0 < min (g * (19 / 20)) 3 := lt_min (by positivity) (by norm_num)
  have hlt : min (g * (19 / 20)) 3 < g := lt_of_le_of_lt (min_le_left _ _) (by linarith)
  unfold BopItPhase.BASE_TIME_LIMIT
  exact div_lt_div_of_pos_left (by norm_num) hmin hlt

/-- C14 (the code at the failing input): the command `FLICK` issued at game
speed 1 has a time limit of 3000 ms; after the correct answer 500 ms later the
game speed is 0.95 and the new command has a time limit of 3000 / 0.95 =
60000 / 19 ms, which is longer, not shorter. -/
theorem phase_timeLimit_increases :
    phaseStartedState.currentCommand =
      some { command := BopIt.Command.token "FLICK", timestamp := 1000, timeLimit := 3000 } ∧
    (BopItPhase.onAction phaseStartedState (BopItPhase.Action.PLAYER_COMMAND "FLICK" "p1")
      1500 1500 0).gameSpeed = 19 / 20 ∧
    (BopItPhase.onAction phaseStartedState (BopItPhase.Action.PLAYER_COMMAND "FLICK" "p1")
      1500 1500 0).currentCommand =
      some { command := BopIt.Command.token "BOP", timestamp := 1500, timeLimit := 60000 / 19 } ∧
    (3000 : ℚ) < 60000 / 19 := by
  have h := BopItPhase.onAction_correct phaseStartedState
    { command := BopIt.Command.token "FLICK", timestamp := 1000, timeLimit := 3000 }
    "FLICK" "p1" 1500 1500 0 (by rw [phaseStartedState_eq]) (by rw [phaseStartedState_eq]) rfl
    (by norm_num)
  refine ⟨by rw [phaseStartedState_eq], ?_, ?_, by norm_num⟩
  · rw [h, phaseStartedState_eq]
    norm_num [BopItPhase.onEnter]
  · rw [h, phaseStartedState_eq]
    simp [BopItPhase.generateNewCommand, BopItPhase.onEnter, BopIt.GameEngine.pickCommand,
      BopItPhase.COMMANDS, BopItPhase.BASE_TIME_LIMIT]
    norm_num

/-! ## Theorems: the core engine -/

/-- The reverse loop over a prefix of distinct objects: every object of the
prefix is updated once, last first; flagged objects leave the array and the
others stay where they were. -/
theorem GameEngine.updateLoop_on_distinct {E : Type} (ops : EntityOps E) (dt : ℚ)
    (pre : List (ℕ × E)) :
    ∀ (done : List (ℕ × E)) (calls : List ℕ), (pre.map Prod.fst).Nodup →
      GameEngine.updateLoop ops dt pre.length (pre ++ done) calls =
        some (((pre.map fun e => (e.1, ops.update e.2 dt)).filter
                fun e => !ops.shouldRemove e.2) ++ done,
              calls ++ (pre.map Prod.fst).reverse) := by
  induction pre using List.reverseRecOn with
  | nil => intro done calls _; simp [GameEngine.updateLoop]
  | append_singleton pre x ih =>
    intro done calls hnd
    rw [List.map_append, List.nodup_append] at hnd
    obtain ⟨hpre, _, hdisj⟩ := hnd
    have hx : ∀ b ∈ pre, ¬ (decide (b.1 = x.1) = true) := by
      intro b hb heq
      simp only [decide_eq_true_eq] at heq
      exact hdisj (List.mem_map_of_mem Prod.fst hb) (by simp [heq])
    have hget : (pre ++ [x] ++ done)[pre.length]? = some x := by
      rw [List.append_assoc, List.getElem?_append_right (le_refl _)]
      simp
    have hset : (pre ++ [x] ++ done).set pre.length (x.1, ops.update x.2 dt) =
        pre ++ (x.1, ops.update x.2 dt) :: done := by
      simp [List.set_append_right]
    simp only [List.length_append, List.length_singleton, GameEngine.updateLoop, hget, hset]
    by_cases hrem : ops.shouldRemove (ops.update x.2 dt) = true
    · have herase : GameEngine.removeFrom (pre ++ (x.1, ops.update x.2 dt) :: done)
          (x.1, ops.update x.2 dt) = pre ++ done := by
        simp only [GameEngine.removeFrom]
        rw [List.eraseP_append_right _ hx, List.eraseP_cons_of_pos (by simp)]
      simp only [hrem, if_true, herase]
      rw [ih done (calls ++ [x.1]) hpre]
      simp [hrem]
    · simp only [hrem, Bool.false_eq_true, if_false]
      rw [ih ((x.1, ops.update x.2 dt) :: done) (calls ++ [x.1]) hpre]
      simp [hrem]

/-- C19: for an `entities` array of distinct objects (each `update` acting on
its own object only), one `update(dt)` call completes, invokes `update` exactly
once on every object that was in the array, last to first, and leaves in the
array exactly the updated objects whose `shouldRemove` is false, in their
original order. -/
theorem engine_update_visits_each_once {E : Type} (ops : EntityOps E) (g : GameEngine E)
    (dt : ℚ) (hdistinct : (g.entities.map Prod.fst).Nodup) :
    ∃ (g1 : GameEngine E) (calls : List ℕ),
      GameEngine.update ops g dt = some (g1, calls) ∧
      calls = (g.entities.map Prod.fst).reverse ∧
      (∀ e ∈ g.entities, calls.count e.1 = 1) ∧
      g1.entities =
        (g.entities.map fun e => (e.1, ops.update e.2 dt)).filter
          (fun e => !ops.shouldRemove e.2) ∧
      (∀ e, e ∈ g1.entities ↔
        ∃ e0 ∈ g.entities, e = (e0.1, ops.update e0.2 dt) ∧ ops.shouldRemove e.2 = false) ∧
      g1.toLoopState = g.toLoopState := by
  have h := GameEngine.updateLoop_on_distinct ops dt g.entities [] [] hdistinct
  simp only [List.append_nil, List.nil_append] at h
  refine ⟨{ g with
      entities := (g.entities.map fun e => (e.1, ops.update e.2 dt)).filter
        (fun e => !ops.shouldRemove e.2)
      entityCount := (((g.entities.map fun e => (e.1, ops.update e.2 dt)).filter
        (fun e => !ops.shouldRemove e.2)).length : ℤ) },
    (g.entities.map Prod.fst).reverse, by simp only [GameEngine.update, h], rfl, ?_, rfl, ?_, rfl⟩
  · intro e he
    rw [List.count_reverse]
    exact List.count_eq_one_of_mem hdistinct (List.mem_map_of_mem Prod.fst he)
  · intro e
    simp only [List.mem_filter, List.mem_map, Bool.not_eq_true']
    constructor
    · rintro ⟨⟨e0, he0, rfl⟩, hk⟩
      exact ⟨e0, he0, rfl, hk⟩
    · rintro ⟨e0, he0, rfl, hk⟩
      exact ⟨⟨e0, he0, rfl⟩, hk⟩

/-- Witness for C19: three distinct objects, the middle one flagged for
removal. -/
theorem engine_update_visits_each_once_witness :
    ∃ (g1 : GameEngine Bool) (calls : List ℕ),
      GameEngine.update flagOps flagEngine (1 / 60) = some (g1, calls) ∧
      calls = [3, 2, 1] ∧ g1.entities = [(1, false), (3, false)] := by
  obtain ⟨g1, calls, h1, h2, _, h4, _⟩ :=
    engine_update_visits_each_once flagOps flagEngine (1 / 60) (by decide)
  exact ⟨g1, calls, h1, by rw [h2]; rfl, by rw [h4]; rfl⟩

/-- A frame of a running loop whose timestamp is not before `lastTime` passes
`min ((currentTime - lastTime) / 1000) (1 / 30)` to `update`, a value in
`[0, 1/30]`. -/
theorem LoopState.beginFrame_delta (l : LoopState) (currentTime : ℚ)
    (hmono : l.lastTime ≤ currentTime) :
    (l.beginFrame currentTime).deltaTime = min ((currentTime - l.lastTime) / 1000) (1 / 30) ∧
    0 ≤ (l.beginFrame currentTime).deltaTime ∧
    (l.beginFrame currentTime).deltaTime ≤ 1 / 30 ∧
    (l.beginFrame currentTime).lastTime = currentTime := by
  refine ⟨rfl, ?_, min_le_right _ _, rfl⟩
  apply le_min
  · apply div_nonneg <;> linarith
  · norm_num

/-- The frame that `start()` triggers measures from the timestamp just
captured to the default argument 0: its delta time is `min (-now / 1000)
(1 / 30)`, negative whenever `performance.now()` is positive, and it leaves
`lastTime = 0`. -/
theorem LoopState.start_frame_delta (l : LoopState) (now : ℚ) (hnow : 0 < now) :
    ((l.markStarted now).beginFrame LoopState.startFrameTime).deltaTime = -now / 1000 ∧
    ((l.markStarted now).beginFrame LoopState.startFrameTime).deltaTime < 0 ∧
    ((l.markStarted now).beginFrame LoopState.startFrameTime).lastTime = 0 := by
  have h : ((l.markStarted now).beginFrame LoopState.startFrameTime).deltaTime
      = min ((0 - now) / 1000) (1 / 30) := rfl
  have hneg : (0 - now) / 1000 < 0 := by
    apply div_neg_of_neg_of_pos <;> linarith
  rw [h, min_eq_left (by linarith)]
  exact ⟨by ring_nf, hneg, rfl⟩

/-- The method `updateFPS` writes none of `isRunning`, `deltaTime`, `lastTime`. -/
theorem LoopState.updateFPS_frame (l : LoopState) (t : ℚ) :
    (l.updateFPS t).isRunning = l.isRunning ∧
    (l.updateFPS t).deltaTime = l.deltaTime ∧
    (l.updateFPS t).lastTime = l.lastTime := by
  simp only [LoopState.updateFPS]
  split_ifs <;> exact ⟨rfl, rfl, rfl⟩

/-- The method `start()` on an engine without entities. -/
theorem GameEngine.start_of_no_entities {E : Type} (ops : EntityOps E) (g : GameEngine E)
    (now : ℚ) (h : g.entities = []) :
    GameEngine.start ops g now =
      some { g with
        toLoopState :=
          ((g.toLoopState.markStarted now).beginFrame LoopState.startFrameTime).updateFPS
            LoopState.startFrameTime
        entities := []
        entityCount := 0 } := by
  simp [GameEngine.start, GameEngine.gameLoop, GameEngine.update, GameEngine.updateLoop, h,
    LoopState.markStarted]

/-- C20 (the code at the failing input): `start()` is called on a new engine
when `performance.now()` reads 5000 ms.  The frame it triggers passes a delta
time of -5 seconds to `update`, although no time has elapsed since the captured
timestamp, and leaves `lastTime = 0`. -/
theorem start_frame_negative_delta :
    ∃ g1 : GameEngine Bool,
      GameEngine.start flagOps (GameEngine.new : GameEngine Bool) 5000 = some g1 ∧
      g1.isRunning = true ∧ g1.deltaTime = -5 ∧ g1.deltaTime < 0 ∧ g1.lastTime = 0 := by
  obtain ⟨hd1, hd2, hd3⟩ := LoopState.start_frame_delta LoopState.new 5000 (by norm_num)
  obtain ⟨hf1, hf2, hf3⟩ := LoopState.updateFPS_frame
    ((LoopState.new.markStarted 5000).beginFrame LoopState.startFrameTime)
    LoopState.startFrameTime
  refine ⟨_, GameEngine.start_of_no_entities flagOps GameEngine.new 5000 rfl, ?_, ?_, ?_, ?_⟩
  · exact hf1
  · show (((LoopState.new.markStarted 5000).beginFrame LoopState.startFrameTime).updateFPS
      LoopState.startFrameTime).deltaTime = -5
    rw [hf2, hd1]
    norm_num
  · show (((LoopState.new.markStarted 5000).beginFrame LoopState.startFrameTime).updateFPS
      LoopState.startFrameTime).deltaTime < 0
    rw [hf2]
    exact hd2
  · show (((LoopState.new.markStarted 5000).beginFrame LoopState.startFrameTime).updateFPS
      LoopState.startFrameTime).lastTime = 0
    rw [hf3]
    exact hd3

/-! ## Theorems: Dino-Run orchestration -/

namespace DinoRun

/-- The fields the spawn step leaves alone. -/
theorem spawnStep_frame (s : DinoRun) (dt rType rSpawn : ℚ) :
    (spawnStep s dt rType rSpawn).gameTime = s.gameTime ∧
    (spawnStep s dt rType rSpawn).gameSpeed = s.gameSpeed ∧
    (spawnStep s dt rType rSpawn).difficultyIncrease = s.difficultyIncrease ∧
    (spawnStep s dt rType rSpawn).gameState = s.gameState ∧
    (spawnStep s dt rType rSpawn).score = s.score ∧
    (spawnStep s dt rType rSpawn).distance = s.distance ∧
    (spawnStep s dt rType rSpawn).dino = s.dino ∧
    (spawnStep s dt rType rSpawn).highScore = s.highScore := by
  simp only [spawnStep]
  split <;> exact ⟨rfl, rfl, rfl, rfl, rfl, rfl, rfl, rfl⟩

/-- The fields `checkCollisions()` leaves alone. -/
theorem checkCollisions_frame (s : DinoRun) :
    (checkCollisions s).gameTime = s.gameTime ∧
    (checkCollisions s).gameSpeed = s.gameSpeed ∧
    (checkCollisions s).difficultyIncrease = s.difficultyIncrease ∧
    (checkCollisions s).gameState = s.gameState ∧
    (checkCollisions s).score = s.score ∧
    (checkCollisions s).distance = s.distance ∧
    (checkCollisions s).highScore = s.highScore :=
  ⟨rfl, rfl, rfl, rfl, rfl, rfl, rfl⟩

/-- The fields `updateScore()` leaves alone. -/
theorem updateScore_frame (s : DinoRun) :
    (updateScore s).gameTime = s.gameTime ∧
    (updateScore s).gameSpeed = s.gameSpeed ∧
    (updateScore s).difficultyIncrease = s.difficultyIncrease ∧
    (updateScore s).gameState = s.gameState ∧
    (updateScore s).dino = s.dino := by
  simp only [updateScore]
  split_ifs <;> exact ⟨rfl, rfl, rfl, rfl, rfl⟩

/-- The fields `updateDifficulty()` leaves alone. -/
theorem updateDifficulty_frame (s : DinoRun) :
    (updateDifficulty s).gameTime = s.gameTime ∧
    (updateDifficulty s).difficultyIncrease = s.difficultyIncrease ∧
    (updateDifficulty s).gameState = s.gameState ∧
    (updateDifficulty s).score = s.score ∧
    (updateDifficulty s).distance = s.distance ∧
    (updateDifficulty s).dino = s.dino ∧
    (updateDifficulty s).obstacles = s.obstacles ∧
    (updateDifficulty s).obstacleSpawner = s.obstacleSpawner ∧
    (updateDifficulty s).highScore = s.highScore := by
  simp only [updateDifficulty]
  split_ifs <;> exact ⟨rfl, rfl, rfl, rfl, rfl, rfl, rfl, rfl, rfl⟩

/-- The value of `gameSpeed` after `updateDifficulty()`. -/
theorem updateDifficulty_gameSpeed (s : DinoRun) :
    (updateDifficulty s).gameSpeed =
      if 1 + (⌊s.gameTime / 30⌋ : ℚ) * s.difficultyIncrease > s.gameSpeed then
        min (1 + (⌊s.gameTime / 30⌋ : ℚ) * s.difficultyIncrease) (5 / 2)
      else s.gameSpeed := by
  simp only [updateDifficulty]
  split_ifs <;> rfl

/-- An `update` outside the `playing` state does nothing. -/
theorem update_of_not_playing (pow : ℚ → ℚ → ℚ) (s : DinoRun) (dt rType rSpawn : ℚ)
    (h : s.gameState ≠ DinoGameState.playing) : update pow s dt rType rSpawn = s := by
  simp only [update, h, ne_eq, not_false_eq_true, if_true]

/-- The game clock, the speed multiplier and the state after lines 203-226. -/
theorem advance_clock (pow : ℚ → ℚ → ℚ) (s : DinoRun) (dt rType rSpawn : ℚ) :
    (advance pow s dt rType rSpawn).gameTime = s.gameTime + dt ∧
    (advance pow s dt rType rSpawn).difficultyIncrease = s.difficultyIncrease ∧
    (advance pow s dt rType rSpawn).gameState = s.gameState ∧
    (advance pow s dt rType rSpawn).gameSpeed =
      if 1 + (⌊(s.gameTime + dt) / 30⌋ : ℚ) * s.difficultyIncrease > s.gameSpeed then
        min (1 + (⌊(s.gameTime + dt) / 30⌋ : ℚ) * s.difficultyIncrease) (5 / 2)
      else s.gameSpeed := by
  simp only [advance, cleanupObstacles, superUpdate, updateScore_frame, checkCollisions_frame,
    spawnStep_frame, updateDifficulty_frame, updateDifficulty_gameSpeed, and_self]

/-- The game clock and the speed multiplier after one `update` while playing. -/
theorem update_clock (pow : ℚ → ℚ → ℚ) (s : DinoRun) (dt rType rSpawn : ℚ)
    (h : s.gameState = DinoGameState.playing) :
    (update pow s dt rType rSpawn).gameTime = s.gameTime + dt ∧
    (update pow s dt rType rSpawn).difficultyIncrease = s.difficultyIncrease ∧
    (update pow s dt rType rSpawn).gameSpeed =
      if 1 + (⌊(s.gameTime + dt) / 30⌋ : ℚ) * s.difficultyIncrease > s.gameSpeed then
        min (1 + (⌊(s.gameTime + dt) / 30⌋ : ℚ) * s.difficultyIncrease) (5 / 2)
      else s.gameSpeed := by
  obtain ⟨h1, h2, _, h4⟩ := advance_clock pow s dt rType rSpawn
  simp only [update, h, ne_eq, not_true_eq_false, if_false]
  by_cases hg : (advance pow s dt rType rSpawn).dino.isGameOver = true
  · rw [if_pos hg]
    exact ⟨h1, h2, h4⟩
  · rw [if_neg hg]
    exact ⟨h1, h2, h4⟩

end DinoRun

namespace DinoRun

/-- The step function the speed multiplier follows: 1 plus 0.05 for every full
30 seconds of game time, capped at 2.5. -/
theorem speed_formula_step (x y : ℤ) (hxy : x ≤ y) :
    (if 1 + (y : ℚ) * (1 / 20) > min (1 + (1 / 20) * (x : ℚ)) (5 / 2) then
        min (1 + (y : ℚ) * (1 / 20)) (5 / 2)
      else min (1 + (1 / 20) * (x : ℚ)) (5 / 2)) = min (1 + (1 / 20) * (y : ℚ)) (5 / 2) := by
  have hq : (x : ℚ) ≤ (y : ℚ) := by exact_mod_cast hxy
  split_ifs with h
  · rw [mul_comm]
  · have h1 : 1 + (y : ℚ) * (1 / 20) ≤ min (1 + (1 / 20) * (x : ℚ)) (5 / 2) := not_lt.mp h
    have h2 : 1 + (y : ℚ) * (1 / 20) ≤ 1 + (1 / 20) * (x : ℚ) := le_trans h1 (min_le_left _ _)
    have h3 : (y : ℚ) = (x : ℚ) := by linarith
    rw [h3]

/-- The invariant of the speed multiplier: the increment is the constructor's
0.05 and the multiplier is the step function of the clock. -/
theorem update_keeps_speed_formula (pow : ℚ → ℚ → ℚ) (s : DinoRun) (dt rType rSpawn : ℚ)
    (hinc : s.difficultyIncrease = 1 / 20)
    (hS : s.gameSpeed = min (1 + (1 / 20) * (⌊s.gameTime / 30⌋ : ℚ)) (5 / 2)) (hdt : 0 ≤ dt) :
    (update pow s dt rType rSpawn).difficultyIncrease = 1 / 20 ∧
    s.gameTime ≤ (update pow s dt rType rSpawn).gameTime ∧
    (update pow s dt rType rSpawn).gameSpeed =
      min (1 + (1 / 20) * (⌊(update pow s dt rType rSpawn).gameTime / 30⌋ : ℚ)) (5 / 2) ∧
    s.gameSpeed ≤ (update pow s dt rType rSpawn).gameSpeed := by
  by_cases hplay : s.gameState = DinoGameState.playing
  · obtain ⟨h1, h2, h3⟩ := update_clock pow s dt rType rSpawn hplay
    have hfl : ⌊s.gameTime / 30⌋ ≤ ⌊(s.gameTime + dt) / 30⌋ := by
      apply Int.floor_le_floor
      apply div_le_div_of_nonneg_right _ (by norm_num : (0 : ℚ) ≤ 30)
      linarith
    have hnew : (update pow s dt rType rSpawn).gameSpeed =
        min (1 + (1 / 20) * (⌊(s.gameTime + dt) / 30⌋ : ℚ)) (5 / 2) := by
      rw [h3, hinc, hS]
      exact speed_formula_step _ _ hfl
    refine ⟨by rw [h2, hinc], by rw [h1]; linarith, by rw [hnew, h1], ?_⟩
    rw [hnew, hS]
    apply min_le_min_right
    have : (⌊s.gameTime / 30⌋ : ℚ) ≤ (⌊(s.gameTime + dt) / 30⌋ : ℚ) := by exact_mod_cast hfl
    linarith
  · rw [update_of_not_playing pow s dt rType rSpawn hplay]
    exact ⟨hinc, le_refl _, hS, le_refl _⟩

/-- A run that is still `playing` at its end was `playing` throughout, and its
game clock advanced by the sum of the delta times. -/
theorem updateAll_playing_clock (pow : ℚ → ℚ → ℚ) (frames : List Frame) :
    ∀ s : DinoRun, (updateAll pow s frames).gameState = DinoGameState.playing →
      s.gameState = DinoGameState.playing ∧
      (updateAll pow s frames).gameTime = s.gameTime + (frames.map Frame.dt).sum := by
  induction frames with
  | nil => intro s h; exact ⟨h, by simp [updateAll]⟩
  | cons f fs ih =>
    intro s h
    have hstep : updateAll pow s (f :: fs) =
        updateAll pow (update pow s f.dt f.rType f.rSpawn) fs := rfl
    rw [hstep] at h ⊢
    obtain ⟨hp, ht⟩ := ih _ h
    by_cases hplay : s.gameState = DinoGameState.playing
    · refine ⟨hplay, ?_⟩
      rw [ht, (update_clock pow s f.dt f.rType f.rSpawn hplay).1, List.map_cons, List.sum_cons]
      ring
    · rw [update_of_not_playing pow s f.dt f.rType f.rSpawn hplay] at hp
      exact absurd hp hplay

/-- Along a run with non-negative delta times from a state that satisfies the
speed invariant: the invariant holds at the end, the multipliers seen after
each `update` never decrease, and each is the step function of a clock value
between the initial and the final clock. -/
theorem updateAll_speed_trace (pow : ℚ → ℚ → ℚ) (frames : List Frame) :
    ∀ s : DinoRun, s.difficultyIncrease = 1 / 20 →
      s.gameSpeed = min (1 + (1 / 20) * (⌊s.gameTime / 30⌋ : ℚ)) (5 / 2) →
      (∀ f ∈ frames, 0 ≤ f.dt) →
      (updateAll pow s frames).gameSpeed =
        min (1 + (1 / 20) * (⌊(updateAll pow s frames).gameTime / 30⌋ : ℚ)) (5 / 2) ∧
      s.gameTime ≤ (updateAll pow s frames).gameTime ∧
      List.Chain (fun a b => a ≤ b) s.gameSpeed (speedTrace pow s frames) ∧
      (∀ v ∈ speedTrace pow s frames, ∃ T : ℚ, s.gameTime ≤ T ∧
        T ≤ (updateAll pow s frames).gameTime ∧
        v = min (1 + (1 / 20) * (⌊T / 30⌋ : ℚ)) (5 / 2)) ∧
      (frames ≠ [] → (updateAll pow s frames).gameSpeed ∈ speedTrace pow s frames) := by
  induction frames with
  | nil =>
    intro s _ hS _
    exact ⟨hS, le_refl _, List.Chain.nil, by simp [speedTrace], fun h => absurd rfl h⟩
  | cons f fs ih =>
    intro s hinc hS hdt
    have hstep : updateAll pow s (f :: fs) =
        updateAll pow (update pow s f.dt f.rType f.rSpawn) fs := rfl
    obtain ⟨u1, u2, u3, u4⟩ := update_keeps_speed_formula pow s f.dt f.rType f.rSpawn hinc hS
      (hdt f (List.mem_cons_self f fs))
    obtain ⟨i1, i2, i3, i4, i5⟩ := ih (update pow s f.dt f.rType f.rSpawn) u1 u3
      (fun g hg => hdt g (List.mem_cons_of_mem f hg))
    rw [hstep]
    refine ⟨i1, le_trans u2 i2, List.Chain.cons u4 i3, ?_, ?_⟩
    · intro v hv
      simp only [speedTrace, List.mem_cons] at hv
      rcases hv with hv | hv
      · exact ⟨_, u2, i2, by rw [hv, u3]⟩
      · obtain ⟨T, t1, t2, t3⟩ := i4 v hv
        exact ⟨T, le_trans u2 t1, t2, t3⟩
    · intro _
      simp only [speedTrace, List.mem_cons]
      by_cases hfs : fs = []
      · left
        rw [hfs]
        rfl
      · right
        exact i5 hfs

end DinoRun

/-- A non-decreasing list whose entries take two values `a < b` is a block of
`a` followed by a block of `b`. -/
theorem two_level_blocks (a b : ℚ) (hab : a < b) (l : List ℚ) :
    ∀ start : ℚ, List.Chain (fun x y => x ≤ y) start l → (∀ v ∈ l, v = a ∨ v = b) →
      ∃ k m : ℕ, l = List.replicate k a ++ List.replicate m b := by
  induction l with
  | nil => intro _ _ _; exact ⟨0, 0, rfl⟩
  | cons v l ih =>
    intro start hchain hmem
    rw [List.chain_cons] at hchain
    rcases hmem v (List.mem_cons_self v l) with hv | hv
    · obtain ⟨k, m, hl⟩ := ih v hchain.2 (fun x hx => hmem x (List.mem_cons_of_mem v hx))
      exact ⟨k + 1, m, by rw [hl, hv, List.replicate_succ, List.cons_append]⟩
    · have hpair := (List.chain_iff_pairwise.mp hchain.2)
      rw [List.pairwise_cons] at hpair
      have hall : ∀ x ∈ l, x = b := by
        intro x hx
        rcases hmem x (List.mem_cons_of_mem v hx) with h | h
        · have := hpair.1 x hx
          rw [hv, h] at this
          exact absurd this (not_le.mpr hab)
        · exact h
      refine ⟨0, l.length + 1, ?_⟩
      rw [List.replicate_zero, List.nil_append, List.replicate_succ, hv,
        List.eq_replicate_of_mem hall]
      simp

/-- The speed rule from a clock at 0: when the first `update(dt)` with
`dt ≥ 0` finds `gameTime = 0` and `gameSpeed = 1.0`, then after every update
`gameSpeed = min (1.0 + 0.05 * floor (gameTime / 30)) 2.5`; the values seen
after the updates never decrease and never exceed 2.5; and over 31 seconds of
play they are a block of 1.0 followed by a non-empty block of 1.05.  The
hypothesis `gameTime = 0` holds after `startGame()` only when
`performance.now()` reads 0 there: the frame that `start()` triggers moves the
clock to `-now / 1000`. -/
theorem gameSpeed_follows_game_time (pow : ℚ → ℚ → ℚ) (s : DinoRun) (frames : List Frame)
    (hT : s.gameTime = 0) (hS : s.gameSpeed = 1) (hI : s.difficultyIncrease = 1 / 20)
    (hdt : ∀ f ∈ frames, 0 ≤ f.dt) :
    (DinoRun.updateAll pow s frames).gameSpeed =
      min (1 + (1 / 20) * (⌊(DinoRun.updateAll pow s frames).gameTime / 30⌋ : ℚ)) (5 / 2) ∧
    List.Chain (fun a b => a ≤ b) 1 (DinoRun.speedTrace pow s frames) ∧
    (∀ v ∈ DinoRun.speedTrace pow s frames, v ≤ 5 / 2) ∧
    (DinoRun.updateAll pow s frames).gameSpeed ≤ 5 / 2 ∧
    ((DinoRun.updateAll pow s frames).gameState = DinoGameState.playing →
      (frames.map Frame.dt).sum = 31 →
      (DinoRun.updateAll pow s frames).gameSpeed = 21 / 20 ∧
      ∃ k m : ℕ, DinoRun.speedTrace pow s frames =
        List.replicate k 1 ++ List.replicate (m + 1) (21 / 20)) := by
  have hS0 : s.gameSpeed = min (1 + (1 / 20) * (⌊s.gameTime / 30⌋ : ℚ)) (5 / 2) := by
    rw [hS, hT]
    norm_num
  obtain ⟨h1, h2, h3, h4, h5⟩ := DinoRun.updateAll_speed_trace pow frames s hI hS0 hdt
  rw [hS] at h3
  refine ⟨h1, h3, ?_, by rw [h1]; exact min_le_right _ _, ?_⟩
  · intro v hv
    obtain ⟨T, _, _, hv⟩ := h4 v hv
    rw [hv]
    exact min_le_right _ _
  · intro hplay hsum
    have hclock := (DinoRun.updateAll_playing_clock pow frames s hplay).2
    rw [hT, hsum, zero_add] at hclock
    have hfl31 : ⌊(31 : ℚ) / 30⌋ = 1 := by
      rw [Int.floor_eq_iff]
      constructor <;> norm_num
    have hfinal : (DinoRun.updateAll pow s frames).gameSpeed = 21 / 20 := by
      rw [h1, hclock, hfl31]
      norm_num
    refine ⟨hfinal, ?_⟩
    have hvals : ∀ v ∈ DinoRun.speedTrace pow s frames, v = 1 ∨ v = 21 / 20 := by
      intro v hv
      obtain ⟨T, t1, t2, t3⟩ := h4 v hv
      rw [hT] at t1
      rw [hclock] at t2
      have hlo : 0 ≤ ⌊T / 30⌋ := Int.floor_nonneg.mpr (by positivity)
      have hhi : ⌊T / 30⌋ < 2 := by
        rw [Int.floor_lt]
        push_cast
        linarith
      have hcases : ⌊T / 30⌋ = 0 ∨ ⌊T / 30⌋ = 1 := by omega
      rcases hcases with hc | hc
      · left
        rw [t3, hc]
        norm_num
      · right
        rw [t3, hc]
        norm_num
    obtain ⟨k, m, hkm⟩ := two_level_blocks 1 (21 / 20) (by norm_num) _ 1 h3 hvals
    have hne : frames ≠ [] := by
      intro h
      rw [h] at hsum
      norm_num at hsum
    have hin := h5 hne
    rw [hfinal, hkm] at hin
    cases m with
    | zero =>
      simp only [List.replicate_zero, List.append_nil] at hin
      have := List.eq_of_mem_replicate hin
      norm_num at this
    | succ m => exact ⟨k, m, hkm⟩

/-- The speed rule from a clock at 0 on an example: a new game put in the
`playing` state by assignment, a frame of 30 seconds and a frame of 1 second. -/
theorem gameSpeed_follows_game_time_witness :
    (DinoRun.updateAll (fun _ _ => 1) dinoRunPlaying [⟨30, 0, 0⟩, ⟨1, 0, 0⟩]).gameSpeed =
      min (1 + (1 / 20) *
        (⌊(DinoRun.updateAll (fun _ _ => 1) dinoRunPlaying
            [⟨30, 0, 0⟩, ⟨1, 0, 0⟩]).gameTime / 30⌋ : ℚ)) (5 / 2) :=
  (gameSpeed_follows_game_time (fun _ _ => 1) dinoRunPlaying [⟨30, 0, 0⟩, ⟨1, 0, 0⟩]
    rfl rfl rfl (by
      intro f hf
      simp only [List.mem_cons, List.mem_singleton, List.not_mem_nil, or_false] at hf
      rcases hf with h | h <;> rw [h] <;> norm_num)).1

namespace Obstacle

/-- The override `customUpdate` writes neither `passed` nor `points`. -/
theorem customUpdate_score_fields (o : Obstacle) (dt : ℚ) :
    (o.customUpdate dt).passed = o.passed ∧ (o.customUpdate dt).points = o.points := by
  simp only [customUpdate]
  split <;> split_ifs <;> exact ⟨rfl, rfl⟩

/-- An `update` writes neither `passed` nor `points`. -/
theorem update_score_fields (pow : ℚ → ℚ → ℚ) (o : Obstacle) (dt : ℚ) :
    (o.update pow dt).passed = o.passed ∧ (o.update pow dt).points = o.points := by
  simp only [update, customUpdate_score_fields]
  split_ifs <;> exact ⟨rfl, rfl⟩

/-- The two outcomes of `checkPassed(dinoX)`. -/
theorem checkPassed_cases (o : Obstacle) (dinoX : ℚ) :
    (o.passed = false → o.position.x + o.dimensions.width < dinoX →
      o.checkPassed dinoX = (o.points, { o with passed := true })) ∧
    (o.passed = true → o.checkPassed dinoX = (0, o)) ∧
    (¬ (o.position.x + o.dimensions.width < dinoX) → o.checkPassed dinoX = (0, o)) := by
  refine ⟨?_, ?_, ?_⟩
  · intro h1 h2
    simp [checkPassed, h1, h2]
  · intro h1
    simp [checkPassed, h1]
  · intro h2
    simp [checkPassed, h2]

/-- Once `passed` is set, a run of frames returns 0 in every frame and keeps
the flag. -/
theorem scoreFrames_of_passed (pow : ℚ → ℚ → ℚ) (frames : List (ℚ × ℚ)) :
    ∀ o : Obstacle, o.passed = true →
      (scoreFrames pow o frames).1 = List.replicate frames.length 0 ∧
      (scoreFrames pow o frames).2.passed = true ∧
      (scoreFrames pow o frames).2.points = o.points := by
  induction frames with
  | nil => intro o h; exact ⟨rfl, h, rfl⟩
  | cons f fs ih =>
    intro o h
    obtain ⟨hp, hq⟩ := update_score_fields pow o f.1
    have hc := ((o.update pow f.1).checkPassed_cases f.2).2.1 (by rw [hp]; exact h)
    have hstep : scoreFrame pow o f = (0, o.update pow f.1) := hc
    obtain ⟨i1, i2, i3⟩ := ih (o.update pow f.1) (by rw [hp]; exact h)
    simp only [scoreFrames, hstep, List.length_cons, List.replicate_succ]
    exact ⟨by rw [i1], i2, by rw [i3, hq]⟩

/-- Over any run of frames the numbers `checkPassed` returns are zeros with at
most one entry equal to the point value, and that entry is there exactly when
the flag `passed` goes from false to true during the run. -/
theorem scoreFrames_once (pow : ℚ → ℚ → ℚ) (frames : List (ℚ × ℚ)) :
    ∀ o : Obstacle,
      (scoreFrames pow o frames).2.points = o.points ∧
      (o.passed = true → (scoreFrames pow o frames).2.passed = true) ∧
      (((scoreFrames pow o frames).2.passed = o.passed ∧
          (scoreFrames pow o frames).1 = List.replicate frames.length 0) ∨
        (o.passed = false ∧ (scoreFrames pow o frames).2.passed = true ∧
          ∃ k m : ℕ, (scoreFrames pow o frames).1 =
            List.replicate k 0 ++ o.points :: List.replicate m 0)) := by
  induction frames with
  | nil => intro o; exact ⟨rfl, fun h => h, Or.inl ⟨rfl, rfl⟩⟩
  | cons f fs ih =>
    intro o
    obtain ⟨hp, hq⟩ := update_score_fields pow o f.1
    by_cases hcross : o.passed = false ∧
        (o.update pow f.1).position.x + (o.update pow f.1).dimensions.width < f.2
    · have hc := ((o.update pow f.1).checkPassed_cases f.2).1 (by rw [hp]; exact hcross.1)
        hcross.2
      have hstep : scoreFrame pow o f =
          ((o.update pow f.1).points, { o.update pow f.1 with passed := true }) := hc
      obtain ⟨i1, i2, i3⟩ := scoreFrames_of_passed pow fs
        { o.update pow f.1 with passed := true } rfl
      simp only [scoreFrames, hstep]
      refine ⟨by rw [i3]; exact hq, fun _ => i2, Or.inr ⟨hcross.1, i2, 0, fs.length, ?_⟩⟩
      rw [i1, hq]
      rfl
    · have hc : (o.update pow f.1).checkPassed f.2 = (0, o.update pow f.1) := by
        by_cases hpass : o.passed = true
        · exact ((o.update pow f.1).checkPassed_cases f.2).2.1 (by rw [hp]; exact hpass)
        · have hpf : o.passed = false := by simpa using hpass
          exact ((o.update pow f.1).checkPassed_cases f.2).2.2 (fun h => hcross ⟨hpf, h⟩)
      have hstep : scoreFrame pow o f = (0, o.update pow f.1) := hc
      obtain ⟨i1, i2, i3⟩ := ih (o.update pow f.1)
      simp only [scoreFrames, hstep]
      refine ⟨by rw [i1]; exact hq, fun h => i2 (by rw [hp]; exact h), ?_⟩
      rcases i3 with ⟨j1, j2⟩ | ⟨j1, j2, k, m, j3⟩
      · left
        exact ⟨by rw [j1, hp], by rw [j2]; rfl⟩
      · right
        refine ⟨by rw [← hp]; exact j1, j2, k + 1, m, ?_⟩
        rw [j3, hq]
        rfl

end Obstacle

/-- The bonus loop of `updateScore()` calls `checkPassed` once on every
obstacle and adds each positive return to the score. -/
theorem DinoRun.passedLoop_eq (dinoX : ℚ) (obstacles : List Obstacle) :
    ∀ score : ℤ,
      DinoRun.passedLoop dinoX score obstacles =
        (score + (obstacles.map fun o =>
            if (o.checkPassed dinoX).1 > 0 then (o.checkPassed dinoX).1 else 0).sum,
          obstacles.map fun o => (o.checkPassed dinoX).2) := by
  induction obstacles with
  | nil => intro score; simp [DinoRun.passedLoop]
  | cons o os ih =>
    intro score
    simp only [DinoRun.passedLoop, ih, List.map_cons, List.sum_cons]
    split_ifs <;> simp [add_assoc]

namespace Obstacle

/-- Bare `checkPassed` calls that all return 0 leave the obstacle alone: the
flag is already set, or no call is made with the obstacle behind `dinoX`. -/
theorem checkPassedAll_zero (xs : List ℚ) (o : Obstacle)
    (h : o.passed = true ∨ ∀ y ∈ xs, ¬ (o.position.x + o.dimensions.width < y)) :
    o.checkPassedAll xs = (List.replicate xs.length 0, o) := by
  induction xs with
  | nil => rfl
  | cons x xs ih =>
    have hc : o.checkPassed x = (0, o) := by
      rcases h with h | h
      · exact (o.checkPassed_cases x).2.1 h
      · exact (o.checkPassed_cases x).2.2 (h x (List.mem_cons_self x xs))
    have hrest := ih (h.imp id fun h y hy => h y (List.mem_cons_of_mem x hy))
    simp only [checkPassedAll, hc, hrest, List.length_cons, List.replicate_succ]

/-- Bare `checkPassed` calls on an obstacle not yet passed: the first call made
with the obstacle behind `dinoX` returns the points and sets the flag, every
other call returns 0. -/
theorem checkPassedAll_first (pre : List ℚ) (x : ℚ) (post : List ℚ) (o : Obstacle)
    (hpassed : o.passed = false)
    (hpre : ∀ y ∈ pre, ¬ (o.position.x + o.dimensions.width < y))
    (hx : o.position.x + o.dimensions.width < x) :
    o.checkPassedAll (pre ++ x :: post) =
      (List.replicate pre.length 0 ++ o.points :: List.replicate post.length 0,
        { o with passed := true }) := by
  induction pre with
  | nil =>
    have hc := (o.checkPassed_cases x).1 hpassed hx
    have hrest := checkPassedAll_zero post { o with passed := true } (Or.inl rfl)
    simp only [List.nil_append, checkPassedAll, hc, hrest, List.length_nil,
      List.replicate_zero]
  | cons y ys ih =>
    have hc : o.checkPassed y = (0, o) :=
      (o.checkPassed_cases y).2.2 (hpre y (List.mem_cons_self y ys))
    have hrest := ih (fun z hz => hpre z (List.mem_cons_of_mem y hz))
    have hstep : o.checkPassedAll (y :: (ys ++ x :: post)) =
        (0 :: (o.checkPassedAll (ys ++ x :: post)).1, (o.checkPassedAll (ys ++ x :: post)).2) := by
      simp only [checkPassedAll, hc]
    rw [List.cons_append, hstep, hrest]
    rfl

end Obstacle

/-- The score and the obstacles after `updateScore()`. -/
theorem DinoRun.updateScore_eq (s : DinoRun) :
    (DinoRun.updateScore s).score =
      (if ⌊s.distance⌋ > s.score then ⌊s.distance⌋ else s.score) +
        (s.obstacles.map fun o =>
          if (o.checkPassed s.dino.position.x).1 > 0 then (o.checkPassed s.dino.position.x).1
          else 0).sum ∧
    (DinoRun.updateScore s).obstacles =
      s.obstacles.map fun o => (o.checkPassed s.dino.position.x).2 := by
  simp only [DinoRun.updateScore, DinoRun.passedLoop_eq]
  split_ifs <;> exact ⟨rfl, rfl⟩

/-- C15: an obstacle's points are returned at most once.  A `checkPassed(dinoX)`
call returns the points and sets `passed` exactly when `passed` is false and
`position.x + width < dinoX`, and returns 0 otherwise; in a run of calls the
first such call returns the points and every other call returns 0; `passed`
never goes back to false, also when `update` runs between the calls; and
`updateScore()` adds to the score what `checkPassed` returns for each obstacle,
so an obstacle's points enter the score in one frame only, the one in which
`passed` becomes true. -/
theorem checkPassed_points_once (pow : ℚ → ℚ → ℚ) (o : Obstacle) :
    (∀ dinoX : ℚ,
      (o.passed = false → o.position.x + o.dimensions.width < dinoX →
        o.checkPassed dinoX = (o.points, { o with passed := true })) ∧
      (o.passed = true → o.checkPassed dinoX = (0, o)) ∧
      (¬ (o.position.x + o.dimensions.width < dinoX) → o.checkPassed dinoX = (0, o))) ∧
    (∀ (pre : List ℚ) (x : ℚ) (post : List ℚ), o.passed = false →
      (∀ y ∈ pre, ¬ (o.position.x + o.dimensions.width < y)) →
      o.position.x + o.dimensions.width < x →
      o.checkPassedAll (pre ++ x :: post) =
        (List.replicate pre.length 0 ++ o.points :: List.replicate post.length 0,
          { o with passed := true })) ∧
    (∀ xs : List ℚ,
      (o.passed = true ∨ ∀ y ∈ xs, ¬ (o.position.x + o.dimensions.width < y)) →
      o.checkPassedAll xs = (List.replicate xs.length 0, o)) ∧
    (∀ frames : List (ℚ × ℚ),
      (o.passed = true → (Obstacle.scoreFrames pow o frames).2.passed = true) ∧
      (((Obstacle.scoreFrames pow o frames).2.passed = o.passed ∧
          (Obstacle.scoreFrames pow o frames).1 = List.replicate frames.length 0) ∨
        (o.passed = false ∧ (Obstacle.scoreFrames pow o frames).2.passed = true ∧
          ∃ k m : ℕ, (Obstacle.scoreFrames pow o frames).1 =
            List.replicate k 0 ++ o.points :: List.replicate m 0))) ∧
    (∀ s : DinoRun,
      (DinoRun.updateScore s).score =
        (if ⌊s.distance⌋ > s.score then ⌊s.distance⌋ else s.score) +
          (s.obstacles.map fun o =>
            if (o.checkPassed s.dino.position.x).1 > 0 then
              (o.checkPassed s.dino.position.x).1
            else 0).sum ∧
      (DinoRun.updateScore s).obstacles =
        s.obstacles.map fun o => (o.checkPassed s.dino.position.x).2) :=
  ⟨fun dinoX => o.checkPassed_cases dinoX,
    fun pre x post h1 h2 h3 => Obstacle.checkPassedAll_first pre x post o h1 h2 h3,
    fun xs h => Obstacle.checkPassedAll_zero xs o h,
    fun frames => (Obstacle.scoreFrames_once pow frames o).2,
    fun s => DinoRun.updateScore_eq s⟩

/-- Witness for C15: a 10-point cactus whose trailing edge is at x = 140, and
`checkPassed` called with 100, 150 and 200. -/
theorem checkPassed_points_once_witness :
    (cactusAhead.checkPassedAll [100, 150, 200]).1 = [0, 10, 0] ∧
    (cactusAhead.checkPassedAll [100, 150, 200]).2.passed = true := by
  have h := (checkPassed_points_once (fun _ _ => 1) cactusAhead).2.1 [100] 150 [200] rfl
    (by
      intro y hy
      simp only [List.mem_singleton] at hy
      rw [hy]
      norm_num [cactusAhead, Obstacle.new, Obstacle.getDimensions, Entity.new])
    (by norm_num [cactusAhead, Obstacle.new, Obstacle.getDimensions, Entity.new])
  have h' : cactusAhead.checkPassedAll [100, 150, 200] =
      (List.replicate 1 0 ++ cactusAhead.points :: List.replicate 1 0,
        { cactusAhead with passed := true }) := h
  rw [h']
  exact ⟨rfl, rfl⟩

namespace DinoRun

/-- The collision loop when no obstacle collides. -/
theorem collideLoop_none (dino : Dino) (obstacles : List Obstacle)
    (h : ∀ o ∈ obstacles, o.collidesWith dino = false) :
    collideLoop dino obstacles = (dino, obstacles) := by
  induction obstacles with
  | nil => rfl
  | cons o os ih =>
    have ho := h o (List.mem_cons_self o os)
    have hrest := ih (fun p hp => h p (List.mem_cons_of_mem o hp))
    simp only [collideLoop, ho, Bool.false_eq_true, if_false, hrest]

/-- The collision loop at the first colliding obstacle: `takeDamage()` is called
once; the obstacle is destroyed unless that call reports game over; the loop
stops. -/
theorem collideLoop_first (dino : Dino) (pre : List Obstacle) (o : Obstacle)
    (post : List Obstacle) (hpre : ∀ p ∈ pre, p.collidesWith dino = false)
    (ho : o.collidesWith dino = true) :
    collideLoop dino (pre ++ o :: post) =
      (dino.takeDamage.2,
        pre ++ (if dino.takeDamage.1 then o else o.destroy) :: post) := by
  induction pre with
  | nil =>
    simp only [List.nil_append, collideLoop, ho, if_true]
    split_ifs <;> rfl
  | cons p ps ih =>
    have hp := hpre p (List.mem_cons_self p ps)
    have hrest := ih (fun q hq => hpre q (List.mem_cons_of_mem p hq))
    have hstep : collideLoop dino (p :: (ps ++ o :: post)) =
        ((collideLoop dino (ps ++ o :: post)).1, p :: (collideLoop dino (ps ++ o :: post)).2) := by
      simp only [collideLoop, hp, Bool.false_eq_true, if_false]
    rw [List.cons_append, hstep, hrest]
    rfl

end DinoRun

/-- One `takeDamage()` call changes `strikes` by 0 or 1. -/
theorem Dino.takeDamage_strikes_le (d : Dino) :
    d.strikes ≤ d.takeDamage.2.strikes ∧ d.takeDamage.2.strikes ≤ d.strikes + 1 := by
  simp only [Dino.takeDamage]
  split_ifs <;> constructor <;> simp

/-- C18 (counterexample): the Dino has two strikes and overlaps a cactus.
`checkCollisions()` applies the third strike, `takeDamage()` reports game over,
and the method returns before `destroy()`: the colliding obstacle is not
flagged. -/
theorem game_over_hit_keeps_obstacle :
    (∀ o ∈ thirdHitState.obstacles, o.collidesWith thirdHitState.dino = true) ∧
    (DinoRun.checkCollisions thirdHitState).dino.strikes = 3 ∧
    (DinoRun.checkCollisions thirdHitState).obstacles = thirdHitState.obstacles ∧
    (∀ o ∈ (DinoRun.checkCollisions thirdHitState).obstacles, o.shouldRemove = false) := by
  have hcol : (Obstacle.new 110 400 ObstacleType.cactus_small).collidesWith
      { Dino.new 100 400 with strikes := 2 } = true := by
    norm_num [Obstacle.collidesWith, Obstacle.getBounds, Entity.getBounds, Obstacle.new,
      Obstacle.getDimensions, Dino.new, Entity.new, Physics.checkCollision]
  have hloop := DinoRun.collideLoop_first { Dino.new 100 400 with strikes := 2 } []
    (Obstacle.new 110 400 ObstacleType.cactus_small) [] (by simp) hcol
  have hdmg : ({ Dino.new 100 400 with strikes := 2 } : Dino).takeDamage.1 = true := by
    simp [Dino.takeDamage, Dino.new]
  have hstr : ({ Dino.new 100 400 with strikes := 2 } : Dino).takeDamage.2.strikes = 3 := by
    simp [Dino.takeDamage, Dino.new]
  rw [hdmg] at hloop
  simp only [List.nil_append, if_true] at hloop
  have hcc : DinoRun.checkCollisions thirdHitState =
      { thirdHitState with
        dino := ({ Dino.new 100 400 with strikes := 2 } : Dino).takeDamage.2
        obstacles := [Obstacle.new 110 400 ObstacleType.cactus_small] } := by
    simp only [DinoRun.checkCollisions, thirdHitState, hloop]
  refine ⟨?_, by rw [hcc]; exact hstr, by rw [hcc]; rfl, ?_⟩
  · intro o ho
    simp only [thirdHitState, List.mem_singleton] at ho
    rw [ho]
    exact hcol
  · intro o ho
    rw [hcc] at ho
    simp only [List.mem_singleton] at ho
    rw [ho]
    rfl

/-- C18 (amended): one `checkCollisions()` call processes at most one hit.  If
no obstacle collides nothing changes.  Otherwise `takeDamage()` is called
exactly once (so `strikes` rises by at most 1), no obstacle other than the
first colliding one is touched, and that one is destroyed (flagged
`shouldRemove`) unless the hit ends the game, in which case the method returns
before destroying it. -/
theorem checkCollisions_one_hit (s : DinoRun) :
    ((∀ o ∈ s.obstacles, o.collidesWith s.dino = false) → DinoRun.checkCollisions s = s) ∧
    (∀ (pre : List Obstacle) (o : Obstacle) (post : List Obstacle),
      s.obstacles = pre ++ o :: post →
      (∀ p ∈ pre, p.collidesWith s.dino = false) → o.collidesWith s.dino = true →
      DinoRun.checkCollisions s =
        { s with
          dino := s.dino.takeDamage.2
          obstacles := pre ++ (if s.dino.takeDamage.1 then o else o.destroy) :: post } ∧
      s.dino.strikes ≤ (DinoRun.checkCollisions s).dino.strikes ∧
      (DinoRun.checkCollisions s).dino.strikes ≤ s.dino.strikes + 1 ∧
      (s.dino.takeDamage.1 = false →
        (DinoRun.checkCollisions s).obstacles = pre ++ o.destroy :: post ∧
        o.destroy.shouldRemove = true) ∧
      (s.dino.takeDamage.1 = true → (DinoRun.checkCollisions s).obstacles = s.obstacles)) := by
  constructor
  · intro h
    simp only [DinoRun.checkCollisions, DinoRun.collideLoop_none s.dino s.obstacles h]
  · intro pre o post hobs hpre ho
    have hloop := DinoRun.collideLoop_first s.dino pre o post hpre ho
    have hcc : DinoRun.checkCollisions s =
        { s with
          dino := s.dino.takeDamage.2
          obstacles := pre ++ (if s.dino.takeDamage.1 then o else o.destroy) :: post } := by
      simp only [DinoRun.checkCollisions, hobs, hloop]
    refine ⟨hcc, ?_, ?_, ?_, ?_⟩
    · rw [hcc]
      exact (Dino.takeDamage_strikes_le s.dino).1
    · rw [hcc]
      exact (Dino.takeDamage_strikes_le s.dino).2
    · intro hd
      rw [hcc]
      refine ⟨?_, rfl⟩
      simp only [hd, Bool.false_eq_true, if_false]
    · intro hd
      rw [hcc, hobs]
      simp only [hd, if_true]

/-- Witness for C18 (amended): the third-hit state, whose only obstacle
collides. -/
theorem checkCollisions_one_hit_witness :
    (DinoRun.checkCollisions thirdHitState).dino.strikes ≤ thirdHitState.dino.strikes + 1 :=
  ((checkCollisions_one_hit thirdHitState).2 []
    (Obstacle.new 110 400 ObstacleType.cactus_small) [] rfl (by simp)
    (by norm_num [Obstacle.collidesWith, Obstacle.getBounds, Entity.getBounds, Obstacle.new,
      Obstacle.getDimensions, Dino.new, Entity.new, Physics.checkCollision, thirdHitState,
      DinoRun.new])).2.2.1

namespace DinoRun

/-- No speed change while the target does not exceed the multiplier. -/
theorem updateDifficulty_of_le (s : DinoRun)
    (h : 1 + (⌊s.gameTime / 30⌋ : ℚ) * s.difficultyIncrease ≤ s.gameSpeed) :
    updateDifficulty s = s := by
  simp only [updateDifficulty, gt_iff_lt, not_lt.mpr h, if_false]

/-- The spawner emits nothing in a frame with `dt ≤ 0` and a clock `≤ 0` when
it is at level 1 with `lastSpawnTime = 0` and its pending interval is `NaN` or
positive. -/
theorem spawn_nothing_at_start (sp : ObstacleSpawner) (dt gameTime rType rSpawn : ℚ)
    (hdt : dt ≤ 0) (hclock : gameTime ≤ 0) (hlast : sp.lastSpawnTime = 0)
    (hlevel : sp.difficultyLevel = 1) (hnext : ∀ t, sp.nextSpawnTime = some t → 0 < t) :
    (sp.update dt gameTime rType rSpawn).1 = none := by
  have hfl : ⌊gameTime / 30⌋ ≤ 0 := by
    have h0 : ⌊gameTime / 30⌋ ≤ ⌊(0 : ℚ)⌋ := Int.floor_le_floor (by linarith)
    simpa using h0
  have hdiff : ObstacleSpawner.updateDifficulty
      { sp with lastSpawnTime := sp.lastSpawnTime + dt } gameTime =
      { sp with lastSpawnTime := sp.lastSpawnTime + dt } := by
    simp only [ObstacleSpawner.updateDifficulty, hlevel, gt_iff_lt]
    rw [if_neg (by omega)]
  simp only [ObstacleSpawner.update, hdiff]
  cases hn : sp.nextSpawnTime with
  | none => rfl
  | some t =>
    have ht := hnext t hn
    simp only []
    rw [if_neg (by rw [hlast]; simp only [zero_add, ge_iff_le, not_le]; linarith)]

/-- The obstacle list after a spawn step that emits nothing. -/
theorem spawnStep_obstacles_of_none (s : DinoRun) (dt rType rSpawn : ℚ)
    (h : (s.obstacleSpawner.update dt s.gameTime rType rSpawn).1 = none) :
    (spawnStep s dt rType rSpawn).obstacles = s.obstacles := by
  simp only [spawnStep, h]

/-- The start frame on a quiet game: with `dt ≤ 0`, a zero clock and distance,
multiplier 1, no obstacles, the spawner at rest and a non-negative score, lines
203-226 leave the score, the multiplier and the empty obstacle list as they
were and only run the Dino's own `update`. -/
theorem advance_at_start (pow : ℚ → ℚ → ℚ) (s : DinoRun) (dt rType rSpawn : ℚ)
    (hdt : dt ≤ 0) (hT : s.gameTime = 0) (hD : s.distance = 0) (hS : s.gameSpeed = 1)
    (hI : s.difficultyIncrease = 1 / 20) (hB : 0 ≤ s.baseScrollSpeed)
    (hO : s.obstacles = []) (hlast : s.obstacleSpawner.lastSpawnTime = 0)
    (hlevel : s.obstacleSpawner.difficultyLevel = 1)
    (hnext : ∀ t, s.obstacleSpawner.nextSpawnTime = some t → 0 < t) (hscore : 0 ≤ s.score) :
    (advance pow s dt rType rSpawn).score = s.score ∧
    (advance pow s dt rType rSpawn).gameSpeed = 1 ∧
    (advance pow s dt rType rSpawn).obstacles = [] ∧
    (advance pow s dt rType rSpawn).dino = s.dino.update pow dt ∧
    (advance pow s dt rType rSpawn).gameState = s.gameState := by
  have hfl : (⌊(s.gameTime + dt) / 30⌋ : ℚ) ≤ 0 := by
    have h0 : ⌊(s.gameTime + dt) / 30⌋ ≤ ⌊(0 : ℚ)⌋ :=
      Int.floor_le_floor (by rw [hT]; linarith)
    have h1 : ⌊(s.gameTime + dt) / 30⌋ ≤ 0 := by simpa using h0
    exact_mod_cast h1
  have htarget : 1 + (⌊(s.gameTime + dt) / 30⌋ : ℚ) * s.difficultyIncrease ≤ s.gameSpeed := by
    rw [hI, hS]
    nlinarith
  have hdist : ⌊s.distance + s.baseScrollSpeed * s.gameSpeed * dt / 100⌋ ≤ s.score := by
    have h0 : ⌊s.distance + s.baseScrollSpeed * s.gameSpeed * dt / 100⌋ ≤ ⌊(0 : ℚ)⌋ := by
      apply Int.floor_le_floor
      rw [hD, hS]
      have : s.baseScrollSpeed * 1 * dt ≤ 0 := by nlinarith
      linarith
    have h1 : ⌊s.distance + s.baseScrollSpeed * s.gameSpeed * dt / 100⌋ ≤ 0 := by simpa using h0
    linarith
  obtain ⟨s2, hs2⟩ : ∃ x : DinoRun, x = { s with
      gameTime := s.gameTime + dt
      distance := s.distance + s.baseScrollSpeed * s.gameSpeed * dt / 100 } := ⟨_, rfl⟩
  have hA : advance pow s dt rType rSpawn =
      cleanupObstacles (updateScore (checkCollisions
        (superUpdate pow (spawnStep (updateDifficulty s2) dt rType rSpawn) dt))) := by
    rw [hs2]
    rfl
  have hdiff : updateDifficulty s2 = s2 := by
    apply updateDifficulty_of_le
    rw [hs2]
    exact htarget
  have hspawn : (s2.obstacleSpawner.update dt s2.gameTime rType rSpawn).1 = none := by
    rw [hs2]
    exact spawn_nothing_at_start s.obstacleSpawner dt (s.gameTime + dt) rType rSpawn hdt
      (by rw [hT]; linarith) hlast hlevel hnext
  have h4o : (spawnStep s2 dt rType rSpawn).obstacles = [] := by
    rw [spawnStep_obstacles_of_none s2 dt rType rSpawn hspawn, hs2]
    exact hO
  obtain ⟨_, f2, _, f4, f5, f6, f7, _⟩ := spawnStep_frame s2 dt rType rSpawn
  rw [hA, hdiff]
  obtain ⟨s4, hs4⟩ : ∃ x : DinoRun, x = spawnStep s2 dt rType rSpawn := ⟨_, rfl⟩
  rw [← hs4] at h4o f2 f4 f5 f6 f7 ⊢
  have h5o : (superUpdate pow s4 dt).obstacles = [] := by
    show s4.obstacles.map _ = []
    rw [h4o]
    rfl
  have h6o : (checkCollisions (superUpdate pow s4 dt)).obstacles = [] := by
    show (collideLoop (superUpdate pow s4 dt).dino (superUpdate pow s4 dt).obstacles).2 = []
    rw [h5o]
    rfl
  have h6d : (checkCollisions (superUpdate pow s4 dt)).dino = s4.dino.update pow dt := by
    show (collideLoop (superUpdate pow s4 dt).dino (superUpdate pow s4 dt).obstacles).1 = _
    rw [h5o]
    rfl
  obtain ⟨u1, u2⟩ := updateScore_eq (checkCollisions (superUpdate pow s4 dt))
  obtain ⟨_, v2, _, v4, v5⟩ := updateScore_frame (checkCollisions (superUpdate pow s4 dt))
  have h7o : (updateScore (checkCollisions (superUpdate pow s4 dt))).obstacles = [] := by
    rw [u2, h6o]
    rfl
  have h7s : (updateScore (checkCollisions (superUpdate pow s4 dt))).score = s.score := by
    rw [u1, h6o]
    have e1 : (checkCollisions (superUpdate pow s4 dt)).score = s.score := by
      show s4.score = s.score
      rw [f5, hs2]
    have e2 : (checkCollisions (superUpdate pow s4 dt)).distance =
        s.distance + s.baseScrollSpeed * s.gameSpeed * dt / 100 := by
      show s4.distance = _
      rw [f6, hs2]
    rw [e1, e2, if_neg (by simpa using hdist)]
    simp
  refine ⟨h7s, ?_, ?_, ?_, ?_⟩
  · show (updateScore (checkCollisions (superUpdate pow s4 dt))).gameSpeed = 1
    rw [v2]
    show s4.gameSpeed = 1
    rw [f2, hs2]
    exact hS
  · show (updateScore (checkCollisions (superUpdate pow s4 dt))).obstacles.filter _ = []
    rw [h7o]
    rfl
  · show (updateScore (checkCollisions (superUpdate pow s4 dt))).dino = _
    rw [v5, h6d, f7, hs2]
  · show (updateScore (checkCollisions (superUpdate pow s4 dt))).gameState = _
    rw [v4]
    show s4.gameState = _
    rw [f4, hs2]

/-- The fields of the game after `start()`: those of the `update` run by the
frame that `start()` triggers, whose delta time is
`min ((0 - now) / 1000) (1 / 30)`. -/
theorem start_eq (pow : ℚ → ℚ → ℚ) (s : DinoRun) (now rType rSpawn : ℚ) :
    start pow s now rType rSpawn =
      { update pow
          { s with toLoopState :=
            (s.toLoopState.markStarted now).beginFrame LoopState.startFrameTime }
          (min ((0 - now) / 1000) (1 / 30)) rType rSpawn with
        toLoopState :=
          (update pow
            { s with toLoopState :=
              (s.toLoopState.markStarted now).beginFrame LoopState.startFrameTime }
            (min ((0 - now) / 1000) (1 / 30)) rType rSpawn).toLoopState.updateFPS
              LoopState.startFrameTime } := by
  simp only [start, gameLoop, LoopState.markStarted, Bool.not_true, Bool.false_eq_true, if_false]
  rfl

/-- A `startGame()` from a quiet state at a clock value `now ≥ 0`: the game is
`playing`, and the score, the multiplier, the empty obstacle list and the
Dino's strike state are what they were. -/
theorem startGame_of_quiet (pow : ℚ → ℚ → ℚ) (s : DinoRun) (now rType rSpawn : ℚ)
    (hnow : 0 ≤ now) (hT : s.gameTime = 0) (hD : s.distance = 0) (hS : s.gameSpeed = 1)
    (hI : s.difficultyIncrease = 1 / 20) (hB : 0 ≤ s.baseScrollSpeed)
    (hO : s.obstacles = []) (hlast : s.obstacleSpawner.lastSpawnTime = 0)
    (hlevel : s.obstacleSpawner.difficultyLevel = 1)
    (hnext : ∀ t, s.obstacleSpawner.nextSpawnTime = some t → 0 < t) (hscore : 0 ≤ s.score)
    (hstr : s.dino.strikes < s.dino.maxStrikes) :
    (startGame pow s now rType rSpawn).gameState = DinoGameState.playing ∧
    (startGame pow s now rType rSpawn).score = s.score ∧
    (startGame pow s now rType rSpawn).gameSpeed = 1 ∧
    (startGame pow s now rType rSpawn).obstacles = [] ∧
    (startGame pow s now rType rSpawn).dino.strikes = s.dino.strikes ∧
    ((startGame pow s now rType rSpawn).dino.isInvulnerable = true →
      s.dino.isInvulnerable = true) := by
  have hdt : min ((0 - now) / 1000) (1 / 30) ≤ 0 :=
    le_trans (min_le_left _ _) (by apply div_nonpos_of_nonpos_of_nonneg <;> linarith)
  obtain ⟨a1, a2, a3, a4, a5⟩ := advance_at_start pow
    { s with
      gameState := DinoGameState.playing
      showInstructions := false
      toLoopState := (s.toLoopState.markStarted now).beginFrame LoopState.startFrameTime }
    (min ((0 - now) / 1000) (1 / 30)) rType rSpawn hdt hT hD hS hI hB hO hlast hlevel hnext hscore
  obtain ⟨d1, d2, _, d4⟩ := Dino.update_damage_fields pow s.dino (min ((0 - now) / 1000) (1 / 30))
  have hover : (advance pow
      { s with
        gameState := DinoGameState.playing
        showInstructions := false
        toLoopState := (s.toLoopState.markStarted now).beginFrame LoopState.startFrameTime }
      (min ((0 - now) / 1000) (1 / 30)) rType rSpawn).dino.isGameOver = false := by
    rw [a4]
    simp only [Dino.isGameOver, d1, d2, ge_iff_le, decide_eq_false_iff_not, not_le]
    exact hstr
  have hupd : update pow
      { s with
        gameState := DinoGameState.playing
        showInstructions := false
        toLoopState := (s.toLoopState.markStarted now).beginFrame LoopState.startFrameTime }
      (min ((0 - now) / 1000) (1 / 30)) rType rSpawn =
      advance pow
      { s with
        gameState := DinoGameState.playing
        showInstructions := false
        toLoopState := (s.toLoopState.markStarted now).beginFrame LoopState.startFrameTime }
      (min ((0 - now) / 1000) (1 / 30)) rType rSpawn := by
    simp only [update, ne_eq, not_true_eq_false, if_false, hover, Bool.false_eq_true]
  have hstart : startGame pow s now rType rSpawn =
      start pow { s with gameState := DinoGameState.playing, showInstructions := false }
        now rType rSpawn := rfl
  rw [hstart, start_eq]
  simp only [hupd, a1, a2, a3, a4, a5, d1, d4]
  refine ⟨trivial, trivial, trivial, trivial, trivial, ?_⟩
  intro h
  simp only [Bool.and_eq_true] at h
  exact h.1

end DinoRun

/-- The game clock after `startGame()`: the frame that `start()` triggers adds
`min ((0 - now) / 1000) (1 / 30)` to it. -/
theorem DinoRun.startGame_gameTime (pow : ℚ → ℚ → ℚ) (s : DinoRun) (now rType rSpawn : ℚ) :
    (DinoRun.startGame pow s now rType rSpawn).gameTime =
      s.gameTime + min ((0 - now) / 1000) (1 / 30) := by
  have hstart : DinoRun.startGame pow s now rType rSpawn =
      DinoRun.start pow { s with gameState := DinoGameState.playing, showInstructions := false }
        now rType rSpawn := rfl
  rw [hstart, DinoRun.start_eq]
  exact (DinoRun.update_clock pow _ _ rType rSpawn rfl).1

/-- C17 (counterexample): `startGame()` resets nothing.  Called on a paused
game with a score of 7 it leaves the game `playing` with the score still 7; and
called on a newly constructed game when `performance.now()` reads 5000 ms it
leaves `gameTime = -5`, the delta time of the frame that `start()` triggers. -/
theorem startGame_resets_nothing :
    (DinoRun.startGame (fun _ _ => 1) pausedWithScore 0 0 0).gameState =
      DinoGameState.playing ∧
    (DinoRun.startGame (fun _ _ => 1) pausedWithScore 0 0 0).score = 7 ∧
    (DinoRun.startGame (fun _ _ => 1) (DinoRun.new 0) 5000 0 0).gameTime = -5 := by
  obtain ⟨h1, h2, _⟩ := DinoRun.startGame_of_quiet (fun _ _ => 1) pausedWithScore 0 0 0
    (le_refl _) rfl rfl rfl rfl (by norm_num [pausedWithScore, DinoRun.new]) rfl rfl rfl
    (fun t ht => by cases ht) (by norm_num [pausedWithScore, DinoRun.new])
    (by norm_num [pausedWithScore, DinoRun.new, Dino.new])
  refine ⟨h1, h2, ?_⟩
  rw [DinoRun.startGame_gameTime]
  norm_num [DinoRun.new]

/-- C17 (amended): `startGame()` only sets `gameState = 'playing'`, clears
`showInstructions` and starts the engine loop.  Called on a newly constructed
game, or on a game just reset by `restartGame()`, at a clock value `now ≥ 0`,
it leaves the game `playing` with `score = 0`, `gameSpeed = 1.0`, no live
obstacle and a Dino with `strikes = 0` that is not invulnerable. -/
theorem startGame_after_reset (pow : ℚ → ℚ → ℚ) (now rType rSpawn : ℚ) (hnow : 0 ≤ now) :
    (∀ s : DinoRun,
      DinoRun.startGame pow s now rType rSpawn =
        DinoRun.start pow { s with gameState := DinoGameState.playing, showInstructions := false }
          now rType rSpawn) ∧
    (∀ savedHighScore : ℤ,
      (DinoRun.startGame pow (DinoRun.new savedHighScore) now rType rSpawn).gameState =
        DinoGameState.playing ∧
      (DinoRun.startGame pow (DinoRun.new savedHighScore) now rType rSpawn).score = 0 ∧
      (DinoRun.startGame pow (DinoRun.new savedHighScore) now rType rSpawn).gameSpeed = 1 ∧
      (DinoRun.startGame pow (DinoRun.new savedHighScore) now rType rSpawn).obstacles = [] ∧
      (DinoRun.startGame pow (DinoRun.new savedHighScore) now rType rSpawn).dino.strikes = 0 ∧
      (DinoRun.startGame pow (DinoRun.new savedHighScore) now rType rSpawn).dino.isInvulnerable
        = false) ∧
    (∀ (s0 : DinoRun) (r : ℚ), 0 ≤ r →
      s0.difficultyIncrease = 1 / 20 → s0.baseScrollSpeed = 200 → s0.dino.maxStrikes = 3 →
      s0.obstacleSpawner.minSpawnInterval = 3 / 2 → s0.obstacleSpawner.maxSpawnInterval = 3 →
      (DinoRun.startGame pow (DinoRun.restartGame s0 r) now rType rSpawn).gameState =
        DinoGameState.playing ∧
      (DinoRun.startGame pow (DinoRun.restartGame s0 r) now rType rSpawn).score = 0 ∧
      (DinoRun.startGame pow (DinoRun.restartGame s0 r) now rType rSpawn).gameSpeed = 1 ∧
      (DinoRun.startGame pow (DinoRun.restartGame s0 r) now rType rSpawn).obstacles = [] ∧
      (DinoRun.startGame pow (DinoRun.restartGame s0 r) now rType rSpawn).dino.strikes = 0 ∧
      (DinoRun.startGame pow (DinoRun.restartGame s0 r) now rType rSpawn).dino.isInvulnerable
        = false) := by
  refine ⟨fun s => rfl, ?_, ?_⟩
  · intro hs
    obtain ⟨h1, h2, h3, h4, h5, h6⟩ := DinoRun.startGame_of_quiet pow (DinoRun.new hs) now
      rType rSpawn hnow rfl rfl rfl rfl (by norm_num [DinoRun.new]) rfl rfl rfl
      (fun t ht => by cases ht) (le_refl _) (by norm_num [DinoRun.new, Dino.new])
    refine ⟨h1, h2, h3, h4, h5, ?_⟩
    cases hinv : (DinoRun.startGame pow (DinoRun.new hs) now rType rSpawn).dino.isInvulnerable
    · rfl
    · exact absurd (h6 hinv) (by simp [DinoRun.new, Dino.new])
  · intro s0 r hr hI hB hM hmin hmax
    have hnext : ∀ t, (DinoRun.restartGame s0 r).obstacleSpawner.nextSpawnTime = some t →
        0 < t := by
      intro t ht
      simp only [DinoRun.restartGame, ObstacleSpawner.reset, ObstacleSpawner.getRandomSpawnTime,
        hmin, hmax, Option.some.injEq] at ht
      rw [← ht]
      norm_num
      nlinarith
    obtain ⟨h1, h2, h3, h4, h5, h6⟩ := DinoRun.startGame_of_quiet pow (DinoRun.restartGame s0 r)
      now rType rSpawn hnow rfl rfl rfl hI (by
        show 0 ≤ s0.baseScrollSpeed
        rw [hB]
        norm_num) rfl rfl rfl hnext (le_refl _) (by
        show (0 : ℤ) < s0.dino.maxStrikes
        rw [hM]
        norm_num)
    refine ⟨h1, h2, h3, h4, h5, ?_⟩
    cases hinv :
      (DinoRun.startGame pow (DinoRun.restartGame s0 r) now rType rSpawn).dino.isInvulnerable
    · rfl
    · exact absurd (h6 hinv) (by simp [DinoRun.restartGame, Dino.reset])

/-- Witness for C17 (amended): a newly constructed game started when
`performance.now()` reads 5000 ms. -/
theorem startGame_after_reset_witness :
    (DinoRun.startGame (fun _ _ => 1) (DinoRun.new 0) 5000 0 0).gameState =
      DinoGameState.playing ∧
    (DinoRun.startGame (fun _ _ => 1) (DinoRun.new 0) 5000 0 0).score = 0 :=
  ⟨((startGame_after_reset (fun _ _ => 1) 5000 0 0 (by norm_num)).2.1 0).1,
    ((startGame_after_reset (fun _ _ => 1) 5000 0 0 (by norm_num)).2.1 0).2.1⟩

/-! ## Theorems: the obstacle spawner -/

namespace ObstacleSpawner

/-- The fields `updateDifficulty(gameTime)` leaves alone. -/
theorem updateDifficulty_keeps_pending (s : ObstacleSpawner) (gameTime : ℚ) :
    (s.updateDifficulty gameTime).nextSpawnTime = s.nextSpawnTime ∧
    (s.updateDifficulty gameTime).lastSpawnTime = s.lastSpawnTime ∧
    (s.updateDifficulty gameTime).minSpawnInterval = s.minSpawnInterval ∧
    (s.updateDifficulty gameTime).maxSpawnInterval = s.maxSpawnInterval := by
  simp only [updateDifficulty, adjustProbabilities]
  split_ifs <;> exact ⟨rfl, rfl, rfl, rfl⟩

/-- A spawner whose pending interval is `NaN` returns `null` from `update` and
keeps the `NaN`. -/
theorem update_of_nan (s : ObstacleSpawner) (dt gameTime rType rSpawn : ℚ)
    (h : s.nextSpawnTime = none) :
    (s.update dt gameTime rType rSpawn).1 = none ∧
    (s.update dt gameTime rType rSpawn).2.nextSpawnTime = none := by
  have h2 : (updateDifficulty { s with lastSpawnTime := s.lastSpawnTime + dt }
      gameTime).nextSpawnTime = none := by
    rw [(updateDifficulty_keeps_pending _ gameTime).1]
    exact h
  constructor <;> simp only [update, h2]

/-- No call of a run that starts with a `NaN` interval returns an obstacle. -/
theorem returned_of_nan (calls : List Call) :
    ∀ s : ObstacleSpawner, s.nextSpawnTime = none → ∀ o ∈ returned s calls, o = none := by
  induction calls with
  | nil => intro s _ o ho; simp [returned] at ho
  | cons c cs ih =>
    intro s h o ho
    obtain ⟨h1, h2⟩ := update_of_nan s c.deltaTime c.gameTime c.rType c.rSpawn h
    simp only [returned, List.mem_cons] at ho
    rcases ho with ho | ho
    · rw [ho, h1]
    · exact ih _ h2 o ho

end ObstacleSpawner

/-- C21 (code defect): the constructor of `ObstacleSpawner` calls
`getRandomSpawnTime()` before it assigns `gameSpeed`, so the pending interval
of a newly constructed spawner is `NaN`, not a value in [1.5, 3.0]: whatever
the delta times, the clock values and the random draws of a run of `update`
calls, the number of calls matches the inputs and none of them returns an
obstacle. -/
theorem new_spawner_never_spawns (calls : List ObstacleSpawner.Call) :
    ObstacleSpawner.new.nextSpawnTime = none ∧
    (ObstacleSpawner.returned ObstacleSpawner.new calls).length = calls.length ∧
    ∀ o ∈ ObstacleSpawner.returned ObstacleSpawner.new calls, o = none := by
  refine ⟨rfl, ?_, ObstacleSpawner.returned_of_nan calls _ rfl⟩
  generalize ObstacleSpawner.new = s
  induction calls generalizing s with
  | nil => rfl
  | cons c cs ih => simp only [ObstacleSpawner.returned, List.length_cons, ih]

namespace ObstacleSpawner

/-- A draw `r` in [0, 1] gives an interval between `minSpawnInterval / gameSpeed`
and `maxSpawnInterval / gameSpeed`. -/
theorem getRandomSpawnTime_bounds (s : ObstacleSpawner) (r : ℚ) (hg : 0 < s.gameSpeed)
    (hmm : s.minSpawnInterval ≤ s.maxSpawnInterval) (h0 : 0 ≤ r) (h1 : r ≤ 1) :
    s.minSpawnInterval / s.gameSpeed ≤ s.getRandomSpawnTime r ∧
    s.getRandomSpawnTime r ≤ s.maxSpawnInterval / s.gameSpeed := by
  have hab : s.minSpawnInterval / s.gameSpeed ≤ s.maxSpawnInterval / s.gameSpeed :=
    div_le_div_of_nonneg_right hmm (le_of_lt hg)
  simp only [getRandomSpawnTime]
  constructor <;> nlinarith

/-- The speed of the spawner is a step function of its level, so
`updateDifficulty(gameTime)` never lowers it and keeps it within [1, 2]. -/
theorem updateDifficulty_speed (s : ObstacleSpawner) (gameTime : ℚ)
    (hL : 1 ≤ s.difficultyLevel)
    (hS : s.gameSpeed = min (1 + ((s.difficultyLevel : ℚ) - 1) * (1 / 10)) 2) :
    1 ≤ (s.updateDifficulty gameTime).difficultyLevel ∧
    (s.updateDifficulty gameTime).gameSpeed =
      min (1 + (((s.updateDifficulty gameTime).difficultyLevel : ℚ) - 1) * (1 / 10)) 2 ∧
    s.gameSpeed ≤ (s.updateDifficulty gameTime).gameSpeed ∧
    1 ≤ (s.updateDifficulty gameTime).gameSpeed ∧
    (s.updateDifficulty gameTime).gameSpeed ≤ 2 := by
  have hLq : (1 : ℚ) ≤ (s.difficultyLevel : ℚ) := by exact_mod_cast hL
  have hs1 : 1 ≤ s.gameSpeed := by
    rw [hS]
    exact le_min (by linarith) (by norm_num)
  have hs2 : s.gameSpeed ≤ 2 := by
    rw [hS]
    exact min_le_right _ _
  by_cases hnew : ⌊gameTime / 30⌋ + 1 > s.difficultyLevel
  · have hnq : (s.difficultyLevel : ℚ) ≤ ((⌊gameTime / 30⌋ + 1 : ℤ) : ℚ) := by
      exact_mod_cast le_of_lt hnew
    have hlev : (s.updateDifficulty gameTime).difficultyLevel = ⌊gameTime / 30⌋ + 1 := by
      simp only [updateDifficulty, hnew, if_true, adjustProbabilities]
    have hspd : (s.updateDifficulty gameTime).gameSpeed =
        min (1 + (((⌊gameTime / 30⌋ + 1 : ℤ) : ℚ) - 1) * (1 / 10)) 2 := by
      simp only [updateDifficulty, hnew, if_true, adjustProbabilities]
    rw [hlev, hspd]
    refine ⟨by omega, rfl, ?_, le_min (by linarith) (by norm_num), min_le_right _ _⟩
    rw [hS]
    exact min_le_min_right _ (by linarith)
  · have hsame : s.updateDifficulty gameTime = s := by
      simp only [updateDifficulty, hnew, if_false]
    rw [hsame]
    exact ⟨hL, hS, le_refl _, hs1, hs2⟩

/-- One `update` call keeps the invariant of the pending interval: it was drawn
between `minSpawnInterval / g` and `maxSpawnInterval / g` for a speed `g` that
the spawner had then, and the speed has not decreased since.  After a call that
returns an obstacle, `g` is the current speed. -/
theorem update_keeps_interval (s : ObstacleSpawner) (dt gameTime rType rSpawn : ℚ)
    (hmm : s.minSpawnInterval ≤ s.maxSpawnInterval)
    (h0 : 0 ≤ rSpawn) (h1 : rSpawn < 1) (hL : 1 ≤ s.difficultyLevel)
    (hS : s.gameSpeed = min (1 + ((s.difficultyLevel : ℚ) - 1) * (1 / 10)) 2)
    (hI : ∃ next g, s.nextSpawnTime = some next ∧ 1 ≤ g ∧ g ≤ s.gameSpeed ∧
      s.minSpawnInterval / g ≤ next ∧ next ≤ s.maxSpawnInterval / g) :
    (s.update dt gameTime rType rSpawn).2.minSpawnInterval = s.minSpawnInterval ∧
    (s.update dt gameTime rType rSpawn).2.maxSpawnInterval = s.maxSpawnInterval ∧
    1 ≤ (s.update dt gameTime rType rSpawn).2.difficultyLevel ∧
    (s.update dt gameTime rType rSpawn).2.gameSpeed =
      min (1 + (((s.update dt gameTime rType rSpawn).2.difficultyLevel : ℚ) - 1) * (1 / 10)) 2 ∧
    (∃ next g, (s.update dt gameTime rType rSpawn).2.nextSpawnTime = some next ∧ 1 ≤ g ∧
      g ≤ (s.update dt gameTime rType rSpawn).2.gameSpeed ∧
      s.minSpawnInterval / g ≤ next ∧ next ≤ s.maxSpawnInterval / g) ∧
    ((s.update dt gameTime rType rSpawn).1 ≠ none →
      ∃ next, (s.update dt gameTime rType rSpawn).2.nextSpawnTime = some next ∧
        s.minSpawnInterval / (s.update dt gameTime rType rSpawn).2.gameSpeed ≤ next ∧
        next ≤ s.maxSpawnInterval / (s.update dt gameTime rType rSpawn).2.gameSpeed) := by
  obtain ⟨next, g, hn, hg1, hg2, hlo, hhi⟩ := hI
  obtain ⟨s2, hs2⟩ : ∃ x : ObstacleSpawner,
      x = updateDifficulty { s with lastSpawnTime := s.lastSpawnTime + dt } gameTime := ⟨_, rfl⟩
  obtain ⟨f1, _, f3, f4⟩ :=
    updateDifficulty_keeps_pending { s with lastSpawnTime := s.lastSpawnTime + dt } gameTime
  obtain ⟨d1, d2, d3, d4, d5⟩ :=
    updateDifficulty_speed { s with lastSpawnTime := s.lastSpawnTime + dt } gameTime hL hS
  rw [← hs2] at f1 f3 f4 d1 d2 d3 d4 d5
  have f1' : s2.nextSpawnTime = some next := by rw [f1]; exact hn
  have f3' : s2.minSpawnInterval = s.minSpawnInterval := f3
  have f4' : s2.maxSpawnInterval = s.maxSpawnInterval := f4
  have d3' : s.gameSpeed ≤ s2.gameSpeed := d3
  have hupd : s.update dt gameTime rType rSpawn =
      if s2.lastSpawnTime ≥ next then
        (some (spawnObstacle s2 rType rSpawn).1, (spawnObstacle s2 rType rSpawn).2)
      else (none, s2) := by
    simp only [update, ← hs2, f1']
  by_cases hsp : s2.lastSpawnTime ≥ next
  · rw [hupd, if_pos hsp]
    obtain ⟨b1, b2⟩ := getRandomSpawnTime_bounds { s2 with lastSpawnTime := 0 } rSpawn
      (by show 0 < s2.gameSpeed; linarith) (by show s2.minSpawnInterval ≤ s2.maxSpawnInterval
                                               rw [f3', f4']; exact hmm) h0 (le_of_lt h1)
    have b1' : s.minSpawnInterval / s2.gameSpeed ≤
        getRandomSpawnTime { s2 with lastSpawnTime := 0 } rSpawn := by
      rw [← f3']; exact b1
    have b2' : getRandomSpawnTime { s2 with lastSpawnTime := 0 } rSpawn ≤
        s.maxSpawnInterval / s2.gameSpeed := by
      rw [← f4']; exact b2
    refine ⟨f3', f4', d1, d2, ⟨_, s2.gameSpeed, rfl, d4, le_refl _, b1', b2'⟩, ?_⟩
    intro _
    exact ⟨_, rfl, b1', b2'⟩
  · rw [hupd, if_neg hsp]
    refine ⟨f3', f4', d1, d2, ⟨next, g, f1', hg1, le_trans hg2 d3', hlo, hhi⟩, ?_⟩
    intro h
    exact absurd rfl h

end ObstacleSpawner

namespace ObstacleSpawner

/-- The invariant of the pending interval along a run of `update` calls whose
spawn draws lie in [0, 1). -/
theorem updates_keep_interval (calls : List Call) :
    ∀ s : ObstacleSpawner, s.minSpawnInterval ≤ s.maxSpawnInterval →
      (∀ c ∈ calls, 0 ≤ c.rSpawn ∧ c.rSpawn < 1) → 1 ≤ s.difficultyLevel →
      s.gameSpeed = min (1 + ((s.difficultyLevel : ℚ) - 1) * (1 / 10)) 2 →
      (∃ next g, s.nextSpawnTime = some next ∧ 1 ≤ g ∧ g ≤ s.gameSpeed ∧
        s.minSpawnInterval / g ≤ next ∧ next ≤ s.maxSpawnInterval / g) →
      (updates s calls).minSpawnInterval = s.minSpawnInterval ∧
      (updates s calls).maxSpawnInterval = s.maxSpawnInterval ∧
      1 ≤ (updates s calls).difficultyLevel ∧
      (updates s calls).gameSpeed =
        min (1 + (((updates s calls).difficultyLevel : ℚ) - 1) * (1 / 10)) 2 ∧
      ∃ next g, (updates s calls).nextSpawnTime = some next ∧ 1 ≤ g ∧
        g ≤ (updates s calls).gameSpeed ∧
        s.minSpawnInterval / g ≤ next ∧ next ≤ s.maxSpawnInterval / g := by
  induction calls with
  | nil => intro s _ _ hL hS hI; exact ⟨rfl, rfl, hL, hS, hI⟩
  | cons c cs ih =>
    intro s hmm hc hL hS hI
    obtain ⟨hc0, hc1⟩ := hc c (List.mem_cons_self _ _)
    obtain ⟨u1, u2, u3, u4, u5, _⟩ :=
      update_keeps_interval s c.deltaTime c.gameTime c.rType c.rSpawn hmm hc0 hc1 hL hS hI
    have hstep : updates s (c :: cs) =
        updates (s.update c.deltaTime c.gameTime c.rType c.rSpawn).2 cs := rfl
    rw [hstep]
    obtain ⟨v1, v2, v3, v4, v5⟩ := ih (s.update c.deltaTime c.gameTime c.rType c.rSpawn).2
      (by rw [u1, u2]; exact hmm) (fun c' hc' => hc c' (List.mem_cons_of_mem _ hc')) u3 u4
      (by rw [u1, u2]; exact u5)
    rw [u1] at v1 v5
    rw [u2] at v2 v5
    exact ⟨v1, v2, v3, v4, v5⟩

/-- The state `reset()` leaves satisfies the invariant of the pending interval
when its draw lies in [0, 1). -/
theorem reset_interval (s : ObstacleSpawner) (r : ℚ)
    (hmm : s.minSpawnInterval ≤ s.maxSpawnInterval) (h0 : 0 ≤ r) (h1 : r < 1) :
    (s.reset r).minSpawnInterval = s.minSpawnInterval ∧
    (s.reset r).maxSpawnInterval = s.maxSpawnInterval ∧
    (s.reset r).difficultyLevel = 1 ∧
    (s.reset r).gameSpeed = 1 ∧
    ∃ next, (s.reset r).nextSpawnTime = some next ∧
      s.minSpawnInterval / 1 ≤ next ∧ next ≤ s.maxSpawnInterval / 1 := by
  obtain ⟨b1, b2⟩ := getRandomSpawnTime_bounds
    { s with lastSpawnTime := 0, gameSpeed := 1, difficultyLevel := 1 } r
    (by norm_num) hmm h0 (le_of_lt h1)
  exact ⟨rfl, rfl, rfl, rfl, _, rfl, b1, b2⟩

end ObstacleSpawner

/-- C22 (counterexample): a spawner reset with the draw 0.9 holds the interval
2.85 s; an `update(0, 30)` call raises its speed to 1.1 and leaves the interval
alone, so the interval exceeds `maxSpawnInterval / gameSpeed = 3 / 1.1`. -/
theorem stale_spawn_interval :
    (ObstacleSpawner.updates (ObstacleSpawner.new.reset (9 / 10)) [⟨0, 30, 0, 0⟩]).gameSpeed
      = 11 / 10 ∧
    (ObstacleSpawner.updates (ObstacleSpawner.new.reset (9 / 10)) [⟨0, 30, 0, 0⟩]).nextSpawnTime
      = some (57 / 20) ∧
    (ObstacleSpawner.updates (ObstacleSpawner.new.reset (9 / 10))
        [⟨0, 30, 0, 0⟩]).maxSpawnInterval /
      (ObstacleSpawner.updates (ObstacleSpawner.new.reset (9 / 10)) [⟨0, 30, 0, 0⟩]).gameSpeed
      < 57 / 20 := by
  have hfl : ⌊(30 : ℚ) / 30⌋ = 1 := by norm_num
  have hrun : ObstacleSpawner.updates (ObstacleSpawner.new.reset (9 / 10)) [⟨0, 30, 0, 0⟩] =
      { ObstacleSpawner.adjustProbabilities
          { ObstacleSpawner.new.reset (9 / 10) with difficultyLevel := 2, gameSpeed := 11 / 10 }
        with lastSpawnTime := 0 } := by
    simp only [ObstacleSpawner.updates, List.foldl, ObstacleSpawner.update,
      ObstacleSpawner.updateDifficulty, hfl, ObstacleSpawner.reset, ObstacleSpawner.new,
      ObstacleSpawner.getRandomSpawnTime, ObstacleSpawner.adjustProbabilities]
    norm_num
  rw [hrun]
  norm_num [ObstacleSpawner.adjustProbabilities, ObstacleSpawner.reset, ObstacleSpawner.new,
    ObstacleSpawner.getRandomSpawnTime]

/-- C22 (amended): for a spawner with `0 ≤ minSpawnInterval ≤ maxSpawnInterval`
that has been `reset()`, after every run of `update` calls whose random draws
lie in [0, 1): `gameSpeed` lies within [1.0, 2.0], and the pending interval
lies within `[minSpawnInterval / g, maxSpawnInterval / g]` for a speed `g`
with `1 ≤ g ≤ gameSpeed` (the speed in force when the interval was drawn), hence
within `[minSpawnInterval / gameSpeed, maxSpawnInterval]`.  Right after an
`update` call that returns an obstacle it lies within
`[minSpawnInterval / gameSpeed, maxSpawnInterval / gameSpeed]` for the current
`gameSpeed`. -/
theorem spawn_interval_of_draw_speed (s : ObstacleSpawner) (r : ℚ)
    (calls : List ObstacleSpawner.Call) (hmin : 0 ≤ s.minSpawnInterval)
    (hmm : s.minSpawnInterval ≤ s.maxSpawnInterval) (h0 : 0 ≤ r) (h1 : r < 1)
    (hcalls : ∀ c ∈ calls, 0 ≤ c.rSpawn ∧ c.rSpawn < 1) :
    1 ≤ (ObstacleSpawner.updates (s.reset r) calls).gameSpeed ∧
    (ObstacleSpawner.updates (s.reset r) calls).gameSpeed ≤ 2 ∧
    (∃ next g, (ObstacleSpawner.updates (s.reset r) calls).nextSpawnTime = some next ∧
      1 ≤ g ∧ g ≤ (ObstacleSpawner.updates (s.reset r) calls).gameSpeed ∧
      s.minSpawnInterval / g ≤ next ∧ next ≤ s.maxSpawnInterval / g ∧
      s.minSpawnInterval / (ObstacleSpawner.updates (s.reset r) calls).gameSpeed ≤ next ∧
      next ≤ s.maxSpawnInterval) ∧
    ∀ c : ObstacleSpawner.Call, 0 ≤ c.rSpawn → c.rSpawn < 1 →
      ((ObstacleSpawner.updates (s.reset r) calls).update
        c.deltaTime c.gameTime c.rType c.rSpawn).1 ≠ none →
      ∃ next, ((ObstacleSpawner.updates (s.reset r) calls).update
          c.deltaTime c.gameTime c.rType c.rSpawn).2.nextSpawnTime = some next ∧
        s.minSpawnInterval / ((ObstacleSpawner.updates (s.reset r) calls).update
          c.deltaTime c.gameTime c.rType c.rSpawn).2.gameSpeed ≤ next ∧
        next ≤ s.maxSpawnInterval / ((ObstacleSpawner.updates (s.reset r) calls).update
          c.deltaTime c.gameTime c.rType c.rSpawn).2.gameSpeed := by
  obtain ⟨r1, r2, r3, r4, next0, r5, r6, r7⟩ := ObstacleSpawner.reset_interval s r hmm h0 h1
  obtain ⟨v1, v2, v3, v4, next, g, v5, v6, v7, v8, v9⟩ :=
    ObstacleSpawner.updates_keep_interval calls (s.reset r) (by rw [r1, r2]; exact hmm) hcalls
      (by rw [r3]) (by rw [r4, r3]; norm_num)
      ⟨next0, 1, r5, le_refl _, by rw [r4], by rw [r1]; exact r6, by rw [r2]; exact r7⟩
  rw [r1] at v1 v8
  rw [r2] at v2 v9
  have hmax : 0 ≤ s.maxSpawnInterval := le_trans hmin hmm
  have hg0 : (0 : ℚ) < g := by linarith
  have hs1 : 1 ≤ (ObstacleSpawner.updates (s.reset r) calls).gameSpeed := le_trans v6 v7
  have hs2 : (ObstacleSpawner.updates (s.reset r) calls).gameSpeed ≤ 2 := by
    rw [v4]
    exact min_le_right _ _
  refine ⟨hs1, hs2, ⟨next, g, v5, v6, v7, v8, v9, ?_, ?_⟩, ?_⟩
  · exact le_trans (div_le_div_of_nonneg_left hmin hg0 v7) v8
  · exact le_trans v9 (div_le_self hmax v6)
  · intro c hc0 hc1 hsome
    obtain ⟨_, _, _, _, _, u6⟩ := ObstacleSpawner.update_keeps_interval
      (ObstacleSpawner.updates (s.reset r) calls) c.deltaTime c.gameTime c.rType c.rSpawn
      (by rw [v1, v2]; exact hmm) hc0 hc1 v3 v4
      ⟨next, g, v5, v6, v7, by rw [v1]; exact v8, by rw [v2]; exact v9⟩
    obtain ⟨n2, w1, w2, w3⟩ := u6 hsome
    rw [v1] at w2
    rw [v2] at w3
    exact ⟨n2, w1, w2, w3⟩

/-- Witness for C22 (amended): a newly constructed spawner reset with the draw
0.9, then an `update(0, 30)` call: the speed 1.1 lies within [1, 2] and the
pending interval 2.85 s was drawn at a speed of at most 1.1. -/
theorem spawn_interval_of_draw_speed_witness :
    (0 : ℚ) ≤ ObstacleSpawner.new.minSpawnInterval ∧
    1 ≤ (ObstacleSpawner.updates (ObstacleSpawner.new.reset (9 / 10))
      [⟨0, 30, 0, 0⟩]).gameSpeed ∧
    (ObstacleSpawner.updates (ObstacleSpawner.new.reset (9 / 10))
      [⟨0, 30, 0, 0⟩]).gameSpeed ≤ 2 :=
  ⟨by norm_num [ObstacleSpawner.new],
    (spawn_interval_of_draw_speed ObstacleSpawner.new (9 / 10) [⟨0, 30, 0, 0⟩]
      (by norm_num [ObstacleSpawner.new]) (by norm_num [ObstacleSpawner.new])
      (by norm_num) (by norm_num) (by simp)).1,
    (spawn_interval_of_draw_speed ObstacleSpawner.new (9 / 10) [⟨0, 30, 0, 0⟩]
      (by norm_num [ObstacleSpawner.new]) (by norm_num [ObstacleSpawner.new])
      (by norm_num) (by norm_num) (by simp)).2.1⟩

namespace ObstacleSpawner

/-- The table `adjustProbabilities()` assigns at a level `≥ 1`: each weight
lies in [0, 1], and the five weights sum to at least 1.01 and at most 1.09. -/
theorem adjustProbabilities_total (s : ObstacleSpawner) (hL : 1 ≤ s.difficultyLevel) :
    (0 ≤ s.adjustProbabilities.obstacleProbabilities.cactus_small ∧
      s.adjustProbabilities.obstacleProbabilities.cactus_small ≤ 1) ∧
    (0 ≤ s.adjustProbabilities.obstacleProbabilities.cactus_large ∧
      s.adjustProbabilities.obstacleProbabilities.cactus_large ≤ 1) ∧
    (0 ≤ s.adjustProbabilities.obstacleProbabilities.cactus_double ∧
      s.adjustProbabilities.obstacleProbabilities.cactus_double ≤ 1) ∧
    (0 ≤ s.adjustProbabilities.obstacleProbabilities.bird_low ∧
      s.adjustProbabilities.obstacleProbabilities.bird_low ≤ 1) ∧
    (0 ≤ s.adjustProbabilities.obstacleProbabilities.bird_high ∧
      s.adjustProbabilities.obstacleProbabilities.bird_high ≤ 1) ∧
    101 / 100 ≤ s.adjustProbabilities.obstacleProbabilities.total ∧
    s.adjustProbabilities.obstacleProbabilities.total ≤ 109 / 100 := by
  have hLq : (1 : ℚ) ≤ (s.difficultyLevel : ℚ) := by exact_mod_cast hL
  simp only [adjustProbabilities, ObstacleProbabilities.total]
  generalize (s.difficultyLevel : ℚ) = L at hLq ⊢
  rcases le_total (L * (1 / 50)) (3 / 20) with hb | hb
  · rw [min_eq_left hb]
    have hs : max (2 / 5 - L * (1 / 50)) (1 / 5) = 2 / 5 - L * (1 / 50) :=
      max_eq_left (by linarith)
    have hh : min (3 / 100 + L * (1 / 50) * (2 / 5)) (1 / 10) = 3 / 100 + L * (1 / 50) * (2 / 5) :=
      min_eq_left (by linarith)
    have hd : min (1 / 5 + L * (1 / 100)) (3 / 10) = 1 / 5 + L * (1 / 100) :=
      min_eq_left (by linarith)
    rw [hs, hh, hd]
    rcases le_total (7 / 100 + L * (1 / 50) * (3 / 5)) (3 / 20) with hl | hl
    · rw [min_eq_left hl]
      refine ⟨⟨?_, ?_⟩, ⟨?_, ?_⟩, ⟨?_, ?_⟩, ⟨?_, ?_⟩, ⟨?_, ?_⟩, ?_, ?_⟩ <;> linarith
    · rw [min_eq_right hl]
      refine ⟨⟨?_, ?_⟩, ⟨?_, ?_⟩, ⟨?_, ?_⟩, ⟨?_, ?_⟩, ⟨?_, ?_⟩, ?_, ?_⟩ <;> linarith
  · rw [min_eq_right hb]
    have hs : max ((2 : ℚ) / 5 - 3 / 20) (1 / 5) = 1 / 4 := by norm_num
    have hl : min ((7 : ℚ) / 100 + 3 / 20 * (3 / 5)) (3 / 20) = 3 / 20 := by norm_num
    have hh : min ((3 : ℚ) / 100 + 3 / 20 * (2 / 5)) (1 / 10) = 9 / 100 := by norm_num
    rw [hs, hl, hh]
    rcases le_total (1 / 5 + L * (1 / 100)) (3 / 10) with hd | hd
    · rw [min_eq_left hd]
      refine ⟨⟨?_, ?_⟩, ⟨?_, ?_⟩, ⟨?_, ?_⟩, ⟨?_, ?_⟩, ⟨?_, ?_⟩, ?_, ?_⟩ <;> linarith
    · rw [min_eq_right hd]
      refine ⟨⟨?_, ?_⟩, ⟨?_, ?_⟩, ⟨?_, ?_⟩, ⟨?_, ?_⟩, ⟨?_, ?_⟩, ?_, ?_⟩ <;> norm_num

/-- From level 10 on, `adjustProbabilities()` assigns the capped table
0.25, 0.3, 0.3, 0.15, 0.09. -/
theorem adjustProbabilities_of_ten_le (s : ObstacleSpawner) (hL : 10 ≤ s.difficultyLevel) :
    s.adjustProbabilities.obstacleProbabilities =
      { cactus_small := 1 / 4
        cactus_large := 3 / 10
        cactus_double := 3 / 10
        bird_low := 3 / 20
        bird_high := 9 / 100 } := by
  have hLq : (10 : ℚ) ≤ (s.difficultyLevel : ℚ) := by exact_mod_cast hL
  have hb : min ((s.difficultyLevel : ℚ) * (1 / 50)) (3 / 20) = 3 / 20 :=
    min_eq_right (by linarith)
  have hd : min (1 / 5 + (s.difficultyLevel : ℚ) * (1 / 100)) (3 / 10) = 3 / 10 :=
    min_eq_right (by linarith)
  simp only [adjustProbabilities, hb, hd]
  norm_num

/-- With the capped table no draw below 1 selects `bird_high`: the first four
cumulative weights already reach 1. -/
theorem chooseObstacleType_capped (s : ObstacleSpawner) (r : ℚ) (hr : r < 1)
    (hp : s.obstacleProbabilities =
      { cactus_small := 1 / 4
        cactus_large := 3 / 10
        cactus_double := 3 / 10
        bird_low := 3 / 20
        bird_high := 9 / 100 }) :
    s.chooseObstacleType r ≠ ObstacleType.bird_high := by
  simp only [chooseObstacleType, hp]
  split_ifs with h1 h2 h3 h4 h5
  · exact ObstacleType.noConfusion
  · exact ObstacleType.noConfusion
  · exact ObstacleType.noConfusion
  · exact ObstacleType.noConfusion
  · exfalso
    apply h4
    norm_num
    linarith
  · exact ObstacleType.noConfusion

end ObstacleSpawner

/-- C23 (code defect): the table the constructor and `reset()` assign sums to
1.0, but the table `adjustProbabilities()` assigns at a level `≥ 1` does not:
each of its weights lies in [0, 1], and the five weights sum to at least 1.01
and at most 1.09, never to 1.0. -/
theorem adjusted_table_sums_above_one (s : ObstacleSpawner) (hL : 1 ≤ s.difficultyLevel) :
    ObstacleSpawner.initialProbabilities.total = 1 ∧
    ((0 ≤ s.adjustProbabilities.obstacleProbabilities.cactus_small ∧
      s.adjustProbabilities.obstacleProbabilities.cactus_small ≤ 1) ∧
    (0 ≤ s.adjustProbabilities.obstacleProbabilities.cactus_large ∧
      s.adjustProbabilities.obstacleProbabilities.cactus_large ≤ 1) ∧
    (0 ≤ s.adjustProbabilities.obstacleProbabilities.cactus_double ∧
      s.adjustProbabilities.obstacleProbabilities.cactus_double ≤ 1) ∧
    (0 ≤ s.adjustProbabilities.obstacleProbabilities.bird_low ∧
      s.adjustProbabilities.obstacleProbabilities.bird_low ≤ 1) ∧
    (0 ≤ s.adjustProbabilities.obstacleProbabilities.bird_high ∧
      s.adjustProbabilities.obstacleProbabilities.bird_high ≤ 1)) ∧
    101 / 100 ≤ s.adjustProbabilities.obstacleProbabilities.total ∧
    s.adjustProbabilities.obstacleProbabilities.total ≤ 109 / 100 ∧
    s.adjustProbabilities.obstacleProbabilities.total ≠ 1 := by
  obtain ⟨h1, h2, h3, h4, h5, h6, h7⟩ := ObstacleSpawner.adjustProbabilities_total s hL
  refine ⟨?_, ⟨h1, h2, h3, h4, h5⟩, h6, h7, ?_⟩
  · norm_num [ObstacleSpawner.initialProbabilities, ObstacleProbabilities.total]
  · intro h
    rw [h] at h6
    norm_num at h6

/-- Witness for C23: at level 2 the adjusted table is 0.36, 0.3, 0.22, 0.094,
0.046, which sums to 1.02. -/
theorem adjusted_table_sums_above_one_witness :
    (1 : ℤ) ≤ levelTwoSpawner.difficultyLevel ∧
    levelTwoSpawner.adjustProbabilities.obstacleProbabilities.total = 51 / 50 ∧
    levelTwoSpawner.adjustProbabilities.obstacleProbabilities.total ≠ 1 :=
  ⟨by decide,
    by norm_num [levelTwoSpawner, ObstacleSpawner.new, ObstacleSpawner.adjustProbabilities,
      ObstacleProbabilities.total],
    (adjusted_table_sums_above_one levelTwoSpawner (by decide)).2.2.2.2⟩

/-- C29 (code defect): once the game clock reaches 270 s the spawner is at
level 10 or above, where the table gives `bird_high` the weight 0.09 but the
first four cumulative weights already reach 1.0: no draw `r < 1` makes
`chooseObstacleType()` return `bird_high`. -/
theorem bird_high_unreachable (s : ObstacleSpawner) (gameTime r : ℚ)
    (hlev : s.difficultyLevel < ⌊gameTime / 30⌋ + 1) (ht : 270 ≤ gameTime) (hr : r < 1) :
    10 ≤ (s.updateDifficulty gameTime).difficultyLevel ∧
    (s.updateDifficulty gameTime).obstacleProbabilities.bird_high = 9 / 100 ∧
    (s.updateDifficulty gameTime).chooseObstacleType r ≠ ObstacleType.bird_high := by
  have hfl : 9 ≤ ⌊gameTime / 30⌋ := by
    rw [Int.le_floor]
    push_cast
    linarith
  have hupd : s.updateDifficulty gameTime =
      ObstacleSpawner.adjustProbabilities
        { s with
          difficultyLevel := ⌊gameTime / 30⌋ + 1
          gameSpeed := min (1 + (((⌊gameTime / 30⌋ + 1 : ℤ) : ℚ) - 1) * (1 / 10)) 2 } := by
    simp only [ObstacleSpawner.updateDifficulty, gt_iff_lt, hlev, if_true]
  have hten : (10 : ℤ) ≤ ⌊gameTime / 30⌋ + 1 := by omega
  have htable := ObstacleSpawner.adjustProbabilities_of_ten_le
    { s with
      difficultyLevel := ⌊gameTime / 30⌋ + 1
      gameSpeed := min (1 + (((⌊gameTime / 30⌋ + 1 : ℤ) : ℚ) - 1) * (1 / 10)) 2 } hten
  rw [hupd]
  refine ⟨hten, ?_, ObstacleSpawner.chooseObstacleType_capped _ r hr htable⟩
  rw [htable]

/-- Witness for C29: a spawner just reset, the clock at 270 s and the draw
0.99. -/
theorem bird_high_unreachable_witness :
    (ObstacleSpawner.new.reset 0).difficultyLevel < ⌊(270 : ℚ) / 30⌋ + 1 ∧
    ((ObstacleSpawner.new.reset 0).updateDifficulty 270).chooseObstacleType (99 / 100) ≠
      ObstacleType.bird_high :=
  ⟨by norm_num [ObstacleSpawner.reset, ObstacleSpawner.new],
    (bird_high_unreachable (ObstacleSpawner.new.reset 0) 270 (99 / 100)
      (by norm_num [ObstacleSpawner.reset, ObstacleSpawner.new]) (by norm_num)
      (by norm_num)).2.2⟩

/-! ## Theorems: screen bounds -/

namespace Physics

/-- The horizontal position and velocity after `constrainToBounds`. -/
theorem constrainToBounds_x (e : Entity) (w h : ℚ) :
    (constrainToBounds e w h).position.x =
      (if (if e.position.x < 0 then 0 else e.position.x) + e.dimensions.width > w then
        w - e.dimensions.width
      else if e.position.x < 0 then 0 else e.position.x) ∧
    (constrainToBounds e w h).velocity.x =
      (if (if e.position.x < 0 then 0 else e.position.x) + e.dimensions.width > w then
        min 0 (if e.position.x < 0 then max 0 e.velocity.x else e.velocity.x)
      else if e.position.x < 0 then max 0 e.velocity.x else e.velocity.x) ∧
    (constrainToBounds e w h).dimensions = e.dimensions := by
  simp only [constrainToBounds]
  split_ifs <;> exact ⟨rfl, rfl, rfl⟩

/-- The vertical position and velocity after `constrainToBounds`. -/
theorem constrainToBounds_y (e : Entity) (w h : ℚ) :
    (constrainToBounds e w h).position.y =
      (if (if e.position.y < 0 then 0 else e.position.y) + e.dimensions.height > h then
        h - e.dimensions.height
      else if e.position.y < 0 then 0 else e.position.y) ∧
    (constrainToBounds e w h).velocity.y =
      (if (if e.position.y < 0 then 0 else e.position.y) + e.dimensions.height > h then
        min 0 (if e.position.y < 0 then max 0 e.velocity.y else e.velocity.y)
      else if e.position.y < 0 then max 0 e.velocity.y else e.velocity.y) := by
  simp only [constrainToBounds]
  split_ifs <;> exact ⟨rfl, rfl⟩

/-- An entity inside the bounds is returned as it is. -/
theorem constrainToBounds_inside (e : Entity) (w h : ℚ)
    (hx0 : 0 ≤ e.position.x) (hx1 : e.position.x ≤ w - e.dimensions.width)
    (hy0 : 0 ≤ e.position.y) (hy1 : e.position.y ≤ h - e.dimensions.height) :
    constrainToBounds e w h = e := by
  have h1 : ¬ e.position.x < 0 := not_lt.mpr hx0
  have h2 : ¬ e.position.x + e.dimensions.width > w := by
    simp only [gt_iff_lt, not_lt]
    linarith
  have h3 : ¬ e.position.y < 0 := not_lt.mpr hy0
  have h4 : ¬ e.position.y + e.dimensions.height > h := by
    simp only [gt_iff_lt, not_lt]
    linarith
  simp only [constrainToBounds, h1, h2, h3, h4, if_false]

end Physics

/-- C24 (counterexample): a 10 by 10 entity at the origin on a 5 by 5 screen
is moved to `x = -5`, outside `0 ≤ x`. -/
theorem constrainToBounds_small_screen :
    0 < (Entity.new 0 0 10 10).dimensions.width ∧
    0 < (Entity.new 0 0 10 10).dimensions.height ∧
    (Physics.constrainToBounds (Entity.new 0 0 10 10) 5 5).position.x = -5 ∧
    (Physics.constrainToBounds (Entity.new 0 0 10 10) 5 5).position.x < 0 := by
  have hx := (Physics.constrainToBounds_x (Entity.new 0 0 10 10) 5 5).1
  have hval : (Physics.constrainToBounds (Entity.new 0 0 10 10) 5 5).position.x = -5 := by
    rw [hx]
    norm_num [Entity.new]
  refine ⟨by norm_num [Entity.new], by norm_num [Entity.new], hval, ?_⟩
  rw [hval]
  norm_num

/-- C24 (amended): on a screen at least as wide and as high as the entity,
`Physics.constrainToBounds` leaves the position within
`0 ≤ x ≤ w - width` and `0 ≤ y ≤ h - height`; an entity already inside those
bounds is left unchanged; after a clamp at the left or top boundary the
corresponding velocity component is `≥ 0`, after a clamp at the right or
bottom boundary it is `≤ 0`. -/
theorem constrainToBounds_clamps (e : Entity) (w h : ℚ)
    (hw : e.dimensions.width ≤ w) (hh : e.dimensions.height ≤ h) :
    (0 ≤ (Physics.constrainToBounds e w h).position.x ∧
      (Physics.constrainToBounds e w h).position.x ≤ w - e.dimensions.width ∧
      0 ≤ (Physics.constrainToBounds e w h).position.y ∧
      (Physics.constrainToBounds e w h).position.y ≤ h - e.dimensions.height) ∧
    (0 ≤ e.position.x → e.position.x ≤ w - e.dimensions.width →
      0 ≤ e.position.y → e.position.y ≤ h - e.dimensions.height →
      Physics.constrainToBounds e w h = e) ∧
    (e.position.x < 0 → 0 ≤ (Physics.constrainToBounds e w h).velocity.x) ∧
    (e.position.x + e.dimensions.width > w →
      (Physics.constrainToBounds e w h).velocity.x ≤ 0) ∧
    (e.position.y < 0 → 0 ≤ (Physics.constrainToBounds e w h).velocity.y) ∧
    (e.position.y + e.dimensions.height > h →
      (Physics.constrainToBounds e w h).velocity.y ≤ 0) := by
  obtain ⟨px, vx, _⟩ := Physics.constrainToBounds_x e w h
  obtain ⟨py, vy⟩ := Physics.constrainToBounds_y e w h
  refine ⟨⟨?_, ?_, ?_, ?_⟩, Physics.constrainToBounds_inside e w h, ?_, ?_, ?_, ?_⟩
  · rw [px]
    split_ifs <;> linarith
  · rw [px]
    split_ifs <;> linarith
  · rw [py]
    split_ifs <;> linarith
  · rw [py]
    split_ifs <;> linarith
  · intro hx
    have hcond : ¬ ((if e.position.x < 0 then 0 else e.position.x) + e.dimensions.width
        > w) := by
      rw [if_pos hx]
      simp only [zero_add, gt_iff_lt, not_lt]
      exact hw
    rw [vx, if_neg hcond, if_pos hx]
    exact le_max_left _ _
  · intro hx
    have hx0 : ¬ e.position.x < 0 := by
      intro hneg
      linarith
    rw [vx]
    simp only [hx0, if_false, hx, if_true]
    exact min_le_left _ _
  · intro hy
    have hcond : ¬ ((if e.position.y < 0 then 0 else e.position.y) + e.dimensions.height
        > h) := by
      rw [if_pos hy]
      simp only [zero_add, gt_iff_lt, not_lt]
      exact hh
    rw [vy, if_neg hcond, if_pos hy]
    exact le_max_left _ _
  · intro hy
    have hy0 : ¬ e.position.y < 0 := by
      intro hneg
      linarith
    rw [vy]
    simp only [hy0, if_false, hy, if_true]
    exact min_le_left _ _

/-- Witness for C24 (amended): a 10 by 10 entity at (-3, 595) on the 800 by
600 screen is clamped to (0, 590). -/
theorem constrainToBounds_clamps_witness :
    (Entity.new (-3) 595 10 10).dimensions.width ≤ 800 ∧
    (Entity.new (-3) 595 10 10).dimensions.height ≤ 600 ∧
    0 ≤ (Physics.constrainToBounds (Entity.new (-3) 595 10 10) 800 600).position.x ∧
    (Physics.constrainToBounds (Entity.new (-3) 595 10 10) 800 600).position.y ≤
      600 - (Entity.new (-3) 595 10 10).dimensions.height :=
  ⟨by norm_num [Entity.new], by norm_num [Entity.new],
    (constrainToBounds_clamps (Entity.new (-3) 595 10 10) 800 600
      (by norm_num [Entity.new]) (by norm_num [Entity.new])).1.1,
    (constrainToBounds_clamps (Entity.new (-3) 595 10 10) 800 600
      (by norm_num [Entity.new]) (by norm_num [Entity.new])).1.2.2.2⟩

/-! ## Theorems: the Bop-It high score and repeated responses -/

namespace BopIt

/-- The engine `endGameStored` returns is the one `endGame` returns. -/
theorem endGameStored_engine (s : GameEngine) (item : Option ℤ) :
    (s.endGameStored item).1 = s.endGame := by
  simp only [GameEngine.endGameStored, GameEngine.endGame, gt_iff_lt, decide_eq_true_eq]
  split_ifs <;> rfl

/-- The store after `endGameStored` and the flag of the write. -/
theorem endGameStored_store (s : GameEngine) (item : Option ℤ) :
    (s.endGameStored item).2 =
      if s.highScore < s.score then (some s.score, true) else (item, false) := by
  simp only [GameEngine.endGameStored, GameEngine.saveHighScore, gt_iff_lt, decide_eq_true_eq]
  split_ifs <;> rfl

/-- The state `processPlayerResponse` returns for a response that does not
match the outstanding command of a `PLAYING` engine. -/
theorem processPlayerResponse_wrong (s : GameEngine) (response : String) (now : ℤ)
    (hplay : s.state = GameState.PLAYING) (htruthy : s.currentCommand.isTruthy = true)
    (hwrong : Command.token (toUpperCase response) ≠ s.currentCommand) :
    s.processPlayerResponse response now =
      (false, GameEngine.endGame { s with gameTimer := none }) := by
  simp [GameEngine.processPlayerResponse, hplay, htruthy, hwrong]

end BopIt

/-- C25: `endGame` sets the state to `GAME_OVER`, leaves `score` unchanged and
sets `highScore` to `max highScore score`, so `highScore` never decreases;
`saveHighScore()` is called if and only if `score` is strictly greater than
the previous `highScore`, and then the stored item holds `score`, the new
`highScore`; otherwise the stored item is left as it was.  `endGame` is what
an expired timer (`handleTimeout`) and a wrong token (`processPlayerResponse`)
run. -/
theorem endGame_persists_high_score (s : BopIt.GameEngine) (item : Option ℤ) :
    (s.endGameStored item).1.state = BopIt.GameState.GAME_OVER ∧
    (s.endGameStored item).1.score = s.score ∧
    (s.endGameStored item).1.highScore = max s.highScore s.score ∧
    s.highScore ≤ (s.endGameStored item).1.highScore ∧
    ((s.endGameStored item).2.2 = true ↔ s.highScore < s.score) ∧
    (s.highScore < s.score →
      (s.endGameStored item).2.1 = some s.score ∧
      BopIt.GameEngine.getHighScore (s.endGameStored item).2.1 =
        (s.endGameStored item).1.highScore) ∧
    (¬ s.highScore < s.score → (s.endGameStored item).2.1 = item) ∧
    s.handleTimeout = (s.endGameStored item).1 ∧
    (∀ (response : String) (now : ℤ), s.state = BopIt.GameState.PLAYING →
      s.currentCommand.isTruthy = true →
      BopIt.Command.token (BopIt.toUpperCase response) ≠ s.currentCommand →
      s.processPlayerResponse response now =
        (false, (BopIt.GameEngine.endGameStored { s with gameTimer := none } item).1)) := by
  have hE := BopIt.endGameStored_engine s item
  have hS := BopIt.endGameStored_store s item
  have hhigh : (s.endGameStored item).1.highScore = max s.highScore s.score := by
    rw [hE]
    simp only [BopIt.GameEngine.endGame, gt_iff_lt]
    split_ifs with h
    · exact (max_eq_right (le_of_lt h)).symm
    · exact (max_eq_left (not_lt.mp h)).symm
  have hstate : (s.endGameStored item).1.state = BopIt.GameState.GAME_OVER := by
    rw [hE]
    simp only [BopIt.GameEngine.endGame]
    split_ifs <;> rfl
  have hscore : (s.endGameStored item).1.score = s.score := by
    rw [hE]
    simp only [BopIt.GameEngine.endGame]
    split_ifs <;> rfl
  refine ⟨hstate, hscore, hhigh, by rw [hhigh]; exact le_max_left _ _, ?_, ?_, ?_, ?_, ?_⟩
  · rw [hS]
    by_cases h : s.highScore < s.score
    · rw [if_pos h]
      exact ⟨fun _ => h, fun _ => rfl⟩
    · rw [if_neg h]
      exact ⟨fun hf => Bool.noConfusion hf, fun hlt => absurd hlt h⟩
  · intro h
    rw [hhigh, hS, if_pos h]
    exact ⟨rfl, (max_eq_right (le_of_lt h)).symm⟩
  · intro h
    rw [hS, if_neg h]
  · rw [hE]
    rfl
  · intro response now hplay htruthy hwrong
    rw [BopIt.processPlayerResponse_wrong s response now hplay htruthy hwrong,
      BopIt.endGameStored_engine]

/-- Witness for C25: a game that ends with a score of 30 over a stored high
score of 12 writes 30; the wrong token `twist` ends the game. -/
theorem endGame_persists_high_score_witness :
    bopScoredState.highScore < bopScoredState.score ∧
    (bopScoredState.endGameStored (some 12)).2.2 = true ∧
    (bopScoredState.endGameStored (some 12)).2.1 = some 30 ∧
    bopScoredState.processPlayerResponse "twist" 1005 =
      (false, (BopIt.GameEngine.endGameStored { bopScoredState with gameTimer := none }
        (some 12)).1) :=
  ⟨by decide,
    (endGame_persists_high_score bopScoredState (some 12)).2.2.2.2.1.mpr (by decide),
    ((endGame_persists_high_score bopScoredState (some 12)).2.2.2.2.2.1 (by decide)).1,
    (endGame_persists_high_score bopScoredState (some 12)).2.2.2.2.2.2.2.2 "twist" 1005 rfl
      (by decide) (by decide)⟩

namespace BopIt

/-- The fields of `bopAnswered`: the answered command is still outstanding. -/
theorem bopAnswered_fields :
    (bopIssuedState.processPlayerResponse "bop" 1005).1 = true ∧
    bopAnswered.state = GameState.PLAYING ∧
    bopAnswered.currentCommand = Command.token "BOP" ∧
    bopAnswered.gameTimer = none ∧
    bopAnswered.commandStartTime = 1000 ∧
    bopAnswered.responseTimeLimit = 3000 ∧
    bopAnswered.score = 30 ∧
    bopAnswered.round = 2 := by
  have h1 := processPlayerResponse_accept bopIssuedState "bop" "BOP" 1005 rfl rfl
    (by decide) (by decide)
  have hf : ⌊(((bopIssuedState.responseTimeLimit - (1005 - bopIssuedState.commandStartTime) : ℤ)
      : ℚ)) / 100⌋ = 29 := by
    show ⌊(((3000 - (1005 - 1000) : ℤ) : ℚ)) / 100⌋ = 29
    rw [Int.floor_eq_iff]
    push_cast
    constructor <;> norm_num
  have h2 : bopAnswered = GameEngine.updateResponseTime
      { bopIssuedState with
        gameTimer := none
        score := bopIssuedState.score + (1 + max 0 29)
        round := bopIssuedState.round + 1 } := by
    show (bopIssuedState.processPlayerResponse "bop" 1005).2 = _
    rw [h1, hf]
  refine ⟨by rw [h1], ?_, ?_, ?_, ?_, ?_, ?_, ?_⟩ <;> rw [h2] <;> rfl

end BopIt

/-- C27 (code defect): `processPlayerResponse` never clears `currentCommand`.
After the response `bop` to the command `BOP` was accepted (score 30, round
2) and before `generateNextCommand` runs, the command is still outstanding
and the engine is still `PLAYING`: a second `bop` 5 ms later returns true
again and raises the score to 60 and the round to 3. -/
theorem correct_response_scored_twice :
    (bopIssuedState.processPlayerResponse "bop" 1005).1 = true ∧
    bopAnswered.score = 30 ∧
    bopAnswered.round = 2 ∧
    bopAnswered.currentCommand = BopIt.Command.token "BOP" ∧
    (bopAnswered.processPlayerResponse "bop" 1010).1 = true ∧
    (bopAnswered.processPlayerResponse "bop" 1010).2.score = 60 ∧
    (bopAnswered.processPlayerResponse "bop" 1010).2.round = 3 ∧
    (bopAnswered.processPlayerResponse "bop" 1010).2.state = BopIt.GameState.PLAYING := by
  obtain ⟨a1, a2, a3, _, a5, a6, a7, a8⟩ := BopIt.bopAnswered_fields
  have h1 := BopIt.processPlayerResponse_accept bopAnswered "bop" "BOP" 1010 a2 a3
    (by decide) (by decide)
  have hf : ⌊(((bopAnswered.responseTimeLimit - (1010 - bopAnswered.commandStartTime) : ℤ)
      : ℚ)) / 100⌋ = 29 := by
    rw [a5, a6, Int.floor_eq_iff]
    push_cast
    constructor <;> norm_num
  rw [h1, hf]
  refine ⟨a1, a7, a8, a3, rfl, ?_, ?_, ?_⟩
  · show bopAnswered.score + (1 + max 0 29) = 60
    rw [a7]
    rfl
  · show bopAnswered.round + 1 = 3
    rw [a8]
    rfl
  · show bopAnswered.state = _
    exact a2

/-! ## Theorems: the scrolling ground -/

/-- Gravity leaves the position, the horizontal velocity, the size and the
air-resistance flag alone. -/
theorem Physics.applyGravity_horizontal (e : Entity) (dt : ℚ) :
    (Physics.applyGravity e dt).position = e.position ∧
    (Physics.applyGravity e dt).velocity.x = e.velocity.x ∧
    (Physics.applyGravity e dt).dimensions = e.dimensions ∧
    (Physics.applyGravity e dt).hasAirResistance = e.hasAirResistance := by
  simp only [Physics.applyGravity]
  split_ifs <;> exact ⟨rfl, rfl, rfl, rfl⟩

/-- The base `updateAnimation` leaves the position, the velocity and the size
alone. -/
theorem Entity.updateAnimation_motion (e : Entity) (dt : ℚ) :
    (e.updateAnimation dt).position = e.position ∧
    (e.updateAnimation dt).velocity = e.velocity ∧
    (e.updateAnimation dt).dimensions = e.dimensions := by
  simp only [Entity.updateAnimation]
  split_ifs <;> exact ⟨rfl, rfl, rfl⟩

namespace Ground

/-- The override `customUpdate` of `Ground` in closed form: it adds
`velocity.x * deltaTime` to `position.x` and wraps; the velocity, the size and
the scroll speed stay. -/
theorem customUpdate_eq (g : Ground) (dt : ℚ) :
    (g.customUpdate dt).position.x =
      (if g.position.x + g.velocity.x * dt ≤ -g.dimensions.width then 0
        else g.position.x + g.velocity.x * dt) ∧
    (g.customUpdate dt).velocity = g.velocity ∧
    (g.customUpdate dt).scrollSpeed = g.scrollSpeed ∧
    (g.customUpdate dt).dimensions = g.dimensions := by
  simp only [customUpdate]
  split_ifs <;> exact ⟨rfl, rfl, rfl, rfl⟩

/-- The ground right before its `customUpdate` runs inside `update`: the
steps of `Entity.update` have already added `velocity.x * deltaTime` once. -/
theorem update_eq (pow : ℚ → ℚ → ℚ) (g : Ground) (dt : ℚ) (hair : g.hasAirResistance = false) :
    ∃ g5 : Ground, g.update pow dt = g5.customUpdate dt ∧
      g5.position.x = g.position.x + g.velocity.x * dt ∧
      g5.velocity.x = g.velocity.x ∧
      g5.dimensions = g.dimensions ∧
      g5.scrollSpeed = g.scrollSpeed := by
  obtain ⟨a1, a2, a3, a4⟩ := Physics.applyGravity_horizontal
    { g.toEntity with age := g.age + dt } dt
  by_cases hgrav : g.hasGravity = true
  · have hair2 : (Physics.applyGravity { g.toEntity with age := g.age + dt } dt).hasAirResistance
        = false := by
      rw [a4]
      exact hair
    obtain ⟨c1, c2, c3⟩ := Entity.updateAnimation_motion
      (Physics.updatePosition (Physics.applyGravity { g.toEntity with age := g.age + dt } dt) dt) dt
    refine ⟨{ g with toEntity := (Entity.updateAnimation
      (Physics.updatePosition (Physics.applyGravity { g.toEntity with age := g.age + dt } dt) dt)
      dt) }, ?_, ?_, ?_, ?_, rfl⟩
    · simp only [update]
      rw [if_pos hgrav, if_neg (by rw [hair2]; exact Bool.false_ne_true)]
    · show (Entity.updateAnimation _ dt).position.x = _
      rw [c1]
      show (Physics.applyGravity _ dt).position.x + (Physics.applyGravity _ dt).velocity.x * dt = _
      rw [a1, a2]
    · show (Entity.updateAnimation _ dt).velocity.x = _
      rw [c2]
      exact a2
    · show (Entity.updateAnimation _ dt).dimensions = _
      rw [c3]
      exact a3
  · obtain ⟨c1, c2, c3⟩ := Entity.updateAnimation_motion
      (Physics.updatePosition { g.toEntity with age := g.age + dt } dt) dt
    refine ⟨{ g with toEntity := (Entity.updateAnimation
      (Physics.updatePosition { g.toEntity with age := g.age + dt } dt) dt) }, ?_, ?_, ?_, ?_, rfl⟩
    · simp only [update]
      rw [if_neg hgrav, if_neg (by rw [hair]; exact Bool.false_ne_true)]
    · show (Entity.updateAnimation _ dt).position.x = _
      rw [c1]
      rfl
    · show (Entity.updateAnimation _ dt).velocity.x = _
      rw [c2]
      rfl
    · show (Entity.updateAnimation _ dt).dimensions = _
      rw [c3]
      rfl

end Ground

/-- C28 (code defect): one `update(dt)` call moves a `Ground` without air
resistance by `2 * velocity.x * dt`, not by `velocity.x * dt`:
`Physics.updatePosition` adds `velocity.x * dt` inside `Entity.update`, and
the override `customUpdate` adds it a second time before the wrap test.  The
horizontal velocity and the scroll speed are unchanged. -/
theorem ground_update_moves_twice (pow : ℚ → ℚ → ℚ) (g : Ground) (dt : ℚ)
    (hair : g.hasAirResistance = false) :
    (g.update pow dt).position.x =
      (if g.position.x + 2 * (g.velocity.x * dt) ≤ -g.dimensions.width then 0
        else g.position.x + 2 * (g.velocity.x * dt)) ∧
    (g.update pow dt).velocity.x = g.velocity.x ∧
    (g.update pow dt).scrollSpeed = g.scrollSpeed := by
  obtain ⟨g5, h1, h2, h3, h4, h5⟩ := Ground.update_eq pow g dt hair
  obtain ⟨k1, k2, k3, _⟩ := Ground.customUpdate_eq g5 dt
  rw [h1]
  refine ⟨?_, by rw [k2, h3], by rw [k3, h5]⟩
  rw [k1, h2, h3, h4]
  have hsum : g.position.x + g.velocity.x * dt + g.velocity.x * dt =
      g.position.x + 2 * (g.velocity.x * dt) := by ring
  rw [hsum]

/-- Witness for C28: a newly constructed ground (`velocity.x = -200`) and
`dt = 0.01`: `position.x` goes from 0 to -4, twice `-200 * 0.01`. -/
theorem ground_update_moves_twice_witness :
    (Ground.new 0 460).hasAirResistance = false ∧
    (Ground.new 0 460).position.x + (Ground.new 0 460).velocity.x * (1 / 100) = -2 ∧
    ((Ground.new 0 460).update (fun _ _ => 1) (1 / 100)).position.x = -4 :=
  ⟨rfl, by norm_num [Ground.new, Entity.new],
    by
      rw [(ground_update_moves_twice (fun _ _ => 1) (Ground.new 0 460) (1 / 100) rfl).1]
      norm_num [Ground.new, Entity.new]⟩

/-! ## Theorems: the ground speed of Dino-Run -/

/-- The inherited `update` of a `Ground` leaves its scroll speed alone. -/
theorem Ground.update_scrollSpeed (pow : ℚ → ℚ → ℚ) (g : Ground) (dt : ℚ) :
    (g.update pow dt).scrollSpeed = g.scrollSpeed := by
  simp only [Ground.update, Ground.customUpdate]
  split_ifs <;> rfl

namespace DinoRun

/-- The ground and the base scroll speed after `updateDifficulty()`. -/
theorem updateDifficulty_ground (s : DinoRun) :
    (updateDifficulty s).baseScrollSpeed = s.baseScrollSpeed ∧
    (updateDifficulty s).ground.scrollSpeed =
      if 1 + (⌊s.gameTime / 30⌋ : ℚ) * s.difficultyIncrease > s.gameSpeed then
        -s.baseScrollSpeed * min (1 + (⌊s.gameTime / 30⌋ : ℚ) * s.difficultyIncrease) (5 / 2)
      else s.ground.scrollSpeed := by
  simp only [updateDifficulty]
  split_ifs <;> exact ⟨rfl, rfl⟩

/-- The spawn step leaves the ground and the base scroll speed alone. -/
theorem spawnStep_ground (s : DinoRun) (dt rType rSpawn : ℚ) :
    (spawnStep s dt rType rSpawn).baseScrollSpeed = s.baseScrollSpeed ∧
    (spawnStep s dt rType rSpawn).ground = s.ground := by
  simp only [spawnStep]
  split <;> exact ⟨rfl, rfl⟩

/-- `updateScore()` leaves the ground and the base scroll speed alone. -/
theorem updateScore_ground (s : DinoRun) :
    (updateScore s).baseScrollSpeed = s.baseScrollSpeed ∧
    (updateScore s).ground = s.ground := by
  simp only [updateScore]
  split_ifs <;> exact ⟨rfl, rfl⟩

/-- The base scroll speed and the scroll speed of the ground after lines
203-226: only `updateDifficulty()` assigns the latter. -/
theorem advance_ground (pow : ℚ → ℚ → ℚ) (s : DinoRun) (dt rType rSpawn : ℚ) :
    (advance pow s dt rType rSpawn).baseScrollSpeed = s.baseScrollSpeed ∧
    (advance pow s dt rType rSpawn).ground.scrollSpeed =
      if 1 + (⌊(s.gameTime + dt) / 30⌋ : ℚ) * s.difficultyIncrease > s.gameSpeed then
        -s.baseScrollSpeed *
          min (1 + (⌊(s.gameTime + dt) / 30⌋ : ℚ) * s.difficultyIncrease) (5 / 2)
      else s.ground.scrollSpeed := by
  obtain ⟨s2, hs2⟩ : ∃ x : DinoRun, x = { s with
      gameTime := s.gameTime + dt
      distance := s.distance + s.baseScrollSpeed * s.gameSpeed * dt / 100 } := ⟨_, rfl⟩
  have hA : advance pow s dt rType rSpawn =
      cleanupObstacles (updateScore (checkCollisions
        (superUpdate pow (spawnStep (updateDifficulty s2) dt rType rSpawn) dt))) := by
    rw [hs2]
    rfl
  obtain ⟨d1, d2⟩ := updateDifficulty_ground s2
  obtain ⟨p1, p2⟩ := spawnStep_ground (updateDifficulty s2) dt rType rSpawn
  obtain ⟨u1, u2⟩ := updateScore_ground (checkCollisions
    (superUpdate pow (spawnStep (updateDifficulty s2) dt rType rSpawn) dt))
  rw [hA]
  constructor
  · show (updateScore _).baseScrollSpeed = _
    rw [u1]
    show (spawnStep (updateDifficulty s2) dt rType rSpawn).baseScrollSpeed = _
    rw [p1, d1, hs2]
  · show (updateScore _).ground.scrollSpeed = _
    rw [u2]
    show ((spawnStep (updateDifficulty s2) dt rType rSpawn).ground.update pow dt).scrollSpeed = _
    rw [Ground.update_scrollSpeed, p2, d2, hs2]

/-- The base scroll speed and the scroll speed of the ground after one
`update` while playing. -/
theorem update_ground (pow : ℚ → ℚ → ℚ) (s : DinoRun) (dt rType rSpawn : ℚ)
    (h : s.gameState = DinoGameState.playing) :
    (update pow s dt rType rSpawn).baseScrollSpeed = s.baseScrollSpeed ∧
    (update pow s dt rType rSpawn).ground.scrollSpeed =
      if 1 + (⌊(s.gameTime + dt) / 30⌋ : ℚ) * s.difficultyIncrease > s.gameSpeed then
        -s.baseScrollSpeed *
          min (1 + (⌊(s.gameTime + dt) / 30⌋ : ℚ) * s.difficultyIncrease) (5 / 2)
      else s.ground.scrollSpeed := by
  obtain ⟨h1, h2⟩ := advance_ground pow s dt rType rSpawn
  simp only [update, h, ne_eq, not_true_eq_false, if_false]
  by_cases hg : (advance pow s dt rType rSpawn).dino.isGameOver = true
  · rw [if_pos hg]
    exact ⟨h1, h2⟩
  · rw [if_neg hg]
    exact ⟨h1, h2⟩

/-- `restartGame()` sets the multiplier to 1 and leaves the scroll speed of
the ground and the base scroll speed as they were. -/
theorem restartGame_ground (s : DinoRun) (r : ℚ) :
    (restartGame s r).gameSpeed = 1 ∧
    (restartGame s r).baseScrollSpeed = s.baseScrollSpeed ∧
    (restartGame s r).ground.scrollSpeed = s.ground.scrollSpeed :=
  ⟨rfl, rfl, rfl⟩

/-- The fields of a newly constructed game after `startGame()` at clock value
0: the game is `playing` at `gameTime = 0` with the multiplier 1. -/
theorem startGame_new_fields (pow : ℚ → ℚ → ℚ) (rType rSpawn : ℚ) :
    (startGame pow (new 0) 0 rType rSpawn).gameState = DinoGameState.playing ∧
    (startGame pow (new 0) 0 rType rSpawn).gameTime = 0 ∧
    (startGame pow (new 0) 0 rType rSpawn).gameSpeed = 1 ∧
    (startGame pow (new 0) 0 rType rSpawn).difficultyIncrease = 1 / 20 ∧
    (startGame pow (new 0) 0 rType rSpawn).baseScrollSpeed = 200 := by
  obtain ⟨q1, _, q3, _⟩ := startGame_of_quiet pow (new 0) 0 rType rSpawn (le_refl _) rfl rfl rfl
    rfl (by norm_num [new]) rfl rfl rfl (fun t ht => by cases ht) (le_refl _)
    (by norm_num [new, Dino.new])
  have hstart : startGame pow (new 0) 0 rType rSpawn =
      start pow { new 0 with gameState := DinoGameState.playing, showInstructions := false }
        0 rType rSpawn := rfl
  have htime : (startGame pow (new 0) 0 rType rSpawn).gameTime = 0 := by
    rw [hstart, start_eq]
    rw [(update_clock pow _ _ rType rSpawn rfl).1]
    norm_num [new]
  refine ⟨q1, htime, q3, ?_, ?_⟩
  · rw [hstart, start_eq]
    exact (update_clock pow _ _ rType rSpawn rfl).2.1
  · rw [hstart, start_eq]
    exact (update_ground pow _ _ rType rSpawn rfl).1

/-- A run handles its calls one at a time, in order. -/
theorem run_cons (pow : ℚ → ℚ → ℚ) (s : DinoRun) (op : Op) (ops : List Op) :
    run pow s (op :: ops) = run pow (step pow s op) ops := rfl

/-- A run of no call leaves the game as it is. -/
theorem run_nil (pow : ℚ → ℚ → ℚ) (s : DinoRun) : run pow s [] = s := rfl

end DinoRun

/-- C26 (code defect): `restartGame()` resets `gameSpeed` to 1.0 but does not
call `ground.updateSpeed`.  A newly constructed game is started, one `update`
takes the clock to 30 s (the multiplier becomes 1.05 and the ground scrolls at
-210), then `restartGame()` runs: the state has `gameSpeed = 1` and
`baseScrollSpeed = 200` while the ground still scrolls at -210, not at
`-baseScrollSpeed * gameSpeed = -200`. -/
theorem restartGame_keeps_ground_speed (pow : ℚ → ℚ → ℚ) :
    (DinoRun.run pow (DinoRun.new 0)
      [DinoRun.Op.startGame 0 0 0, DinoRun.Op.update 30 0 0]).ground.scrollSpeed =
      -(DinoRun.run pow (DinoRun.new 0)
        [DinoRun.Op.startGame 0 0 0, DinoRun.Op.update 30 0 0]).baseScrollSpeed *
      (DinoRun.run pow (DinoRun.new 0)
        [DinoRun.Op.startGame 0 0 0, DinoRun.Op.update 30 0 0]).gameSpeed ∧
    (DinoRun.run pow (DinoRun.new 0) [DinoRun.Op.startGame 0 0 0, DinoRun.Op.update 30 0 0,
      DinoRun.Op.restartGame 0]).gameSpeed = 1 ∧
    (DinoRun.run pow (DinoRun.new 0) [DinoRun.Op.startGame 0 0 0, DinoRun.Op.update 30 0 0,
      DinoRun.Op.restartGame 0]).baseScrollSpeed = 200 ∧
    (DinoRun.run pow (DinoRun.new 0) [DinoRun.Op.startGame 0 0 0, DinoRun.Op.update 30 0 0,
      DinoRun.Op.restartGame 0]).ground.scrollSpeed = -210 ∧
    (DinoRun.run pow (DinoRun.new 0) [DinoRun.Op.startGame 0 0 0, DinoRun.Op.update 30 0 0,
      DinoRun.Op.restartGame 0]).ground.scrollSpeed ≠
      -(DinoRun.run pow (DinoRun.new 0) [DinoRun.Op.startGame 0 0 0, DinoRun.Op.update 30 0 0,
        DinoRun.Op.restartGame 0]).baseScrollSpeed *
      (DinoRun.run pow (DinoRun.new 0) [DinoRun.Op.startGame 0 0 0, DinoRun.Op.update 30 0 0,
        DinoRun.Op.restartGame 0]).gameSpeed := by
  have hrun2 : DinoRun.run pow (DinoRun.new 0)
      [DinoRun.Op.startGame 0 0 0, DinoRun.Op.update 30 0 0] =
      DinoRun.update pow (DinoRun.startGame pow (DinoRun.new 0) 0 0 0) 30 0 0 := by
    rw [DinoRun.run_cons, DinoRun.run_cons, DinoRun.run_nil]
    simp only [DinoRun.step]
  have hrun3 : DinoRun.run pow (DinoRun.new 0) [DinoRun.Op.startGame 0 0 0,
      DinoRun.Op.update 30 0 0, DinoRun.Op.restartGame 0] =
      DinoRun.restartGame
        (DinoRun.update pow (DinoRun.startGame pow (DinoRun.new 0) 0 0 0) 30 0 0) 0 := by
    rw [DinoRun.run_cons, DinoRun.run_cons, DinoRun.run_cons, DinoRun.run_nil]
    simp only [DinoRun.step]
  rw [hrun2, hrun3]
  obtain ⟨a1, a2, a3, a4, a5⟩ := DinoRun.startGame_new_fields pow 0 0
  generalize DinoRun.startGame pow (DinoRun.new 0) 0 0 0 = s1 at a1 a2 a3 a4 a5 ⊢
  obtain ⟨b1, b2⟩ := DinoRun.update_ground pow s1 30 0 0 a1
  obtain ⟨_, _, c3⟩ := DinoRun.update_clock pow s1 30 0 0 a1
  have hfl : ⌊((0 : ℚ) + 30) / 30⌋ = 1 := by norm_num
  rw [a2, a3, a4, hfl] at c3
  rw [a2, a3, a4, a5, hfl] at b2
  rw [a5] at b1
  have hspeed : (DinoRun.update pow s1 30 0 0).gameSpeed = 21 / 20 := by
    rw [c3]
    norm_num
  have hground : (DinoRun.update pow s1 30 0 0).ground.scrollSpeed = -210 := by
    rw [b2]
    norm_num
  obtain ⟨r1, r2, r3⟩ := DinoRun.restartGame_ground (DinoRun.update pow s1 30 0 0) 0
  rw [r1, r2, r3, b1, hground, hspeed]
  norm_num

/-! ## Theorems: the phase-based Dino-Run -/

namespace DinoRunPhase

/-- The collision loop either finds no hit and leaves the strikes and the
activity flag alone, or counts exactly one strike and clears the flag when that
strike reaches `maxStrikes`. -/
theorem collide_cases (dino : DinoEntity) (m k : ℤ) (a : Bool) (l : List Obstacle) :
    ((collide dino m k a l).2.1 = k ∧ (collide dino m k a l).2.2 = a) ∨
    ((collide dino m k a l).2.1 = k + 1 ∧
      (collide dino m k a l).2.2 = (if k + 1 ≥ m then false else a)) := by
  induction l with
  | nil => exact Or.inl ⟨rfl, rfl⟩
  | cons o rest ih =>
    by_cases h : isColliding dino o = true
    · right
      simp only [collide, h, if_true, and_self]
    · simp only [collide, h, Bool.false_eq_true, if_false]
      exact ih

/-- The Dino after a `GAME_UPDATE` is at or above the ground line. -/
theorem gameUpdate_dino_y (s : DinoRunState) (now : ℤ)
    (hy : s.dino.y ≤ GROUND_Y - DINO_HEIGHT) :
    (gameUpdate s now).dino.y ≤ GROUND_Y - DINO_HEIGHT := by
  by_cases ha : s.isGameActive = true
  · simp only [gameUpdate, ha, Bool.not_true, Bool.false_eq_true, if_false]
    split_ifs with h
    · exact le_refl _
    · exact le_of_lt (not_le.mp h)
  · simp only [gameUpdate, ha, Bool.not_false, Bool.not_eq_true] at *
    simp only [ha, Bool.not_false, if_true]
    exact hy

end DinoRunPhase

namespace DinoRunPhase

/-- The strikes and the activity flag after a `GAME_UPDATE`: left alone, or
exactly one strike more, with the flag cleared when that strike reaches
`maxStrikes`. -/
theorem gameUpdate_strikes (s : DinoRunState) (now : ℤ) :
    (gameUpdate s now).maxStrikes = s.maxStrikes ∧
    (((gameUpdate s now).strikes = s.strikes ∧
        (gameUpdate s now).isGameActive = s.isGameActive) ∨
      (s.isGameActive = true ∧ (gameUpdate s now).strikes = s.strikes + 1 ∧
        (gameUpdate s now).isGameActive =
          (if s.strikes + 1 ≥ s.maxStrikes then false else s.isGameActive))) := by
  by_cases ha : s.isGameActive = true
  · simp only [gameUpdate, ha, Bool.not_true, Bool.false_eq_true, if_false, true_and]
    exact collide_cases _ s.maxStrikes s.strikes true _
  · have hf : s.isGameActive = false := by simpa using ha
    have hsame : gameUpdate s now = s := by
      simp only [gameUpdate, hf, Bool.not_false, if_true]
    rw [hsame]
    exact ⟨rfl, Or.inl ⟨rfl, rfl⟩⟩

/-- Every action keeps the invariant of the phase: `maxStrikes = 3`, the
strikes lie between 0 and `maxStrikes`, an active game has fewer strikes than
`maxStrikes`, and the Dino is at or above the ground line. -/
theorem onAction_keeps_range (s : DinoRunState) (action : Action) (now : ℤ)
    (hm : s.maxStrikes = 3) (h0 : 0 ≤ s.strikes) (h1 : s.strikes ≤ s.maxStrikes)
    (ha : s.isGameActive = true → s.strikes < s.maxStrikes)
    (hy : s.dino.y ≤ GROUND_Y - DINO_HEIGHT) :
    (onAction s action now).maxStrikes = 3 ∧
    0 ≤ (onAction s action now).strikes ∧
    (onAction s action now).strikes ≤ (onAction s action now).maxStrikes ∧
    ((onAction s action now).isGameActive = true →
      (onAction s action now).strikes < (onAction s action now).maxStrikes) ∧
    (onAction s action now).dino.y ≤ GROUND_Y - DINO_HEIGHT := by
  cases action with
  | START_GAME =>
    refine ⟨hm, le_refl _, ?_, ?_, le_refl _⟩
    · show (0 : ℤ) ≤ s.maxStrikes
      rw [hm]
      norm_num
    · intro _
      show (0 : ℤ) < s.maxStrikes
      rw [hm]
      norm_num
  | PLAYER_JUMP playerId =>
    simp only [onAction]
    split_ifs
    · exact ⟨hm, h0, h1, ha, hy⟩
    · exact ⟨hm, h0, h1, ha, hy⟩
  | GAME_UPDATE =>
    obtain ⟨g1, g2⟩ := gameUpdate_strikes s now
    have gy := gameUpdate_dino_y s now hy
    show (gameUpdate s now).maxStrikes = 3 ∧ 0 ≤ (gameUpdate s now).strikes ∧
      (gameUpdate s now).strikes ≤ (gameUpdate s now).maxStrikes ∧
      ((gameUpdate s now).isGameActive = true →
        (gameUpdate s now).strikes < (gameUpdate s now).maxStrikes) ∧
      (gameUpdate s now).dino.y ≤ GROUND_Y - DINO_HEIGHT
    rw [g1]
    rcases g2 with ⟨e1, e2⟩ | ⟨hact, e1, e2⟩
    · rw [e1, e2]
      exact ⟨hm, h0, h1, ha, gy⟩
    · have hlt := ha hact
      rw [e1, e2]
      refine ⟨hm, by omega, by omega, ?_, gy⟩
      intro h
      by_cases hge : s.strikes + 1 ≥ s.maxStrikes
      · rw [if_pos hge] at h
        exact Bool.noConfusion h
      · omega
  | RESET_GAME =>
    refine ⟨hm, le_refl _, ?_, ?_, le_refl _⟩
    · show (0 : ℤ) ≤ s.maxStrikes
      rw [hm]
      norm_num
    · intro h
      exact Bool.noConfusion h
  | other => exact ⟨hm, h0, h1, ha, hy⟩

/-- The invariant of the phase along a run of actions from any state that
satisfies it. -/
theorem foldl_keeps_range (actions : List (Action × ℤ)) :
    ∀ s : DinoRunState, s.maxStrikes = 3 → 0 ≤ s.strikes → s.strikes ≤ s.maxStrikes →
      (s.isGameActive = true → s.strikes < s.maxStrikes) →
      s.dino.y ≤ GROUND_Y - DINO_HEIGHT →
      (actions.foldl (fun st a => onAction st a.1 a.2) s).maxStrikes = 3 ∧
      0 ≤ (actions.foldl (fun st a => onAction st a.1 a.2) s).strikes ∧
      (actions.foldl (fun st a => onAction st a.1 a.2) s).strikes ≤
        (actions.foldl (fun st a => onAction st a.1 a.2) s).maxStrikes ∧
      ((actions.foldl (fun st a => onAction st a.1 a.2) s).isGameActive = true →
        (actions.foldl (fun st a => onAction st a.1 a.2) s).strikes <
          (actions.foldl (fun st a => onAction st a.1 a.2) s).maxStrikes) ∧
      (actions.foldl (fun st a => onAction st a.1 a.2) s).dino.y ≤ GROUND_Y - DINO_HEIGHT := by
  induction actions with
  | nil => intro s hm h0 h1 ha hy; exact ⟨hm, h0, h1, ha, hy⟩
  | cons a rest ih =>
    intro s hm h0 h1 ha hy
    obtain ⟨k1, k2, k3, k4, k5⟩ := onAction_keeps_range s a.1 a.2 hm h0 h1 ha hy
    exact ih (onAction s a.1 a.2) k1 k2 k3 k4 k5

end DinoRunPhase

/-- C30: every state of the phase-based Dino-Run reachable from `onEnter`
through any sequence of actions has `maxStrikes = 3` and
`0 ≤ strikes ≤ maxStrikes`; if the game is active then `strikes < maxStrikes`;
the Dino's `y` never exceeds `GROUND_Y - DINO_HEIGHT`; and a single
`GAME_UPDATE` never lowers `strikes` and raises it by at most 1. -/
theorem phase_strikes_in_range (actions : List (DinoRunPhase.Action × ℤ)) :
    (DinoRunPhase.run actions).maxStrikes = 3 ∧
    0 ≤ (DinoRunPhase.run actions).strikes ∧
    (DinoRunPhase.run actions).strikes ≤ (DinoRunPhase.run actions).maxStrikes ∧
    ((DinoRunPhase.run actions).isGameActive = true →
      (DinoRunPhase.run actions).strikes < (DinoRunPhase.run actions).maxStrikes) ∧
    (DinoRunPhase.run actions).dino.y ≤ DinoRunPhase.GROUND_Y - DinoRunPhase.DINO_HEIGHT ∧
    ∀ now : ℤ,
      (DinoRunPhase.run actions).strikes ≤
        (DinoRunPhase.onAction (DinoRunPhase.run actions)
          DinoRunPhase.Action.GAME_UPDATE now).strikes ∧
      (DinoRunPhase.onAction (DinoRunPhase.run actions)
          DinoRunPhase.Action.GAME_UPDATE now).strikes ≤
        (DinoRunPhase.run actions).strikes + 1 := by
  obtain ⟨k1, k2, k3, k4, k5⟩ := DinoRunPhase.foldl_keeps_range actions DinoRunPhase.onEnter
    rfl (le_refl _) (by decide) (fun h => Bool.noConfusion h) (le_refl _)
  refine ⟨k1, k2, k3, k4, k5, ?_⟩
  intro now
  obtain ⟨_, g2⟩ := DinoRunPhase.gameUpdate_strikes (DinoRunPhase.run actions) now
  show (DinoRunPhase.run actions).strikes ≤
      (DinoRunPhase.gameUpdate (DinoRunPhase.run actions) now).strikes ∧
    (DinoRunPhase.gameUpdate (DinoRunPhase.run actions) now).strikes ≤
      (DinoRunPhase.run actions).strikes + 1
  rcases g2 with ⟨e1, _⟩ | ⟨_, e1, _⟩ <;> rw [e1] <;> omega

/-- Witness for C30: after `START_GAME` the game is active, and it has fewer
than `maxStrikes` strikes. -/
theorem phase_strikes_in_range_witness :
    (DinoRunPhase.run [(DinoRunPhase.Action.START_GAME, 0)]).isGameActive = true ∧
    (DinoRunPhase.run [(DinoRunPhase.Action.START_GAME, 0)]).strikes <
      (DinoRunPhase.run [(DinoRunPhase.Action.START_GAME, 0)]).maxStrikes :=
  ⟨rfl, (phase_strikes_in_range [(DinoRunPhase.Action.START_GAME, 0)]).2.2.2.1 rfl⟩

/-! ## Theorems: the speed multiplier after `startGame()` -/

namespace DinoRun

/-- The spawner after the spawn step is the spawner after its `update`. -/
theorem spawnStep_spawner (s : DinoRun) (dt rType rSpawn : ℚ) :
    (spawnStep s dt rType rSpawn).obstacleSpawner =
      (s.obstacleSpawner.update dt s.gameTime rType rSpawn).2 := by
  simp only [spawnStep]
  split <;> rfl

/-- `updateScore()` leaves the spawner alone. -/
theorem updateScore_spawner (s : DinoRun) :
    (updateScore s).obstacleSpawner = s.obstacleSpawner := by
  simp only [updateScore]
  split_ifs <;> rfl

/-- Lines 203-226 on a game without obstacles whose spawner holds a `NaN`
interval: nothing is spawned, the interval stays `NaN`, and the Dino only runs
its own `update`. -/
theorem advance_quiet (pow : ℚ → ℚ → ℚ) (s : DinoRun) (dt rType rSpawn : ℚ)
    (hobs : s.obstacles = []) (hnan : s.obstacleSpawner.nextSpawnTime = none) :
    (advance pow s dt rType rSpawn).obstacles = [] ∧
    (advance pow s dt rType rSpawn).obstacleSpawner.nextSpawnTime = none ∧
    (advance pow s dt rType rSpawn).dino = s.dino.update pow dt := by
  obtain ⟨s2, hs2⟩ : ∃ x : DinoRun, x = { s with
      gameTime := s.gameTime + dt
      distance := s.distance + s.baseScrollSpeed * s.gameSpeed * dt / 100 } := ⟨_, rfl⟩
  have hA : advance pow s dt rType rSpawn =
      cleanupObstacles (updateScore (checkCollisions
        (superUpdate pow (spawnStep (updateDifficulty s2) dt rType rSpawn) dt))) := by
    rw [hs2]
    rfl
  obtain ⟨_, _, _, _, _, d6, d7, d8, _⟩ := updateDifficulty_frame s2
  obtain ⟨s3, hs3⟩ : ∃ x : DinoRun, x = updateDifficulty s2 := ⟨_, rfl⟩
  rw [← hs3] at d6 d7 d8 hA
  have h3o : s3.obstacles = [] := by rw [d7, hs2]; exact hobs
  have h3n : s3.obstacleSpawner.nextSpawnTime = none := by rw [d8, hs2]; exact hnan
  have h3d : s3.dino = s.dino := by rw [d6, hs2]
  obtain ⟨n1, n2⟩ := ObstacleSpawner.update_of_nan s3.obstacleSpawner dt s3.gameTime rType rSpawn h3n
  obtain ⟨_, _, _, _, _, _, f7, _⟩ := spawnStep_frame s3 dt rType rSpawn
  have f8 := spawnStep_spawner s3 dt rType rSpawn
  have f9 := spawnStep_obstacles_of_none s3 dt rType rSpawn n1
  obtain ⟨s4, hs4⟩ : ∃ x : DinoRun, x = spawnStep s3 dt rType rSpawn := ⟨_, rfl⟩
  rw [← hs4] at f7 f8 f9 hA
  have h4o : s4.obstacles = [] := by rw [f9]; exact h3o
  have h4n : s4.obstacleSpawner.nextSpawnTime = none := by rw [f8]; exact n2
  have h5o : (superUpdate pow s4 dt).obstacles = [] := by
    show s4.obstacles.map _ = []
    rw [h4o]
    rfl
  have h6o : (checkCollisions (superUpdate pow s4 dt)).obstacles = [] := by
    show (collideLoop (superUpdate pow s4 dt).dino (superUpdate pow s4 dt).obstacles).2 = []
    rw [h5o]
    rfl
  have h6d : (checkCollisions (superUpdate pow s4 dt)).dino = s4.dino.update pow dt := by
    show (collideLoop (superUpdate pow s4 dt).dino (superUpdate pow s4 dt).obstacles).1 = _
    rw [h5o]
    rfl
  obtain ⟨_, u2⟩ := updateScore_eq (checkCollisions (superUpdate pow s4 dt))
  obtain ⟨_, _, _, _, v5⟩ := updateScore_frame (checkCollisions (superUpdate pow s4 dt))
  have v6 := updateScore_spawner (checkCollisions (superUpdate pow s4 dt))
  have h7o : (updateScore (checkCollisions (superUpdate pow s4 dt))).obstacles = [] := by
    rw [u2, h6o]
    rfl
  rw [hA]
  refine ⟨?_, ?_, ?_⟩
  · show (updateScore (checkCollisions (superUpdate pow s4 dt))).obstacles.filter _ = []
    rw [h7o]
    rfl
  · show (updateScore (checkCollisions (superUpdate pow s4 dt))).obstacleSpawner.nextSpawnTime
      = none
    rw [v6]
    exact h4n
  · show (updateScore (checkCollisions (superUpdate pow s4 dt))).dino = _
    rw [v5, h6d, f7, h3d]

/-- One `update` of a playing game without obstacles, with a `NaN` spawn
interval and a Dino below its strike limit: the game is still `playing` and in
the same situation. -/
theorem update_quiet (pow : ℚ → ℚ → ℚ) (s : DinoRun) (dt rType rSpawn : ℚ)
    (hplay : s.gameState = DinoGameState.playing) (hobs : s.obstacles = [])
    (hnan : s.obstacleSpawner.nextSpawnTime = none)
    (hstr : s.dino.strikes < s.dino.maxStrikes) :
    (update pow s dt rType rSpawn).gameState = DinoGameState.playing ∧
    (update pow s dt rType rSpawn).obstacles = [] ∧
    (update pow s dt rType rSpawn).obstacleSpawner.nextSpawnTime = none ∧
    (update pow s dt rType rSpawn).dino.strikes < (update pow s dt rType rSpawn).dino.maxStrikes := by
  obtain ⟨a1, a2, a3⟩ := advance_quiet pow s dt rType rSpawn hobs hnan
  obtain ⟨_, _, c3, _⟩ := advance_clock pow s dt rType rSpawn
  obtain ⟨d1, d2, _, _⟩ := Dino.update_damage_fields pow s.dino dt
  have hover : (advance pow s dt rType rSpawn).dino.isGameOver = false := by
    rw [a3]
    simp only [Dino.isGameOver, d1, d2, ge_iff_le, decide_eq_false_iff_not, not_le]
    exact hstr
  have hupd : update pow s dt rType rSpawn = advance pow s dt rType rSpawn := by
    simp only [update, hplay, ne_eq, not_true_eq_false, if_false, hover, Bool.false_eq_true]
  rw [hupd]
  refine ⟨by rw [c3]; exact hplay, a1, a2, ?_⟩
  rw [a3, d1, d2]
  exact hstr

/-- A run of `update` calls from such a state stays `playing`. -/
theorem updateAll_quiet (pow : ℚ → ℚ → ℚ) (frames : List Frame) :
    ∀ s : DinoRun, s.gameState = DinoGameState.playing → s.obstacles = [] →
      s.obstacleSpawner.nextSpawnTime = none → s.dino.strikes < s.dino.maxStrikes →
      (updateAll pow s frames).gameState = DinoGameState.playing := by
  induction frames with
  | nil => intro s h _ _ _; exact h
  | cons f fs ih =>
    intro s hplay hobs hnan hstr
    obtain ⟨q1, q2, q3, q4⟩ := update_quiet pow s f.dt f.rType f.rSpawn hplay hobs hnan hstr
    exact ih _ q1 q2 q3 q4

/-- While the game clock stays below 30 s a multiplier of 1 does not change:
along a run with non-negative delta times that ends before 30 s, every
multiplier seen is 1. -/
theorem updateAll_no_rise (pow : ℚ → ℚ → ℚ) (frames : List Frame) :
    ∀ s : DinoRun, s.difficultyIncrease = 1 / 20 → s.gameSpeed = 1 →
      (∀ f ∈ frames, 0 ≤ f.dt) → s.gameTime + (frames.map Frame.dt).sum < 30 →
      (updateAll pow s frames).gameSpeed = 1 ∧
      ∀ v ∈ speedTrace pow s frames, v = 1 := by
  induction frames with
  | nil =>
    intro s _ hS _ _
    exact ⟨hS, by simp [speedTrace]⟩
  | cons f fs ih =>
    intro s hinc hS hdt hsum
    have hf0 : 0 ≤ f.dt := hdt f (List.mem_cons_self f fs)
    have hrest0 : 0 ≤ (fs.map Frame.dt).sum := by
      apply List.sum_nonneg
      intro x hx
      obtain ⟨g, hg, hgx⟩ := List.mem_map.mp hx
      rw [← hgx]
      exact hdt g (List.mem_cons_of_mem f hg)
    rw [List.map_cons, List.sum_cons] at hsum
    have hstep : updateAll pow s (f :: fs) =
        updateAll pow (update pow s f.dt f.rType f.rSpawn) fs := rfl
    have hnext : (update pow s f.dt f.rType f.rSpawn).difficultyIncrease = 1 / 20 ∧
        (update pow s f.dt f.rType f.rSpawn).gameSpeed = 1 ∧
        (update pow s f.dt f.rType f.rSpawn).gameTime + (fs.map Frame.dt).sum < 30 := by
      by_cases hplay : s.gameState = DinoGameState.playing
      · obtain ⟨h1, h2, h3⟩ := update_clock pow s f.dt f.rType f.rSpawn hplay
        have hfl : ⌊(s.gameTime + f.dt) / 30⌋ ≤ 0 := by
          have hlt : ⌊(s.gameTime + f.dt) / 30⌋ < 1 := by
            rw [Int.floor_lt]
            push_cast
            linarith
          omega
        have hflq : (⌊(s.gameTime + f.dt) / 30⌋ : ℚ) ≤ 0 := by exact_mod_cast hfl
        refine ⟨by rw [h2, hinc], ?_, by rw [h1]; linarith⟩
        rw [h3, hinc, hS, if_neg (by
          simp only [gt_iff_lt, not_lt]
          nlinarith)]
      · rw [update_of_not_playing pow s f.dt f.rType f.rSpawn hplay]
        exact ⟨hinc, hS, by linarith⟩
    obtain ⟨n1, n2, n3⟩ := hnext
    obtain ⟨i1, i2⟩ := ih (update pow s f.dt f.rType f.rSpawn) n1 n2
      (fun g hg => hdt g (List.mem_cons_of_mem f hg)) n3
    rw [hstep]
    refine ⟨i1, ?_⟩
    intro v hv
    simp only [speedTrace, List.mem_cons] at hv
    rcases hv with hv | hv
    · rw [hv]
      exact n2
    · exact i2 v hv

/-- The frame that `start()` triggers inside `startGame()`, on a game without
obstacles whose spawner holds a `NaN` interval and whose Dino is below its
strike limit: afterwards the game is `playing` in the same situation, with the
increment it had. -/
theorem startGame_quiet (pow : ℚ → ℚ → ℚ) (s : DinoRun) (now rType rSpawn : ℚ)
    (hobs : s.obstacles = []) (hnan : s.obstacleSpawner.nextSpawnTime = none)
    (hstr : s.dino.strikes < s.dino.maxStrikes) :
    (startGame pow s now rType rSpawn).gameState = DinoGameState.playing ∧
    (startGame pow s now rType rSpawn).difficultyIncrease = s.difficultyIncrease ∧
    (startGame pow s now rType rSpawn).obstacles = [] ∧
    (startGame pow s now rType rSpawn).obstacleSpawner.nextSpawnTime = none ∧
    (startGame pow s now rType rSpawn).dino.strikes <
      (startGame pow s now rType rSpawn).dino.maxStrikes ∧
    (startGame pow s now rType rSpawn).gameSpeed =
      if 1 + (⌊(s.gameTime + min ((0 - now) / 1000) (1 / 30)) / 30⌋ : ℚ) * s.difficultyIncrease
          > s.gameSpeed then
        min (1 + (⌊(s.gameTime + min ((0 - now) / 1000) (1 / 30)) / 30⌋ : ℚ) *
          s.difficultyIncrease) (5 / 2)
      else s.gameSpeed := by
  have hstart : startGame pow s now rType rSpawn =
      start pow { s with gameState := DinoGameState.playing, showInstructions := false }
        now rType rSpawn := rfl
  obtain ⟨x, hx⟩ : ∃ x : DinoRun, x = { s with
      gameState := DinoGameState.playing
      showInstructions := false
      toLoopState := (s.toLoopState.markStarted now).beginFrame LoopState.startFrameTime } :=
    ⟨_, rfl⟩
  have hxplay : x.gameState = DinoGameState.playing := by rw [hx]
  have hxobs : x.obstacles = [] := by rw [hx]; exact hobs
  have hxnan : x.obstacleSpawner.nextSpawnTime = none := by rw [hx]; exact hnan
  have hxstr : x.dino.strikes < x.dino.maxStrikes := by rw [hx]; exact hstr
  have hxT : x.gameTime = s.gameTime := by rw [hx]
  have hxI : x.difficultyIncrease = s.difficultyIncrease := by rw [hx]
  have hxS : x.gameSpeed = s.gameSpeed := by rw [hx]
  have heq : startGame pow s now rType rSpawn =
      { update pow x (min ((0 - now) / 1000) (1 / 30)) rType rSpawn with
        toLoopState := (update pow x (min ((0 - now) / 1000) (1 / 30)) rType
          rSpawn).toLoopState.updateFPS LoopState.startFrameTime } := by
    rw [hstart, start_eq, hx]
  obtain ⟨k1, k2, k3, k4⟩ := update_quiet pow x (min ((0 - now) / 1000) (1 / 30)) rType rSpawn
    hxplay hxobs hxnan hxstr
  obtain ⟨_, c2, c3⟩ := update_clock pow x (min ((0 - now) / 1000) (1 / 30)) rType rSpawn hxplay
  rw [hxT, hxI, hxS] at c3
  rw [hxI] at c2
  rw [heq]
  exact ⟨k1, c2, k2, k3, k4, c3⟩

/-- A newly constructed game after `startGame()` when `performance.now()`
reads 5000 ms: the frame that `start()` triggers has run `update(-5)`, so the
game is `playing` with `gameTime = -5`; the multiplier is 1, there is no
obstacle, the spawn interval is `NaN` and the Dino has no strike. -/
theorem startGame_late (pow : ℚ → ℚ → ℚ) (rType rSpawn : ℚ) :
    (startGame pow (new 0) 5000 rType rSpawn).gameState = DinoGameState.playing ∧
    (startGame pow (new 0) 5000 rType rSpawn).gameTime = -5 ∧
    (startGame pow (new 0) 5000 rType rSpawn).gameSpeed = 1 ∧
    (startGame pow (new 0) 5000 rType rSpawn).difficultyIncrease = 1 / 20 ∧
    (startGame pow (new 0) 5000 rType rSpawn).obstacles = [] ∧
    (startGame pow (new 0) 5000 rType rSpawn).obstacleSpawner.nextSpawnTime = none ∧
    (startGame pow (new 0) 5000 rType rSpawn).dino.strikes <
      (startGame pow (new 0) 5000 rType rSpawn).dino.maxStrikes := by
  obtain ⟨g1, g2, g3, g4, g5, g6⟩ := startGame_quiet pow (new 0) 5000 rType rSpawn rfl rfl
    (by norm_num [new, Dino.new])
  have hfl : ⌊((0 : ℚ) + min ((0 - 5000) / 1000) (1 / 30)) / 30⌋ = -1 := by
    have hmin : min (((0 : ℚ) - 5000) / 1000) (1 / 30) = -5 := by norm_num
    rw [hmin, Int.floor_eq_iff]
    constructor <;> norm_num
  have hT : (new 0).gameTime = 0 := rfl
  have hI : (new 0).difficultyIncrease = 1 / 20 := rfl
  have hS : (new 0).gameSpeed = 1 := rfl
  rw [hT, hI, hS, hfl] at g6
  rw [hI] at g2
  refine ⟨g1, ?_, ?_, g2, g3, g4, g5⟩
  · rw [DinoRun.startGame_gameTime, hT]
    norm_num
  · rw [g6]
    norm_num

end DinoRun

/-- C16 (code defect, the one of C20): the frame that `start()` triggers inside
`startGame()` runs `update` with a negative delta time, so the game clock does
not start at 0.  A newly constructed game started when `performance.now()`
reads 5000 ms is `playing` with `gameTime = -5` and `gameSpeed = 1`.  After one
`update(1/30)` the multiplier is 1 while
`min (1.0 + 0.05 * floor (gameTime / 30)) 2.5` is 0.95.  After any run of
`update` calls with `dt ≥ 0` that add up to 31 seconds the game is still
`playing`, its clock reads 26 s, and the multiplier is 1 after every one of
the updates: it has not risen to 1.05. -/
theorem start_frame_delays_speed_up (pow : ℚ → ℚ → ℚ) (frames : List Frame)
    (hdt : ∀ f ∈ frames, 0 ≤ f.dt) (hsum : (frames.map Frame.dt).sum = 31) :
    (DinoRun.startGame pow (DinoRun.new 0) 5000 0 0).gameState = DinoGameState.playing ∧
    (DinoRun.startGame pow (DinoRun.new 0) 5000 0 0).gameTime = -5 ∧
    (DinoRun.startGame pow (DinoRun.new 0) 5000 0 0).gameSpeed = 1 ∧
    (DinoRun.update pow (DinoRun.startGame pow (DinoRun.new 0) 5000 0 0) (1 / 30) 0 0).gameSpeed
      = 1 ∧
    min (1 + (1 / 20) *
      (⌊(DinoRun.update pow (DinoRun.startGame pow (DinoRun.new 0) 5000 0 0)
        (1 / 30) 0 0).gameTime / 30⌋ : ℚ)) (5 / 2) = 19 / 20 ∧
    (DinoRun.updateAll pow (DinoRun.startGame pow (DinoRun.new 0) 5000 0 0) frames).gameState
      = DinoGameState.playing ∧
    (DinoRun.updateAll pow (DinoRun.startGame pow (DinoRun.new 0) 5000 0 0) frames).gameTime
      = 26 ∧
    (DinoRun.updateAll pow (DinoRun.startGame pow (DinoRun.new 0) 5000 0 0) frames).gameSpeed
      = 1 ∧
    ∀ v ∈ DinoRun.speedTrace pow (DinoRun.startGame pow (DinoRun.new 0) 5000 0 0) frames,
      v = 1 := by
  obtain ⟨a1, a2, a3, a4, a5, a6, a7⟩ := DinoRun.startGame_late pow 0 0
  generalize DinoRun.startGame pow (DinoRun.new 0) 5000 0 0 = s0 at a1 a2 a3 a4 a5 a6 a7 ⊢
  obtain ⟨c1, _, c3⟩ := DinoRun.update_clock pow s0 (1 / 30) 0 0 a1
  have hfl : ⌊((-5 : ℚ) + 1 / 30) / 30⌋ = -1 := by
    rw [Int.floor_eq_iff]
    constructor <;> norm_num
  rw [a2, a3, a4, hfl] at c3
  rw [a2] at c1
  have hplay := DinoRun.updateAll_quiet pow frames s0 a1 a5 a6 a7
  have hclock := (DinoRun.updateAll_playing_clock pow frames s0 hplay).2
  rw [a2, hsum] at hclock
  obtain ⟨n1, n2⟩ := DinoRun.updateAll_no_rise pow frames s0 a4 a3 hdt (by
    rw [a2, hsum]
    norm_num)
  refine ⟨a1, a2, a3, ?_, ?_, hplay, ?_, n1, n2⟩
  · rw [c3]
    norm_num
  · rw [c1, hfl]
    norm_num
  · rw [hclock]
    norm_num

/-- Witness for C16: a frame of 30 seconds and a frame of 1 second after the
late start: the clock reads 26 s and the multiplier is still 1. -/
theorem start_frame_delays_speed_up_witness :
    (DinoRun.updateAll (fun _ _ => 1) (DinoRun.startGame (fun _ _ => 1) (DinoRun.new 0) 5000 0 0)
      [⟨30, 0, 0⟩, ⟨1, 0, 0⟩]).gameTime = 26 ∧
    (DinoRun.updateAll (fun _ _ => 1) (DinoRun.startGame (fun _ _ => 1) (DinoRun.new 0) 5000 0 0)
      [⟨30, 0, 0⟩, ⟨1, 0, 0⟩]).gameSpeed = 1 :=
  ⟨(start_frame_delays_speed_up (fun _ _ => 1) [⟨30, 0, 0⟩, ⟨1, 0, 0⟩]
      (by
        intro f hf
        simp only [List.mem_cons, List.mem_singleton, List.not_mem_nil, or_false] at hf
        rcases hf with h | h <;> rw [h] <;> norm_num)
      (by norm_num)).2.2.2.2.2.2.1,
    (start_frame_delays_speed_up (fun _ _ => 1) [⟨30, 0, 0⟩, ⟨1, 0, 0⟩]
      (by
        intro f hf
        simp only [List.mem_cons, List.mem_singleton, List.not_mem_nil, or_false] at hf
        rcases hf with h | h <;> rw [h] <;> norm_num)
      (by norm_num)).2.2.2.2.2.2.2.1⟩
